import Mathlib

/-!
# BSS candidate scoring (`umac/scan/core/src/wlan_scan_bss_score.c`)

A shallow embedding of the scoring routines of the scan component and the
properties they satisfy.  C integers are mathematical integers; every store
into a fixed-width C object goes through one of the `wrap*` functions below, so
that truncation and the signed/unsigned conversions of C stay visible.  A
division whose divisor is zero makes the routine return `none`.
-/

namespace ScanBssScore

/-! ## Fixed-width integers -/

/-- Value of an integer after conversion to `uint32_t`. -/
def wrapU32 (x : Int) : Int := x % 4294967296

/-- Value of an integer after conversion to `int32_t` (two's complement). -/
def wrapI32 (x : Int) : Int := (x + 2147483648) % 4294967296 - 2147483648

/-- Value of an integer after conversion to `int8_t` (two's complement). -/
def wrapI8 (x : Int) : Int := (x + 128) % 256 - 128

/-- Value of an integer after conversion to `uint8_t`. -/
def wrapU8 (x : Int) : Int := x % 256

/-- Value of an integer after conversion to `uint64_t`. -/
def wrapU64 (x : Int) : Int := x % 18446744073709551616

/-! ## Constants -/

/-- Modelled from the spec: the macro `MAX_PCT_SCORE` is defined outside the
sources at hand; the spec gives the full score of a factor as `100 * weight`. -/
def MAX_PCT_SCORE : Int := 100

/-- Largest weight a preferred-channel-list entry can carry. -/
def SCM_MAX_WEIGHT_OF_PCL_CHANNELS : Int := 255

/-- Weight distance between two preferred-channel-list groups. -/
def SCM_PCL_GROUPS_WEIGHT_DIFFERENCE : Int := 20

/-- Table index of a 20 MHz channel. -/
def SCM_20MHZ_BW_INDEX : Int := 0

/-- Table index of a 40 MHz channel. -/
def SCM_40MHZ_BW_INDEX : Int := 1

/-- Table index of an 80 MHz channel. -/
def SCM_80MHZ_BW_INDEX : Int := 2

/-- Table index of a 160 MHz channel. -/
def SCM_160MHZ_BW_INDEX : Int := 3

/-- First slot index. -/
def SCM_SCORE_INDEX_0 : Int := 0

/-- Last slot index held by the first packed word. -/
def SCM_SCORE_INDEX_3 : Int := 3

/-- Last slot index held by the second packed word. -/
def SCM_SCORE_INDEX_7 : Int := 7

/-- Slot index of the lowest byte of the second packed word. -/
def SCM_SCORE_OFFSET_INDEX_7_4 : Int := 4

/-- Last slot index held by the third packed word. -/
def SCM_SCORE_INDEX_11 : Int := 11

/-- Slot index of the lowest byte of the third packed word. -/
def SCM_SCORE_OFFSET_INDEX_11_8 : Int := 8

/-- Largest slot index, also the largest slot count. -/
def SCM_SCORE_MAX_INDEX : Int := 15

/-- Slot index of the lowest byte of the fourth packed word. -/
def SCM_SCORE_OFFSET_INDEX_15_12 : Int := 12

/-- Number of downlink capacity values of the OCE WAN metrics; the scoring code
defines it and never reads it. -/
def SCM_MAX_OCE_WAN_DL_CAP : Int := 16

/-- Scale of the air-time percentage. -/
def SCM_MAX_CHANNEL_WEIGHT : Int := 100

/-- Channel utilisation of a fully loaded channel, in percent. -/
def SCM_MAX_CHANNEL_UTILIZATION : Int := 100

/-- Largest estimated air-time fraction. -/
def SCM_MAX_ESTIMATED_AIR_TIME_FRACTION : Int := 255

/-- Largest QBSS channel load. -/
def MAX_AP_LOAD : Int := 255

/-- Table index of one spatial stream. -/
def SCM_NSS_1x1_INDEX : Int := 0

/-- Table index of two spatial streams. -/
def SCM_NSS_2x2_INDEX : Int := 1

/-- Table index of three spatial streams. -/
def SCM_NSS_3x3_INDEX : Int := 2

/-- Table index of four spatial streams. -/
def SCM_NSS_4x4_INDEX : Int := 3

/-- Table index of the 2.4 GHz band. -/
def SCM_BAND_2G_INDEX : Int := 0

/-- Table index of the 5 GHz band. -/
def SCM_BAND_5G_INDEX : Int := 1

/-- Table index of the 6 GHz band. -/
def SCM_BAND_6G_INDEX : Int := 2

/-- Congestion percentage from which band and OCE WAN scores are left out. -/
def CONGESTION_THRSHOLD_FOR_BAND_OCE_SCORE : Int := 75

/-- Modelled from the spec: `qdf_do_div` is defined outside the sources at
hand; the spec describes its use as integer division.  Both operands are taken
as unsigned 64-bit values; a zero divisor gives `none`. -/
def qdf_do_div (dividend divisor : Int) : Option Int :=
  if wrapU64 divisor = 0 then none else some (wrapU64 dividend / wrapU64 divisor)

/-- Modelled from the spec: the macro `WLAN_GET_SCORE_PERCENTAGE` is defined
outside the sources at hand; the spec describes the per-index tables as packed
8-bit percentages, four to a 32-bit word.  The result is byte `bbmm_index` of
`value32` (a right shift by `8 * bbmm_index` bits, then the low 8 bits); a byte
index outside 0..3 would shift a 32-bit value by 32 bits or more and gives
`none`. -/
def WLAN_GET_SCORE_PERCENTAGE (value32 bbmm_index : Int) : Option Int :=
  if 0 ≤ bbmm_index ∧ bbmm_index ≤ 3 then
    some ((value32 / 256 ^ bbmm_index.toNat) % 256)
  else none

/-! ## Data model -/

/-- Modelled from the spec: `struct rssi_cfg_score` is declared outside the
sources at hand.  The fields are the ones the scoring code reads: the three
thresholds and the 5 GHz preference threshold are stored as positive
magnitudes of a negative dBm value, the percentages and bucket sizes are
unsigned. -/
structure rssi_cfg_score where
  best_rssi_threshold : Nat := 0
  good_rssi_threshold : Nat := 0
  bad_rssi_threshold : Nat := 0
  good_rssi_pcnt : Nat := 0
  bad_rssi_pcnt : Nat := 0
  good_rssi_bucket_size : Nat := 0
  bad_rssi_bucket_size : Nat := 0
  rssi_pref_5g_rssi_thresh : Nat := 0

/-- Every field of the RSSI configuration is an 8-bit quantity.  The scoring
code itself keeps these fields in 8-bit objects: the aggregator stores the
negated good and 5 GHz preference thresholds in `int8_t` locals, the same-bucket
test takes the bucket size as `int8_t`, and the transmit-power scorer stores
`bad_rssi_pcnt` in a `uint8_t`. -/
@[reducible] def rssi_cfg_score.byte_fields (p : rssi_cfg_score) : Prop :=
  p.best_rssi_threshold ≤ 255 ∧ p.good_rssi_threshold ≤ 255 ∧
  p.bad_rssi_threshold ≤ 255 ∧ p.good_rssi_pcnt ≤ 255 ∧ p.bad_rssi_pcnt ≤ 255 ∧
  p.good_rssi_bucket_size ≤ 255 ∧ p.bad_rssi_bucket_size ≤ 255 ∧
  p.rssi_pref_5g_rssi_thresh ≤ 255

/-- Modelled from the spec: `enum wlan_phymode` and the macros
`IS_WLAN_PHYMODE_40MHZ`, `IS_WLAN_PHYMODE_80MHZ` and `IS_WLAN_PHYMODE_160MHZ`
are defined outside the sources at hand.  The spec describes the PHY mode of a
candidate by its channel-width class, which is all the scoring code asks of
it. -/
inductive wlan_phymode where
  | mhz20 : wlan_phymode
  | mhz40 : wlan_phymode
  | mhz80 : wlan_phymode
  | mhz160 : wlan_phymode

/-- Modelled from the spec: true on the PHY modes of the 40 MHz class. -/
def IS_WLAN_PHYMODE_40MHZ : wlan_phymode → Bool
  | .mhz40 => true
  | _ => false

/-- Modelled from the spec: true on the PHY modes of the 80 MHz class. -/
def IS_WLAN_PHYMODE_80MHZ : wlan_phymode → Bool
  | .mhz80 => true
  | _ => false

/-- Modelled from the spec: true on the PHY modes of the 160 MHz class. -/
def IS_WLAN_PHYMODE_160MHZ : wlan_phymode → Bool
  | .mhz160 => true
  | _ => false

/-- Modelled from the spec: the band tests `WLAN_REG_IS_24GHZ_CH_FREQ`,
`WLAN_REG_IS_5GHZ_CH_FREQ` and `WLAN_REG_IS_6GHZ_CHAN_FREQ` belong to the
regulatory component, outside the sources at hand.  They are taken as
parameters: any three tests on a frequency in MHz. -/
structure reg_services where
  WLAN_REG_IS_24GHZ_CH_FREQ : Nat → Bool
  WLAN_REG_IS_5GHZ_CH_FREQ : Nat → Bool
  WLAN_REG_IS_6GHZ_CHAN_FREQ : Nat → Bool

/-- Modelled from the spec: the OCE/MBO information element of a candidate is
opaque to the scoring code, which only sees what the three parsers (outside the
sources at hand) report: the downlink capacity of the reduced WAN metrics when
that attribute is present, whether a subnet ID is declared, and the AP transmit
power in dBm when it is advertised. -/
structure mbo_oce_ie where
  downlink_av_cap : Option Nat := none
  subnet_id_present : Bool := false
  ap_tx_pwr_dbm : Option Int := none

/-- The reduced WAN metrics filled in by the parser. -/
structure oce_reduced_wan_metrics where
  downlink_av_cap : Nat := 0

/-- Modelled from the spec: `wlan_parse_oce_reduced_wan_metrics_ie` reports the
reduced WAN metrics when the element carries them. -/
def wlan_parse_oce_reduced_wan_metrics_ie (mbo_oce : mbo_oce_ie) :
    Option oce_reduced_wan_metrics :=
  mbo_oce.downlink_av_cap.map (fun c => { downlink_av_cap := c })

/-- Modelled from the spec: `wlan_parse_oce_subnet_id_ie` reports whether the
element declares a subnet ID. -/
def wlan_parse_oce_subnet_id_ie (mbo_oce : mbo_oce_ie) : Bool :=
  mbo_oce.subnet_id_present

/-- Modelled from the spec: `wlan_parse_oce_ap_tx_pwr_ie` reports the AP
transmit power in dBm when the element advertises it. -/
def wlan_parse_oce_ap_tx_pwr_ie (mbo_oce : mbo_oce_ie) : Option Int :=
  mbo_oce.ap_tx_pwr_dbm

/-- Modelled from the spec: of the VHT capabilities element (declared outside
the sources at hand) the scoring code reads the single-user beamformer bit. -/
structure wlan_ie_vhtcaps where
  su_beam_former : Bool := false

/-- Modelled from the spec: of the element list of a candidate (declared outside
the sources at hand) the scoring code reads whether the HT and HE capability
elements are there, and the VHT capabilities element when it is there. -/
structure ie_list where
  htcap : Bool := false
  vhtcap : Option wlan_ie_vhtcaps := none
  hecap : Bool := false

/-- Modelled from the spec: `struct scan_cache_entry` is declared outside the
sources at hand.  Only the members the scoring code touches are kept: the
signed raw RSSI in dBm, the signed total score, the operating frequency in MHz,
the PHY mode, the two congestion metrics, the OCE/MBO element, the advertised
stream count, the element list and the pdev the candidate was seen on. -/
structure scan_cache_entry where
  rssi_raw : Int := 0
  bss_score : Int := 0
  chan_freq : Nat := 0
  phy_mode : wlan_phymode := wlan_phymode.mhz20
  air_time_fraction : Nat := 0
  qbss_chan_load : Nat := 0
  mbo_oce : mbo_oce_ie := {}
  nss : Nat := 0
  ie_list : ie_list := {}
  pdev_id : Nat := 0

/-- Modelled from the spec: `util_scan_entry_vhtcap` (outside the sources at
hand) hands out the VHT capabilities element of the candidate. -/
def util_scan_entry_vhtcap (entry : scan_cache_entry) : Option wlan_ie_vhtcaps :=
  entry.ie_list.vhtcap

/-- Modelled from the spec: `struct weight_config` is declared outside the
sources at hand; one weightage per scoring factor. -/
structure weight_config where
  rssi_weightage : Nat := 0
  ht_caps_weightage : Nat := 0
  vht_caps_weightage : Nat := 0
  he_caps_weightage : Nat := 0
  chan_width_weightage : Nat := 0
  chan_band_weightage : Nat := 0
  nss_weightage : Nat := 0
  beamforming_cap_weightage : Nat := 0
  pcl_weightage : Nat := 0
  channel_congestion_weightage : Nat := 0
  oce_wan_weightage : Nat := 0
  oce_ap_tx_pwr_weightage : Nat := 0
  oce_subnet_id_weightage : Nat := 0

/-- Modelled from the spec: `struct per_slot_scoring` is declared outside the
sources at hand: a slot count and four 32-bit words of four packed percentages
each. -/
structure per_slot_scoring where
  num_slot : Nat := 0
  score_pcnt3_to_0 : Nat := 0
  score_pcnt7_to_4 : Nat := 0
  score_pcnt11_to_8 : Nat := 0
  score_pcnt15_to_12 : Nat := 0

/-- Modelled from the spec: `struct scoring_config` is declared outside the
sources at hand.  The fields are the ones the scoring code reads. -/
structure scoring_config where
  weight_cfg : weight_config := {}
  rssi_score : rssi_cfg_score := {}
  esp_qbss_scoring : per_slot_scoring := {}
  oce_wan_scoring : per_slot_scoring := {}
  bandwidth_weight_per_index : Nat := 0
  nss_weight_per_index : Nat := 0
  band_weight_per_index : Nat := 0
  cb_mode_24G : Nat := 0
  cb_mode_5G : Nat := 0
  vdev_nss_24g : Nat := 0
  vdev_nss_5g : Nat := 0
  ht_cap : Bool := false
  vht_cap : Bool := false
  he_cap : Bool := false
  vht_24G_cap : Bool := false
  beamformee_cap : Bool := false

/-- Modelled from the spec: the psoc object and the services reached through it
are outside the sources at hand.  The scoring code asks it for the scan object,
which holds the scoring configuration and may be missing, for the pdev of a
candidate, which may be missing, and, in builds with the policy manager
(`WLAN_POLICY_MGR_ENABLE`), for three answers of the policy manager. -/
structure wlan_objmgr_psoc where
  scan_obj : Option scoring_config := none
  pdev_by_id : Nat → Bool := fun _ => false
  WLAN_POLICY_MGR_ENABLE : Bool := false
  policy_mgr_is_chnl_in_diff_band : Nat → Bool := fun _ => false
  policy_mgr_is_hw_dbs_capable : Bool := false
  policy_mgr_is_hw_dbs_2x2_capable : Bool := false

/-- Modelled from the spec: `wlan_psoc_get_scan_obj` followed by the address of
`scan_def.score_config`; `none` stands for a missing scan object. -/
def wlan_psoc_get_scan_obj (psoc : wlan_objmgr_psoc) : Option scoring_config :=
  psoc.scan_obj

/-- Modelled from the spec: `wlan_objmgr_get_pdev_by_id`; `false` stands for a
missing pdev. -/
def wlan_objmgr_get_pdev_by_id (psoc : wlan_objmgr_psoc) (pdev_id : Nat) : Bool :=
  psoc.pdev_by_id pdev_id

/-- Modelled from the spec (design notes): the slot table as a flat array of 16
percentages, entry `4 * g + k` being byte `k` of group `g`, the groups being
`score_pcnt3_to_0`, `score_pcnt7_to_4`, `score_pcnt11_to_8` and
`score_pcnt15_to_12` in this order. -/
def per_slot_scoring.table (s : per_slot_scoring) (i : Int) : Int :=
  let group : Int :=
    if i / 4 = 0 then s.score_pcnt3_to_0
    else if i / 4 = 1 then s.score_pcnt7_to_4
    else if i / 4 = 2 then s.score_pcnt11_to_8
    else s.score_pcnt15_to_12
  (group / 256 ^ (i % 4).toNat) % 256

/-! ## Comparator -/

/-- The comparator `scm_is_better_bss`: the first candidate wins on a strictly
higher score, or on a strictly higher raw RSSI when the scores are equal.  The
first argument stands for `params`, which the body never reads. -/
def scm_is_better_bss {P : Type} (_params : P)
    (bss1 bss2 : scan_cache_entry) : Bool :=
  if bss1.bss_score > bss2.bss_score then true
  else if bss1.bss_score = bss2.bss_score then
    if bss1.rssi_raw > bss2.rssi_raw then true else false
  else false

/-! ## RSSI bucket mapper -/

/-- The slot mapper `scm_get_rssi_pcnt_for_slot`.  The thresholds are `int32_t`,
the percentages and the bucket size `uint32_t`, the RSSI `int8_t`; the five
locals are `int8_t`.  Arithmetic that mixes a signed operand with a `uint32_t`
one is carried out on `uint32_t`, which includes the final comparison against
`low_rssi_pcnt`. -/
def scm_get_rssi_pcnt_for_slot (high_rssi_threshold low_rssi_threshold : Int)
    (high_rssi_pcnt low_rssi_pcnt bucket_size : Int) (bss_rssi : Int) :
    Option Int :=
  if bucket_size = 0 then none
  else
    let num_slot : Int :=
      wrapI8 (wrapU32 (wrapU32 (wrapI32 (high_rssi_threshold - low_rssi_threshold))
        / bucket_size + 1))
    if wrapU32 num_slot = 0 then none
    else
      let slot_size : Int :=
        wrapI8 (wrapU32 (wrapU32 (high_rssi_pcnt - low_rssi_pcnt)
          + wrapU32 (Int.tdiv num_slot 2)) / wrapU32 num_slot)
      let rssi_diff : Int := wrapI8 (wrapI32 (high_rssi_threshold - bss_rssi))
      let slot_index : Int :=
        wrapI8 (wrapU32 (wrapU32 rssi_diff / bucket_size + 1))
      let rssi_pcnt : Int :=
        wrapI8 (wrapU32 (high_rssi_pcnt - wrapU32 (slot_size * slot_index)))
      if wrapU32 rssi_pcnt < low_rssi_pcnt then some (wrapI8 low_rssi_pcnt)
      else some rssi_pcnt

/-! ## RSSI score -/

/-- The RSSI scorer `scm_calculate_rssi_score`.  `rssi` is `int32_t` and is
narrowed to `int8_t` when it is handed to the slot mapper; `rssi_weightage` is
`uint8_t`.  The product with `bad_rssi_pcnt` is a `uint32_t` product, the one
with the slot percentage a signed one. -/
def scm_calculate_rssi_score (score_param : rssi_cfg_score) (rssi : Int)
    (rssi_weightage : Nat) : Option Int :=
  let best_rssi_threshold : Int :=
    wrapI32 ((score_param.best_rssi_threshold : Int) * (-1))
  let good_rssi_threshold : Int :=
    wrapI32 ((score_param.good_rssi_threshold : Int) * (-1))
  let bad_rssi_threshold : Int :=
    wrapI32 ((score_param.bad_rssi_threshold : Int) * (-1))
  let good_rssi_pcnt : Int := wrapU32 score_param.good_rssi_pcnt
  let bad_rssi_pcnt : Int := wrapU32 score_param.bad_rssi_pcnt
  let good_bucket_size : Int := wrapU32 score_param.good_rssi_bucket_size
  let bad_bucket_size : Int := wrapU32 score_param.bad_rssi_bucket_size
  let total_rssi_score : Int := wrapI32 (MAX_PCT_SCORE * wrapU8 rssi_weightage)
  if rssi > best_rssi_threshold then some total_rssi_score
  else if rssi ≤ bad_rssi_threshold then
    some (wrapI32 (wrapU32 (total_rssi_score * bad_rssi_pcnt) / 100))
  else
    let rssi_pcnt : Option Int :=
      if rssi > good_rssi_threshold then
        scm_get_rssi_pcnt_for_slot best_rssi_threshold good_rssi_threshold
          100 good_rssi_pcnt good_bucket_size (wrapI8 rssi)
      else
        scm_get_rssi_pcnt_for_slot good_rssi_threshold bad_rssi_threshold
          good_rssi_pcnt bad_rssi_pcnt bad_bucket_size (wrapI8 rssi)
    rssi_pcnt.map (fun p => Int.tdiv (wrapI32 (total_rssi_score * p)) 100)

/-! ## Preferred-channel-list score -/

/-- The PCL scorer `scm_calculate_pcl_score`.  `pcl_chan_weight` is `int`,
`pcl_weightage` is `uint8_t`, the two locals are `int32_t`. -/
def scm_calculate_pcl_score (pcl_chan_weight : Int) (pcl_weightage : Nat) :
    Option Int :=
  if pcl_chan_weight ≠ 0 then
    let temp_pcl_chan_weight : Int :=
      wrapI32 (SCM_MAX_WEIGHT_OF_PCL_CHANNELS - pcl_chan_weight)
    (qdf_do_div temp_pcl_chan_weight SCM_PCL_GROUPS_WEIGHT_DIFFERENCE).map
      (fun q =>
        let temp_pcl_chan_weight : Int := wrapI32 q
        let pcl_score : Int := wrapI32 (wrapU8 pcl_weightage - temp_pcl_chan_weight)
        let pcl_score : Int := if pcl_score < 0 then 0 else pcl_score
        wrapI32 (pcl_score * MAX_PCT_SCORE))
  else some (wrapI32 (0 * MAX_PCT_SCORE))

/-! ## Prorated capability percentage -/

/-- The same-bucket test `scm_rssi_is_same_bucket`.  All four parameters are
`int8_t`, as are the two differences; the divisions are signed. -/
def scm_rssi_is_same_bucket (rssi_top_thresh rssi_ref1 rssi_ref2 bucket_size : Int) :
    Option Bool :=
  let rssi_diff1 : Int := wrapI8 (rssi_top_thresh - rssi_ref1)
  let rssi_diff2 : Int := wrapI8 (rssi_top_thresh - rssi_ref2)
  if bucket_size = 0 then none
  else some (decide (Int.tdiv rssi_diff1 bucket_size = Int.tdiv rssi_diff2 bucket_size))

/-- The prorated percentage `scm_roam_calculate_prorated_pcnt_by_rssi`.  The good
and bad thresholds are `int32_t` locals, the 5 GHz preference threshold an
`int8_t` local; the arguments of the same-bucket test are narrowed to `int8_t`.
The result is `int8_t`; `rssi_weightage` is not read. -/
def scm_roam_calculate_prorated_pcnt_by_rssi (score_param : rssi_cfg_score)
    (rssi : Int) (_rssi_weightage : Nat) : Option Int :=
  let good_rssi_threshold : Int :=
    wrapI32 ((score_param.good_rssi_threshold : Int) * (-1))
  let bad_rssi_threshold : Int :=
    wrapI32 ((score_param.bad_rssi_threshold : Int) * (-1))
  let rssi_pref_5g_rssi_thresh : Int :=
    wrapI8 ((score_param.rssi_pref_5g_rssi_thresh : Int) * (-1))
  if rssi > good_rssi_threshold then some (wrapI8 MAX_PCT_SCORE)
  else
    (scm_rssi_is_same_bucket (wrapI8 good_rssi_threshold) (wrapI8 rssi)
        rssi_pref_5g_rssi_thresh (wrapI8 score_param.bad_rssi_bucket_size)).bind
      (fun same_bucket =>
        if same_bucket = true ∨ rssi < rssi_pref_5g_rssi_thresh then some 0
        else if rssi ≤ bad_rssi_threshold then some 0
        else
          scm_get_rssi_pcnt_for_slot good_rssi_threshold bad_rssi_threshold
            (wrapU32 score_param.good_rssi_pcnt) (wrapU32 score_param.bad_rssi_pcnt)
            (wrapU32 score_param.bad_rssi_bucket_size) (wrapI8 rssi))

/-! ## Bandwidth score -/

/-- The bandwidth scorer `scm_calculate_bandwidth_score`.  `bw_weight_per_idx`
is an `int32_t` local, `cbmode` and `ch_width_index` are `uint8_t`, `score` is
`uint32_t` and `prorated_pct` a `uint8_t` parameter.  On a frequency outside
2.4 GHz the channel-bonding mode is read only inside the branch taken when
`vht_cap` is set; otherwise `cbmode` keeps its initial value 0. -/
def scm_calculate_bandwidth_score (reg : reg_services) (entry : scan_cache_entry)
    (score_config : scoring_config) (prorated_pct : Int) : Option Int :=
  let bw_weight_per_idx : Int := wrapI32 score_config.bandwidth_weight_per_index
  let cbmode : Int :=
    if reg.WLAN_REG_IS_24GHZ_CH_FREQ entry.chan_freq = true then
      wrapU8 score_config.cb_mode_24G
    else if score_config.vht_cap = true then wrapU8 score_config.cb_mode_5G
    else 0
  let is_vht : Bool :=
    if reg.WLAN_REG_IS_24GHZ_CH_FREQ entry.chan_freq = true then
      (if score_config.vht_24G_cap = true then true else false)
    else if score_config.vht_cap = true then true
    else false
  let ch_width_index : Int :=
    if IS_WLAN_PHYMODE_160MHZ entry.phy_mode = true then SCM_160MHZ_BW_INDEX
    else if IS_WLAN_PHYMODE_80MHZ entry.phy_mode = true then SCM_80MHZ_BW_INDEX
    else if IS_WLAN_PHYMODE_40MHZ entry.phy_mode = true then SCM_40MHZ_BW_INDEX
    else SCM_20MHZ_BW_INDEX
  let ch_width_index : Int :=
    if score_config.ht_cap = false ∧ ch_width_index > SCM_20MHZ_BW_INDEX then
      SCM_20MHZ_BW_INDEX
    else ch_width_index
  let ch_width_index : Int :=
    if is_vht = false ∧ ch_width_index > SCM_40MHZ_BW_INDEX then SCM_40MHZ_BW_INDEX
    else ch_width_index
  let score : Option Int :=
    if cbmode ≠ 0 ∧ ch_width_index > SCM_20MHZ_BW_INDEX then
      WLAN_GET_SCORE_PERCENTAGE bw_weight_per_idx ch_width_index
    else WLAN_GET_SCORE_PERCENTAGE bw_weight_per_idx SCM_20MHZ_BW_INDEX
  score.map (fun score =>
    wrapI32 (wrapU32 (wrapU32 (prorated_pct * wrapU32 score)
      * score_config.weight_cfg.chan_width_weightage) / MAX_PCT_SCORE))

/-! ## Slot tables -/

/-- The packed lookup `scm_get_score_for_index`.  `index` and `weightage` are
`uint8_t`; the product with the `uint32_t` percentage is returned as
`int32_t`. -/
def scm_get_score_for_index (index weightage : Int) (score : per_slot_scoring) :
    Option Int :=
  if index ≤ SCM_SCORE_INDEX_3 then
    (WLAN_GET_SCORE_PERCENTAGE score.score_pcnt3_to_0 index).map
      (fun p => wrapI32 (wrapU32 (weightage * p)))
  else if index ≤ SCM_SCORE_INDEX_7 then
    (WLAN_GET_SCORE_PERCENTAGE score.score_pcnt7_to_4
        (index - SCM_SCORE_OFFSET_INDEX_7_4)).map
      (fun p => wrapI32 (wrapU32 (weightage * p)))
  else if index ≤ SCM_SCORE_INDEX_11 then
    (WLAN_GET_SCORE_PERCENTAGE score.score_pcnt11_to_8
        (index - SCM_SCORE_OFFSET_INDEX_11_8)).map
      (fun p => wrapI32 (wrapU32 (weightage * p)))
  else
    (WLAN_GET_SCORE_PERCENTAGE score.score_pcnt15_to_12
        (index - SCM_SCORE_OFFSET_INDEX_15_12)).map
      (fun p => wrapI32 (wrapU32 (weightage * p)))

/-! ## Congestion score -/

/-- The congestion percentage `scm_get_congestion_pct`.  The three locals are
`uint32_t`, the result is `int32_t`. -/
def scm_get_congestion_pct (entry : scan_cache_entry) : Option Int :=
  if entry.air_time_fraction ≠ 0 then
    let est_air_time_percentage : Int :=
      wrapU32 (entry.air_time_fraction * SCM_MAX_CHANNEL_WEIGHT)
    (qdf_do_div est_air_time_percentage SCM_MAX_ESTIMATED_AIR_TIME_FRACTION).map
      (fun q =>
        let est_air_time_percentage : Int := wrapU32 q
        let congestion : Int :=
          wrapU32 (SCM_MAX_CHANNEL_UTILIZATION - est_air_time_percentage)
        wrapI32 congestion)
  else if entry.qbss_chan_load ≠ 0 then
    let ap_load : Int := wrapU32 (entry.qbss_chan_load * MAX_PCT_SCORE)
    (qdf_do_div ap_load MAX_AP_LOAD).map (fun q => wrapI32 (wrapU32 q))
  else some (wrapI32 0)

/-- What `scm_calculate_congestion_score` leaves behind: the score it returns,
the configuration after the call (the routine may overwrite `num_slot`) and the
congestion percentage written through its out parameter. -/
structure congestion_result where
  score : Int
  score_params : scoring_config
  congestion_pct : Int

/-- The congestion scorer `scm_calculate_congestion_score`.  `window_size` and
the out parameter are `uint32_t`, `index` is `uint8_t`.  A slot count above
`SCM_SCORE_MAX_INDEX` is overwritten in the configuration before any use. -/
def scm_calculate_congestion_score (entry : scan_cache_entry)
    (score_params : scoring_config) : Option congestion_result :=
  (scm_get_congestion_pct entry).bind (fun pct =>
    let congestion_pct : Int := wrapU32 pct
    if score_params.esp_qbss_scoring.num_slot = 0 then
      some { score := 0, score_params := score_params, congestion_pct := congestion_pct }
    else
      let score_params : scoring_config :=
        if (score_params.esp_qbss_scoring.num_slot : Int) > SCM_SCORE_MAX_INDEX then
          { score_params with
            esp_qbss_scoring :=
              { score_params.esp_qbss_scoring with num_slot := SCM_SCORE_MAX_INDEX.toNat } }
        else score_params
      let good_rssi_threshold : Int :=
        wrapI32 ((score_params.rssi_score.good_rssi_threshold : Int) * (-1))
      let score : Option Int :=
        if entry.rssi_raw ≤ good_rssi_threshold then
          scm_get_score_for_index (wrapU8 score_params.esp_qbss_scoring.num_slot)
            (wrapU8 score_params.weight_cfg.channel_congestion_weightage)
            score_params.esp_qbss_scoring
        else if congestion_pct = 0 then
          (WLAN_GET_SCORE_PERCENTAGE score_params.esp_qbss_scoring.score_pcnt3_to_0
              SCM_SCORE_INDEX_0).map
            (fun p =>
              wrapI32 (wrapU32 (score_params.weight_cfg.channel_congestion_weightage * p)))
        else
          let window_size : Int :=
            wrapU32 (Int.tdiv MAX_PCT_SCORE score_params.esp_qbss_scoring.num_slot)
          (qdf_do_div congestion_pct window_size).bind (fun q =>
            let index : Int := wrapU8 (q + 1)
            let index : Int :=
              if index > score_params.esp_qbss_scoring.num_slot then
                wrapU8 score_params.esp_qbss_scoring.num_slot
              else index
            scm_get_score_for_index index
              (wrapU8 score_params.weight_cfg.channel_congestion_weightage)
              score_params.esp_qbss_scoring)
      score.map (fun s =>
        { score := s, score_params := score_params, congestion_pct := congestion_pct }))

/-! ## OCE WAN score -/

/-- What `scm_calculate_oce_wan_score` leaves behind: the score it returns and
the configuration after the call (the routine may overwrite `num_slot`). -/
structure oce_wan_result where
  score : Int
  score_params : scoring_config

/-- The OCE WAN scorer `scm_calculate_oce_wan_score`.  `window_size` is
`uint32_t`, `index` is `uint8_t`.  A slot count above `SCM_SCORE_MAX_INDEX` is
overwritten in the configuration before any use, and the window is
`SCM_SCORE_MAX_INDEX / num_slot`. -/
def scm_calculate_oce_wan_score (entry : scan_cache_entry)
    (score_params : scoring_config) : Option oce_wan_result :=
  if score_params.oce_wan_scoring.num_slot = 0 then
    some { score := 0, score_params := score_params }
  else
    let score_params : scoring_config :=
      if (score_params.oce_wan_scoring.num_slot : Int) > SCM_SCORE_MAX_INDEX then
        { score_params with
          oce_wan_scoring :=
            { score_params.oce_wan_scoring with num_slot := SCM_SCORE_MAX_INDEX.toNat } }
      else score_params
    let window_size : Int :=
      wrapU32 (Int.tdiv SCM_SCORE_MAX_INDEX score_params.oce_wan_scoring.num_slot)
    let finish : Int → Option oce_wan_result := fun index =>
      let index : Int :=
        if index > score_params.oce_wan_scoring.num_slot then
          wrapU8 score_params.oce_wan_scoring.num_slot
        else index
      (scm_get_score_for_index index (wrapU8 score_params.weight_cfg.oce_wan_weightage)
          score_params.oce_wan_scoring).map
        (fun s => { score := s, score_params := score_params })
    match wlan_parse_oce_reduced_wan_metrics_ie entry.mbo_oce with
    | some wan_metrics =>
      if wan_metrics.downlink_av_cap = 0 then
        some { score := 0, score_params := score_params }
      else
        (qdf_do_div wan_metrics.downlink_av_cap window_size).bind
          (fun q => finish (wrapU8 q))
    | none => finish SCM_SCORE_INDEX_0

/-! ## Stream-count score -/

/-- The stream-count scorer `scm_calculate_nss_score`.  `ap_nss` and
`prorated_pct` are `uint8_t`, `sta_nss` is `uint32_t`, the locals `nss` and
`score_pct` are `uint8_t`; the product is a signed one.  The `psoc` parameter
is not read. -/
def scm_calculate_nss_score (_psoc : wlan_objmgr_psoc) (score_config : scoring_config)
    (ap_nss prorated_pct sta_nss : Int) : Option Int :=
  let nss : Int := ap_nss
  let nss : Int := if sta_nss < wrapU32 nss then wrapU8 sta_nss else nss
  let score_pct : Option Int :=
    if nss = 4 then
      WLAN_GET_SCORE_PERCENTAGE score_config.nss_weight_per_index SCM_NSS_4x4_INDEX
    else if nss = 3 then
      WLAN_GET_SCORE_PERCENTAGE score_config.nss_weight_per_index SCM_NSS_3x3_INDEX
    else if nss = 2 then
      WLAN_GET_SCORE_PERCENTAGE score_config.nss_weight_per_index SCM_NSS_2x2_INDEX
    else
      WLAN_GET_SCORE_PERCENTAGE score_config.nss_weight_per_index SCM_NSS_1x1_INDEX
  score_pct.map (fun score_pct =>
    let score_pct : Int := wrapU8 score_pct
    Int.tdiv
      (wrapI32 (wrapI32 (score_config.weight_cfg.nss_weightage * score_pct) * prorated_pct))
      MAX_PCT_SCORE)

/-- The station stream count `scm_get_sta_nss`, in both of its builds: with the
policy manager a candidate on the other band of a DBS platform without 2x2 DBS
counts one stream; otherwise the count is the one of the candidate's band.  The
result is `uint32_t`. -/
def scm_get_sta_nss (reg : reg_services) (psoc : wlan_objmgr_psoc)
    (bss_channel_freq : Nat) (vdev_nss_2g vdev_nss_5g : Int) : Int :=
  if psoc.WLAN_POLICY_MGR_ENABLE = true ∧
      psoc.policy_mgr_is_chnl_in_diff_band bss_channel_freq = true ∧
      psoc.policy_mgr_is_hw_dbs_capable = true ∧
      psoc.policy_mgr_is_hw_dbs_2x2_capable = false then 1
  else if reg.WLAN_REG_IS_24GHZ_CH_FREQ bss_channel_freq = true then wrapU32 vdev_nss_2g
  else wrapU32 vdev_nss_5g

/-! ## OCE subnet ID and AP transmit power -/

/-- What `scm_calculate_oce_subnet_id_weightage` leaves behind: the score it
returns and the presence flag written through its out parameter. -/
structure oce_subnet_id_result where
  score : Int
  oce_subnet_id_present : Bool

/-- The subnet-ID scorer `scm_calculate_oce_subnet_id_weightage`; the score is
`uint32_t`. -/
def scm_calculate_oce_subnet_id_weightage (entry : scan_cache_entry)
    (score_params : scoring_config) : oce_subnet_id_result :=
  let oce_subnet_id_present : Bool := wlan_parse_oce_subnet_id_ie entry.mbo_oce
  let score : Int :=
    if oce_subnet_id_present = true then
      wrapU32 (score_params.weight_cfg.oce_subnet_id_weightage * Int.tdiv MAX_PCT_SCORE 2)
    else 0
  { score := score, oce_subnet_id_present := oce_subnet_id_present }

/-- What `scm_calculate_oce_ap_tx_pwr_weightage` leaves behind: the score it
returns and the transmit power held by its in-out parameter. -/
structure oce_ap_tx_pwr_result where
  score : Int
  ap_tx_pwr_dbm : Int

/-- The AP transmit-power scorer `scm_calculate_oce_ap_tx_pwr_weightage`.  The
thresholds are `int32_t` locals, `normalized_ap_tx_pwr` and `score` are
`uint32_t`, `ap_tx_pwr_factor` is `uint8_t` and the transmit power `int8_t`.
The three comparisons of `normalized_ap_tx_pwr` with a threshold are carried
out on `uint32_t`; the slot mapper receives it narrowed to `int8_t`. -/
def scm_calculate_oce_ap_tx_pwr_weightage (entry : scan_cache_entry)
    (score_params : scoring_config) (ap_tx_pwr_dbm : Int) : Option oce_ap_tx_pwr_result :=
  let parsed : Option Int := wlan_parse_oce_ap_tx_pwr_ie entry.mbo_oce
  let ap_tx_pwr_dbm : Int :=
    match parsed with
    | some dbm => wrapI8 dbm
    | none => ap_tx_pwr_dbm
  let normalized_ap_tx_pwr : Int :=
    match parsed with
    | none => wrapU32 entry.rssi_raw
    | some _ => wrapU32 (20 - (ap_tx_pwr_dbm - entry.rssi_raw))
  let rssi_score_param : rssi_cfg_score := score_params.rssi_score
  let best_rssi_threshold : Int :=
    wrapI32 ((rssi_score_param.best_rssi_threshold : Int) * (-1))
  let good_rssi_threshold : Int :=
    wrapI32 ((rssi_score_param.good_rssi_threshold : Int) * (-1))
  let bad_rssi_threshold : Int :=
    wrapI32 ((rssi_score_param.bad_rssi_threshold : Int) * (-1))
  let good_rssi_pcnt : Int := wrapU32 rssi_score_param.good_rssi_pcnt
  let bad_rssi_pcnt : Int := wrapU32 rssi_score_param.bad_rssi_pcnt
  let good_bucket_size : Int := wrapU32 rssi_score_param.good_rssi_bucket_size
  let bad_bucket_size : Int := wrapU32 rssi_score_param.bad_rssi_bucket_size
  let ap_tx_pwr_factor : Option Int :=
    if normalized_ap_tx_pwr > wrapU32 best_rssi_threshold then some (wrapU8 MAX_PCT_SCORE)
    else if normalized_ap_tx_pwr ≤ wrapU32 bad_rssi_threshold then
      some (wrapU8 rssi_score_param.bad_rssi_pcnt)
    else if normalized_ap_tx_pwr > wrapU32 good_rssi_threshold then
      (scm_get_rssi_pcnt_for_slot best_rssi_threshold good_rssi_threshold 100
        good_rssi_pcnt good_bucket_size (wrapI8 normalized_ap_tx_pwr)).map wrapU8
    else
      (scm_get_rssi_pcnt_for_slot good_rssi_threshold bad_rssi_threshold good_rssi_pcnt
        bad_rssi_pcnt bad_bucket_size (wrapI8 normalized_ap_tx_pwr)).map wrapU8
  ap_tx_pwr_factor.map (fun ap_tx_pwr_factor =>
    { score := wrapU32 (score_params.weight_cfg.oce_ap_tx_pwr_weightage * ap_tx_pwr_factor),
      ap_tx_pwr_dbm := ap_tx_pwr_dbm })

/-! ## Band score -/

/-- The band scorer `scm_get_band_score`: the 5 GHz test comes first, then the
2.4 GHz test, then the 6 GHz test.  `band_index` is `uint8_t`, the result
`int`. -/
def scm_get_band_score (reg : reg_services) (freq : Nat) (score_config : scoring_config) :
    Option Int :=
  let weight_config : weight_config := score_config.weight_cfg
  let band_index : Option Int :=
    if reg.WLAN_REG_IS_5GHZ_CH_FREQ freq = true then some SCM_BAND_5G_INDEX
    else if reg.WLAN_REG_IS_24GHZ_CH_FREQ freq = true then some SCM_BAND_2G_INDEX
    else if reg.WLAN_REG_IS_6GHZ_CHAN_FREQ freq = true then some SCM_BAND_6G_INDEX
    else none
  match band_index with
  | none => some 0
  | some band_index =>
    (WLAN_GET_SCORE_PERCENTAGE score_config.band_weight_per_index band_index).map
      (fun p => wrapI32 (wrapU32 (weight_config.chan_band_weightage * p)))

/-! ## Aggregator -/

/-- The locals of `scm_calculate_bss_score` at the point where it returns, with
the initial values the code gives them. -/
structure bss_score_locals where
  score : Int := 0
  rssi_score : Int := 0
  pcl_score : Int := 0
  ht_score : Int := 0
  vht_score : Int := 0
  he_score : Int := 0
  bandwidth_score : Int := 0
  beamformee_score : Int := 0
  band_score : Int := 0
  nss_score : Int := 0
  congestion_score : Int := 0
  congestion_pct : Int := 0
  oce_wan_score : Int := 0
  oce_ap_tx_pwr_score : Int := 0
  oce_subnet_id_score : Int := 0
  oce_subnet_id_present : Bool := false
  prorated_pcnt : Int := 0
  is_vht : Bool := false
  same_bucket : Bool := false
  ap_su_beam_former : Bool := false
  sta_nss : Int := 0
  ap_tx_pwr_dbm : Int := 0

/-- What `scm_calculate_bss_score` leaves behind: the value it returns, the
candidate after the call, the scoring configuration of the scan object after
the call (`none` when there is no scan object) and its locals. -/
structure bss_score_result where
  ret : Int
  entry : scan_cache_entry
  score_config : Option scoring_config
  locals : bss_score_locals

/-- The aggregator `scm_calculate_bss_score`.  The sub-scores and the running
total are `int32_t`, except `oce_ap_tx_pwr_score`, `oce_subnet_id_score` and
`prorated_pcnt`, which are `uint8_t`; `good_rssi_threshold` and
`rssi_pref_5g_rssi_thresh` are `int8_t`.  The configuration is reached through
a pointer, so what the congestion and OCE WAN scorers write to it is seen by
the scorers called after them.  The `params` argument is never read and is
left out. -/
def scm_calculate_bss_score (reg : reg_services) (psoc : wlan_objmgr_psoc)
    (entry : scan_cache_entry) (pcl_chan_weight : Int) : Option bss_score_result :=
  match wlan_psoc_get_scan_obj psoc with
  | none => some { ret := 0, entry := entry, score_config := none, locals := {} }
  | some score_config =>
    let weight_config : weight_config := score_config.weight_cfg
    (scm_calculate_rssi_score score_config.rssi_score entry.rssi_raw
        weight_config.rssi_weightage).bind (fun rssi_score =>
    let score : Int := wrapI32 (0 + rssi_score)
    (scm_calculate_pcl_score pcl_chan_weight weight_config.pcl_weightage).bind
      (fun pcl_score =>
    let score : Int := wrapI32 (score + pcl_score)
    (scm_roam_calculate_prorated_pcnt_by_rssi score_config.rssi_score entry.rssi_raw
        weight_config.rssi_weightage).bind (fun prorated =>
    let prorated_pcnt : Int := wrapU8 prorated
    let ht_score : Int :=
      if score_config.ht_cap = true ∧ (entry.ie_list.htcap = true ∨
          reg.WLAN_REG_IS_6GHZ_CHAN_FREQ entry.chan_freq = true) then
        wrapI32 (prorated_pcnt * weight_config.ht_caps_weightage)
      else 0
    let score : Int := wrapI32 (score + ht_score)
    let is_vht : Bool :=
      if reg.WLAN_REG_IS_24GHZ_CH_FREQ entry.chan_freq = true then
        (if score_config.vht_24G_cap = true then true else false)
      else if score_config.vht_cap = true then true
      else false
    let vht_score : Int :=
      if is_vht = true ∧ (entry.ie_list.vhtcap.isSome = true ∨
          reg.WLAN_REG_IS_6GHZ_CHAN_FREQ entry.chan_freq = true) then
        wrapI32 (prorated_pcnt * weight_config.vht_caps_weightage)
      else 0
    let score : Int := wrapI32 (score + vht_score)
    let he_score : Int :=
      if score_config.he_cap = true ∧ entry.ie_list.hecap = true then
        wrapI32 (prorated_pcnt * weight_config.he_caps_weightage)
      else 0
    let score : Int := wrapI32 (score + he_score)
    (scm_calculate_bandwidth_score reg entry score_config prorated_pcnt).bind
      (fun bandwidth_score =>
    let score : Int := wrapI32 (score + bandwidth_score)
    let good_rssi_threshold : Int :=
      wrapI8 ((score_config.rssi_score.good_rssi_threshold : Int) * (-1))
    let rssi_pref_5g_rssi_thresh : Int :=
      wrapI8 ((score_config.rssi_score.rssi_pref_5g_rssi_thresh : Int) * (-1))
    (if entry.rssi_raw < good_rssi_threshold then
        scm_rssi_is_same_bucket good_rssi_threshold (wrapI8 entry.rssi_raw)
          rssi_pref_5g_rssi_thresh (wrapI8 score_config.rssi_score.bad_rssi_bucket_size)
      else some false).bind (fun same_bucket =>
    let ap_su_beam_former : Bool :=
      match util_scan_entry_vhtcap entry with
      | some vht_cap => vht_cap.su_beam_former
      | none => false
    let beamformee_score : Int :=
      if is_vht = true ∧ ap_su_beam_former = true ∧
          entry.rssi_raw > rssi_pref_5g_rssi_thresh ∧ same_bucket = false then
        wrapI32 (MAX_PCT_SCORE * weight_config.beamforming_cap_weightage)
      else 0
    let score : Int := wrapI32 (score + beamformee_score)
    (scm_calculate_congestion_score entry score_config).bind (fun congestion =>
    let score_config : scoring_config := congestion.score_params
    let congestion_score : Int := congestion.score
    let congestion_pct : Int := wrapI32 congestion.congestion_pct
    let score : Int := wrapI32 (score + congestion_score)
    (if congestion_pct < CONGESTION_THRSHOLD_FOR_BAND_OCE_SCORE then
        (if entry.rssi_raw > rssi_pref_5g_rssi_thresh ∧ same_bucket = false then
            (if reg.WLAN_REG_IS_24GHZ_CH_FREQ entry.chan_freq = false then
              scm_get_band_score reg entry.chan_freq score_config
            else some 0)
          else if reg.WLAN_REG_IS_24GHZ_CH_FREQ entry.chan_freq = true then
            scm_get_band_score reg entry.chan_freq score_config
          else some 0).bind (fun band_score =>
        (scm_calculate_oce_wan_score entry score_config).map (fun oce_wan =>
          (band_score, oce_wan.score,
            wrapI32 (wrapI32 (score + band_score) + oce_wan.score), oce_wan.score_params)))
      else some (0, 0, score, score_config)).bind (fun gated =>
    let band_score : Int := gated.1
    let oce_wan_score : Int := gated.2.1
    let score : Int := gated.2.2.1
    let score_config : scoring_config := gated.2.2.2
    (scm_calculate_oce_ap_tx_pwr_weightage entry score_config 0).bind (fun ap_tx_pwr =>
    let oce_ap_tx_pwr_score : Int := wrapU8 ap_tx_pwr.score
    let ap_tx_pwr_dbm : Int := ap_tx_pwr.ap_tx_pwr_dbm
    let score : Int := wrapI32 (score + oce_ap_tx_pwr_score)
    let subnet_id : oce_subnet_id_result :=
      scm_calculate_oce_subnet_id_weightage entry score_config
    let oce_subnet_id_score : Int := wrapU8 subnet_id.score
    let oce_subnet_id_present : Bool := subnet_id.oce_subnet_id_present
    let score : Int := wrapI32 (score + oce_subnet_id_score)
    let locals : bss_score_locals :=
      { score := score, rssi_score := rssi_score, pcl_score := pcl_score,
        ht_score := ht_score, vht_score := vht_score, he_score := he_score,
        bandwidth_score := bandwidth_score, beamformee_score := beamformee_score,
        band_score := band_score, congestion_score := congestion_score,
        congestion_pct := congestion_pct, oce_wan_score := oce_wan_score,
        oce_ap_tx_pwr_score := oce_ap_tx_pwr_score,
        oce_subnet_id_score := oce_subnet_id_score,
        oce_subnet_id_present := oce_subnet_id_present, prorated_pcnt := prorated_pcnt,
        is_vht := is_vht, same_bucket := same_bucket,
        ap_su_beam_former := ap_su_beam_former, ap_tx_pwr_dbm := ap_tx_pwr_dbm }
    if wlan_objmgr_get_pdev_by_id psoc entry.pdev_id = false then
      some { ret := 0, entry := entry, score_config := some score_config, locals := locals }
    else
      let sta_nss : Int :=
        scm_get_sta_nss reg psoc entry.chan_freq (wrapU8 score_config.vdev_nss_24g)
          (wrapU8 score_config.vdev_nss_5g)
      (scm_calculate_nss_score psoc score_config (wrapU8 entry.nss) prorated_pcnt
          sta_nss).map (fun nss_score =>
        let score : Int := wrapI32 (score + nss_score)
        { ret := score, entry := { entry with bss_score := score },
          score_config := some score_config,
          locals := { locals with score := score, nss_score := nss_score,
                                  sta_nss := sta_nss } })))))))))

/-- The total `score` as the aggregator accumulates it, rebuilt from the
sub-score locals it holds when it returns: one `score += x` after the other in
the order of the code, each sum stored in the `int32_t` total.  A band or OCE
WAN local that was never added is 0. -/
def bss_score_locals.running_total (l : bss_score_locals) : Int :=
  let score : Int := wrapI32 (0 + l.rssi_score)
  let score : Int := wrapI32 (score + l.pcl_score)
  let score : Int := wrapI32 (score + l.ht_score)
  let score : Int := wrapI32 (score + l.vht_score)
  let score : Int := wrapI32 (score + l.he_score)
  let score : Int := wrapI32 (score + l.bandwidth_score)
  let score : Int := wrapI32 (score + l.beamformee_score)
  let score : Int := wrapI32 (score + l.congestion_score)
  let score : Int := wrapI32 (score + l.band_score)
  let score : Int := wrapI32 (score + l.oce_wan_score)
  let score : Int := wrapI32 (score + l.oce_ap_tx_pwr_score)
  let score : Int := wrapI32 (score + l.oce_subnet_id_score)
  wrapI32 (score + l.nss_score)

/-! ## PCL weight lookup -/

/-- Modelled from the spec: `struct scan_filter` is declared outside the sources
at hand.  Only the members the lookup reads are kept: the number of PCL
channels and the two arrays, a frequency in MHz and a weight per entry.  An
array is a list, and reading past its end gives `none`. -/
structure scan_filter where
  num_of_pcl_channels : Nat := 0
  pcl_freq_list : List Nat := []
  pcl_weight_list : List Nat := []

/-- What `scm_get_pcl_weight_of_channel` leaves behind: the flag it returns and
the weight held by its in-out parameter. -/
structure pcl_weight_result where
  found : Bool
  pcl_chan_weight : Int

/-- The loop of `scm_get_pcl_weight_of_channel` from index `i` on, with
`remaining` entries left below `num_of_pcl_channels`: the first entry holding
the frequency stores its weight in the `int` output and ends the loop. -/
def scm_get_pcl_weight_of_channel_loop (chan_freq : Nat) (filter : scan_filter)
    (pcl_chan_weight : Int) : Nat → Nat → Option pcl_weight_result
  | _, 0 => some { found := false, pcl_chan_weight := pcl_chan_weight }
  | i, remaining + 1 =>
    match filter.pcl_freq_list.get? i with
    | none => none
    | some freq =>
      if freq = chan_freq then
        (filter.pcl_weight_list.get? i).map
          (fun w => { found := true, pcl_chan_weight := wrapI32 w })
      else
        scm_get_pcl_weight_of_channel_loop chan_freq filter pcl_chan_weight (i + 1) remaining

/-- The lookup `scm_get_pcl_weight_of_channel`; `none` as filter stands for a
null pointer.  The `weight_list` argument is never read. -/
def scm_get_pcl_weight_of_channel (chan_freq : Nat) (filter : Option scan_filter)
    (pcl_chan_weight : Int) (_weight_list : List Nat) : Option pcl_weight_result :=
  match filter with
  | none => some { found := false, pcl_chan_weight := pcl_chan_weight }
  | some filter =>
    scm_get_pcl_weight_of_channel_loop chan_freq filter pcl_chan_weight 0
      filter.num_of_pcl_channels

/-! ## Sample inputs -/

/-- The configuration of the worked example: thresholds -65, -75 and -85 dBm, good
percentage 20, bad percentage 0, both bucket sizes 5. -/
def example_rssi_cfg : rssi_cfg_score :=
  { best_rssi_threshold := 65, good_rssi_threshold := 75, bad_rssi_threshold := 85,
    good_rssi_pcnt := 20, bad_rssi_pcnt := 0, good_rssi_bucket_size := 5,
    bad_rssi_bucket_size := 5 }

/-- A configuration whose good-to-bad window (10 dB) is not a multiple of its
bucket size (3 dB) and whose bad percentage is 0. -/
def uneven_rssi_cfg : rssi_cfg_score :=
  { best_rssi_threshold := 65, good_rssi_threshold := 75, bad_rssi_threshold := 85,
    good_rssi_pcnt := 22, bad_rssi_pcnt := 0, good_rssi_bucket_size := 5,
    bad_rssi_bucket_size := 3 }

/-- A candidate with total score 900 heard at -60 dBm. -/
def sample_bss_a : scan_cache_entry := { rssi_raw := -60, bss_score := 900 }

/-- A candidate with total score 900 heard at -70 dBm. -/
def sample_bss_b : scan_cache_entry := { rssi_raw := -70, bss_score := 900 }

/-- A candidate with total score 500 heard at -40 dBm. -/
def sample_bss_c : scan_cache_entry := { rssi_raw := -40, bss_score := 500 }

/-- A configuration whose good-to-bad window (15 dB) holds 8 buckets of 2 dB,
with good percentage 20, bad percentage 0 and the 5 GHz preference threshold at
-84 dBm. -/
def narrow_bucket_rssi_cfg : rssi_cfg_score :=
  { best_rssi_threshold := 60, good_rssi_threshold := 70, bad_rssi_threshold := 85,
    good_rssi_pcnt := 20, bad_rssi_pcnt := 0, good_rssi_bucket_size := 5,
    bad_rssi_bucket_size := 2, rssi_pref_5g_rssi_thresh := 84 }

/-- The worked thresholds with the 5 GHz preference threshold at -84 dBm. -/
def pref_rssi_cfg : rssi_cfg_score :=
  { best_rssi_threshold := 65, good_rssi_threshold := 75, bad_rssi_threshold := 85,
    good_rssi_pcnt := 20, bad_rssi_pcnt := 0, good_rssi_bucket_size := 5,
    bad_rssi_bucket_size := 5, rssi_pref_5g_rssi_thresh := 84 }

/-- A band classifier: 2.4 GHz is 2412..2484 MHz, 5 GHz is 5180..5885 MHz and
6 GHz is 5945..7125 MHz. -/
def sample_reg : reg_services :=
  { WLAN_REG_IS_24GHZ_CH_FREQ := fun f => decide (2412 ≤ f ∧ f ≤ 2484),
    WLAN_REG_IS_5GHZ_CH_FREQ := fun f => decide (5180 ≤ f ∧ f ≤ 5885),
    WLAN_REG_IS_6GHZ_CHAN_FREQ := fun f => decide (5945 ≤ f ∧ f ≤ 7125) }

/-- A station with HT but without VHT, channel bonding enabled on both bands,
bandwidth table 20, 60, 80, 100 percent (bytes 0x14, 0x3C, 0x50, 0x64 from the
lowest byte up) and bandwidth weightage 10. -/
def ht_only_config : scoring_config :=
  { weight_cfg := { chan_width_weightage := 10 },
    bandwidth_weight_per_index := 0x64503C14,
    cb_mode_24G := 1, cb_mode_5G := 1, ht_cap := true, vht_cap := false,
    vht_24G_cap := false }

/-- A 40 MHz candidate on 5180 MHz. -/
def sample_bss_5g_40 : scan_cache_entry := { chan_freq := 5180, phy_mode := wlan_phymode.mhz40 }

/-- An 80 MHz candidate on 5180 MHz. -/
def sample_bss_5g_80 : scan_cache_entry := { chan_freq := 5180, phy_mode := wlan_phymode.mhz80 }

/-- A 40 MHz candidate on 2437 MHz. -/
def sample_bss_2g_40 : scan_cache_entry := { chan_freq := 2437, phy_mode := wlan_phymode.mhz40 }

/-- A configuration with 4 congestion slots (percentages 100, 1, 2, 3, 4 for the
slots 0 to 4, weightage 5), 2 OCE WAN slots (percentages 0, 50, 2 for the slots
0 to 2, weightage 3) and the worked RSSI thresholds. -/
def slot_config : scoring_config :=
  { weight_cfg := { channel_congestion_weightage := 5, oce_wan_weightage := 3 },
    rssi_score := example_rssi_cfg,
    esp_qbss_scoring :=
      { num_slot := 4, score_pcnt3_to_0 := 0x03020164, score_pcnt7_to_4 := 0x07060504 },
    oce_wan_scoring := { num_slot := 2, score_pcnt3_to_0 := 0x00023200 } }

/-- The slot configuration with both slot counts set to 0. -/
def no_slot_config : scoring_config :=
  { slot_config with
    esp_qbss_scoring := { slot_config.esp_qbss_scoring with num_slot := 0 },
    oce_wan_scoring := { slot_config.oce_wan_scoring with num_slot := 0 } }

/-- The slot configuration with both slot counts set to 200. -/
def wide_slot_config : scoring_config :=
  { slot_config with
    esp_qbss_scoring := { slot_config.esp_qbss_scoring with num_slot := 200 },
    oce_wan_scoring := { slot_config.oce_wan_scoring with num_slot := 200 } }

/-- A candidate heard at -50 dBm with QBSS load 64 (25 percent) and downlink
capacity 7. -/
def sample_bss_loaded : scan_cache_entry :=
  { rssi_raw := -50, qbss_chan_load := 64, mbo_oce := { downlink_av_cap := some 7 } }

/-- A candidate heard at -50 dBm whose WAN metrics declare capacity 0. -/
def sample_bss_no_capacity : scan_cache_entry :=
  { rssi_raw := -50, mbo_oce := { downlink_av_cap := some 0 } }

/-- A candidate heard at -50 dBm without OCE/MBO element. -/
def sample_bss_plain : scan_cache_entry := { rssi_raw := -50 }

/-- An RSSI configuration the scoring code can evaluate on every RSSI: the
thresholds are ordered and, like the 5 GHz preference threshold, fit the
`int8_t` locals that receive them negated, and both bucket sizes are in
1..127, so that no division has a zero divisor. -/
@[reducible] def rssi_cfg_score.well_formed (p : rssi_cfg_score) : Prop :=
  p.best_rssi_threshold ≤ p.good_rssi_threshold ∧
  p.good_rssi_threshold ≤ p.bad_rssi_threshold ∧
  p.bad_rssi_threshold ≤ 127 ∧ p.rssi_pref_5g_rssi_thresh ≤ 127 ∧
  1 ≤ p.good_rssi_bucket_size ∧ p.good_rssi_bucket_size ≤ 127 ∧
  1 ≤ p.bad_rssi_bucket_size ∧ p.bad_rssi_bucket_size ≤ 127

/-- The configuration `c` with other band and OCE WAN settings: the band table
`band`, the four OCE WAN table words `t0` to `t3`, the band weightage `wb` and
the OCE WAN weightage `ww`.  Every other field, the two slot counts included,
is the one of `c`. -/
def scoring_config.with_band_oce_wan (c : scoring_config) (band t0 t1 t2 t3 wb ww : Nat) :
    scoring_config :=
  { c with
    band_weight_per_index := band,
    oce_wan_scoring :=
      { c.oce_wan_scoring with
        score_pcnt3_to_0 := t0, score_pcnt7_to_4 := t1,
        score_pcnt11_to_8 := t2, score_pcnt15_to_12 := t3 },
    weight_cfg := { c.weight_cfg with chan_band_weightage := wb, oce_wan_weightage := ww } }

/-- Weightages between 0 and 100 for every factor. -/
def full_weight_config : weight_config :=
  { rssi_weightage := 20, ht_caps_weightage := 2, vht_caps_weightage := 1,
    he_caps_weightage := 2, chan_width_weightage := 10, chan_band_weightage := 2,
    nss_weightage := 16, beamforming_cap_weightage := 2, pcl_weightage := 10,
    channel_congestion_weightage := 5, oce_wan_weightage := 3,
    oce_ap_tx_pwr_weightage := 4, oce_subnet_id_weightage := 10 }

/-- A station with every capability: the weightages above, the worked RSSI
thresholds with the 5 GHz preference threshold at -84 dBm, the slot tables of
`slot_config`, bandwidth table 20, 60, 80, 100, stream-count table 30, 50, 80,
100 and band table 50, 100, 100 (lowest byte first), two streams on both
bands. -/
def full_config : scoring_config :=
  { weight_cfg := full_weight_config, rssi_score := pref_rssi_cfg,
    esp_qbss_scoring := slot_config.esp_qbss_scoring,
    oce_wan_scoring := slot_config.oce_wan_scoring,
    bandwidth_weight_per_index := 0x64503C14,
    nss_weight_per_index := 0x6450321E,
    band_weight_per_index := 0x00646432,
    cb_mode_24G := 1, cb_mode_5G := 1, vdev_nss_24g := 2, vdev_nss_5g := 2,
    ht_cap := true, vht_cap := true, he_cap := true, vht_24G_cap := true,
    beamformee_cap := true }

/-- A psoc holding `full_config`, with a pdev for every candidate and without
policy manager. -/
def full_psoc : wlan_objmgr_psoc :=
  { scan_obj := some full_config, pdev_by_id := fun _ => true }

/-- The psoc holding `full_config` without any pdev. -/
def no_pdev_psoc : wlan_objmgr_psoc :=
  { scan_obj := some full_config, pdev_by_id := fun _ => false }

/-- A psoc without scan object. -/
def no_scan_psoc : wlan_objmgr_psoc := { pdev_by_id := fun _ => true }

/-- A 40 MHz two-stream candidate on 2437 MHz heard at -50 dBm, with HT, VHT
(single-user beamformer) and HE elements, an idle channel, and an OCE/MBO
element declaring a subnet ID, 0 dBm transmit power and downlink capacity 7. -/
def sample_bss_full_2g : scan_cache_entry :=
  { rssi_raw := -50, chan_freq := 2437, phy_mode := wlan_phymode.mhz40, nss := 2,
    ie_list := { htcap := true, vhtcap := some { su_beam_former := true }, hecap := true },
    mbo_oce := { subnet_id_present := true, ap_tx_pwr_dbm := some 0,
                 downlink_av_cap := some 7 } }

/-- The same candidate on 5180 MHz. -/
def sample_bss_full_5g : scan_cache_entry := { sample_bss_full_2g with chan_freq := 5180 }

/-- The 5180 MHz candidate on a channel loaded at 80 percent (QBSS load 204). -/
def sample_bss_congested : scan_cache_entry :=
  { sample_bss_full_5g with qbss_chan_load := 204 }

/-- The station of `full_config` with the 5 GHz preference threshold at
-76 dBm, one dB below the good threshold. -/
def near_pref_config : scoring_config :=
  { full_config with
    rssi_score := { pref_rssi_cfg with rssi_pref_5g_rssi_thresh := 76 } }

/-- A psoc holding `near_pref_config`. -/
def near_pref_psoc : wlan_objmgr_psoc :=
  { scan_obj := some near_pref_config, pdev_by_id := fun _ => true }

/-- The 5180 MHz candidate heard at -75 dBm, the good threshold. -/
def sample_bss_at_good : scan_cache_entry := { sample_bss_full_5g with rssi_raw := -75 }

/-- A psoc holding `wide_slot_config`, whose two slot counts are 200. -/
def wide_slot_psoc : wlan_objmgr_psoc :=
  { scan_obj := some wide_slot_config, pdev_by_id := fun _ => true }

/-- A configuration with AP transmit-power weightage 4 and the worked RSSI
thresholds with good percentage 20 and bad percentage 10. -/
def tx_pwr_config : scoring_config :=
  { weight_cfg := { oce_ap_tx_pwr_weightage := 4 },
    rssi_score := { example_rssi_cfg with bad_rssi_pcnt := 10 } }

/-- A candidate heard at -15 dBm whose AP advertises 0 dBm transmit power. -/
def sample_bss_near : scan_cache_entry :=
  { rssi_raw := -15, mbo_oce := { ap_tx_pwr_dbm := some 0 } }

/-- The thresholds ordered and within 0..127 and both bucket sizes in 1..127:
what keeps every divisor of the RSSI ladder away from 0. -/
@[reducible] def rssi_cfg_score.divisor_invariant (p : rssi_cfg_score) : Prop :=
  p.best_rssi_threshold ≤ p.good_rssi_threshold ∧
  p.good_rssi_threshold ≤ p.bad_rssi_threshold ∧
  p.bad_rssi_threshold ≤ 127 ∧
  1 ≤ p.good_rssi_bucket_size ∧ p.good_rssi_bucket_size ≤ 127 ∧
  1 ≤ p.bad_rssi_bucket_size ∧ p.bad_rssi_bucket_size ≤ 127

/-- The station of `full_config` with VHT on 5 and 6 GHz only. -/
def vht_5g_only_config : scoring_config := { full_config with vht_24G_cap := false }

/-- A psoc holding `vht_5g_only_config`. -/
def vht_5g_only_psoc : wlan_objmgr_psoc :=
  { scan_obj := some vht_5g_only_config, pdev_by_id := fun _ => true }

/-- A 40 MHz two-stream candidate on 5955 MHz (6 GHz band) heard at -50 dBm,
without HT, VHT or HE element. -/
def sample_bss_6g : scan_cache_entry :=
  { rssi_raw := -50, chan_freq := 5955, phy_mode := wlan_phymode.mhz40, nss := 2 }

/-- A filter with three PCL channels, the frequency 5180 MHz listed twice. -/
def sample_filter : scan_filter :=
  { num_of_pcl_channels := 3, pcl_freq_list := [2437, 5180, 5180],
    pcl_weight_list := [255, 235, 215] }

/-! ## Fixed-width integers: values that survive a conversion -/

theorem wrapU32_id {x : Int} (h0 : 0 ≤ x) (h1 : x < 4294967296) : wrapU32 x = x := by
  unfold wrapU32; omega

theorem wrapI32_id {x : Int} (h0 : -2147483648 ≤ x) (h1 : x < 2147483648) :
    wrapI32 x = x := by
  unfold wrapI32; omega

theorem wrapI8_id {x : Int} (h0 : -128 ≤ x) (h1 : x ≤ 127) : wrapI8 x = x := by
  unfold wrapI8; omega

theorem wrapU8_id {x : Int} (h0 : 0 ≤ x) (h1 : x ≤ 255) : wrapU8 x = x := by
  unfold wrapU8; omega

theorem wrapI8_wrapU32 {x : Int} (h0 : -128 ≤ x) (h1 : x ≤ 127) :
    wrapI8 (wrapU32 x) = x := by
  unfold wrapI8 wrapU32; omega

/-- Negating an 8-bit threshold magnitude into an `int32_t` local. -/
theorem neg_threshold (n : Nat) (h : n ≤ 255) :
    wrapI32 ((n : Int) * (-1)) = -(n : Int) := by
  rw [wrapI32_id (by omega) (by omega)]; omega

/-- The full score `MAX_PCT_SCORE * weightage` of an 8-bit weightage. -/
theorem full_score (w : Nat) (h : w ≤ 255) :
    wrapI32 (MAX_PCT_SCORE * wrapU8 w) = 100 * (w : Int) := by
  rw [wrapU8_id (by omega) (by omega)]
  unfold MAX_PCT_SCORE
  exact wrapI32_id (by omega) (by omega)

/-- The rounded slot size never exceeds the percentage span it divides. -/
theorem slot_size_le_span (D N : Int) (hD : 0 ≤ D) (hN : 1 ≤ N) :
    (D + N / 2) / N ≤ D := by
  have hlt : (D + N / 2) / N < D + 1 := by
    apply Int.ediv_lt_of_lt_mul (by omega)
    have hm : 0 ≤ D * (N - 1) := mul_nonneg hD (by omega)
    have hr : (D + 1) * N = D * (N - 1) + D + N := by ring
    rw [hr]
    omega
  omega

/-! ## Comparator -/

/-- Claim C1: `scm_is_better_bss a b` holds exactly when `a` has the strictly
higher score, or the same score and the strictly higher raw RSSI; the `params`
argument has no influence on the result. -/
theorem scm_is_better_bss_iff {P Q : Type} (p : P) (q : Q)
    (a b : scan_cache_entry) :
    (scm_is_better_bss p a b = true ↔
      (a.bss_score > b.bss_score ∨
        (a.bss_score = b.bss_score ∧ a.rssi_raw > b.rssi_raw))) ∧
    scm_is_better_bss p a b = scm_is_better_bss q a b := by
  unfold scm_is_better_bss
  refine ⟨?_, rfl⟩
  split_ifs <;> simp <;> omega

/-- Claim C2: `scm_is_better_bss` is a strict weak ordering: it is irreflexive
and transitive, two candidates are incomparable exactly when score and raw RSSI
both agree, and incomparability is transitive. -/
theorem scm_is_better_bss_strict_weak_order {P : Type} (p : P) :
    (∀ a, scm_is_better_bss p a a = false) ∧
    (∀ a b c, scm_is_better_bss p a b = true → scm_is_better_bss p b c = true →
      scm_is_better_bss p a c = true) ∧
    (∀ a b, (scm_is_better_bss p a b = false ∧ scm_is_better_bss p b a = false) ↔
      (a.bss_score = b.bss_score ∧ a.rssi_raw = b.rssi_raw)) ∧
    (∀ a b c,
      (scm_is_better_bss p a b = false ∧ scm_is_better_bss p b a = false) →
      (scm_is_better_bss p b c = false ∧ scm_is_better_bss p c b = false) →
      (scm_is_better_bss p a c = false ∧ scm_is_better_bss p c a = false)) := by
  have key : ∀ a b : scan_cache_entry, scm_is_better_bss p a b = true ↔
      (a.bss_score > b.bss_score ∨
        (a.bss_score = b.bss_score ∧ a.rssi_raw > b.rssi_raw)) := by
    intro a b
    unfold scm_is_better_bss
    split_ifs <;> simp <;> omega
  have keyf : ∀ a b : scan_cache_entry, scm_is_better_bss p a b = false ↔
      ¬ (a.bss_score > b.bss_score ∨
        (a.bss_score = b.bss_score ∧ a.rssi_raw > b.rssi_raw)) := by
    intro a b
    rw [← key a b]
    simp
  refine ⟨?_, ?_, ?_, ?_⟩
  · intro a
    rw [keyf]; omega
  · intro a b c h1 h2
    rw [key] at h1 h2 ⊢
    omega
  · intro a b
    rw [keyf, keyf]
    omega
  · intro a b c h1 h2
    rw [keyf, keyf] at h1 h2 ⊢
    omega

/-- Transitivity of the comparator on three sample candidates: the first beats
the second on RSSI, the second beats the third on score. -/
theorem scm_is_better_bss_strict_weak_order_witness :
    scm_is_better_bss () sample_bss_a sample_bss_b = true ∧
    scm_is_better_bss () sample_bss_b sample_bss_c = true ∧
    scm_is_better_bss () sample_bss_a sample_bss_c = true :=
  ⟨by decide, by decide,
    (scm_is_better_bss_strict_weak_order ()).2.1 sample_bss_a sample_bss_b
      sample_bss_c (by decide) (by decide)⟩

/-! ## RSSI score: saturation -/

/-- Claim C3: an RSSI strictly above the negated best threshold scores exactly
`100 * weight`, for every configuration with 8-bit fields and every 8-bit
weight. -/
theorem scm_calculate_rssi_score_above_best (score_param : rssi_cfg_score)
    (rssi : Int) (rssi_weightage : Nat)
    (hcfg : score_param.byte_fields) (hw : rssi_weightage ≤ 255)
    (h : -(score_param.best_rssi_threshold : Int) < rssi) :
    scm_calculate_rssi_score score_param rssi rssi_weightage =
      some (100 * (rssi_weightage : Int)) := by
  obtain ⟨hb, -⟩ := hcfg
  unfold scm_calculate_rssi_score
  simp only [neg_threshold _ hb, full_score _ hw]
  rw [if_pos (by omega)]

/-- The worked configuration at -60 dBm, above its best threshold of -65 dBm. -/
theorem scm_calculate_rssi_score_above_best_witness :
    example_rssi_cfg.byte_fields ∧ (10 : Nat) ≤ 255 ∧
    -(example_rssi_cfg.best_rssi_threshold : Int) < -60 ∧
    scm_calculate_rssi_score example_rssi_cfg (-60) 10 = some (100 * ((10 : Nat) : Int)) :=
  ⟨by decide, by decide, by decide,
    scm_calculate_rssi_score_above_best example_rssi_cfg (-60) 10
      (by decide) (by decide) (by decide)⟩

/-- Claim C5: with the thresholds ordered from strongest to weakest, an RSSI at
or below the negated bad threshold scores exactly
`(100 * weight * bad_rssi_pcnt) / 100`. -/
theorem scm_calculate_rssi_score_at_or_below_bad (score_param : rssi_cfg_score)
    (rssi : Int) (rssi_weightage : Nat)
    (hcfg : score_param.byte_fields) (hw : rssi_weightage ≤ 255)
    (hbg : score_param.best_rssi_threshold ≤ score_param.good_rssi_threshold)
    (hgb : score_param.good_rssi_threshold ≤ score_param.bad_rssi_threshold)
    (h : rssi ≤ -(score_param.bad_rssi_threshold : Int)) :
    scm_calculate_rssi_score score_param rssi rssi_weightage =
      some ((100 * (rssi_weightage : Int) * (score_param.bad_rssi_pcnt : Int)) / 100) := by
  obtain ⟨hb, -, hbad, -, hbp, -⟩ := hcfg
  unfold scm_calculate_rssi_score
  simp only [neg_threshold _ hb, neg_threshold _ hbad, full_score _ hw]
  rw [if_neg (by omega), if_pos h]
  have h1 : (rssi_weightage : Int) ≤ 255 := by omega
  have h2 : (score_param.bad_rssi_pcnt : Int) ≤ 255 := by omega
  have h3 : (0 : Int) ≤ rssi_weightage := by omega
  have h4 : (0 : Int) ≤ score_param.bad_rssi_pcnt := by omega
  rw [wrapU32_id h4 (by omega)]
  have hp0 : 0 ≤ 100 * (rssi_weightage : Int) * (score_param.bad_rssi_pcnt : Int) := by
    positivity
  have hp1 : 100 * (rssi_weightage : Int) * (score_param.bad_rssi_pcnt : Int) ≤ 6502500 := by
    nlinarith
  generalize 100 * (rssi_weightage : Int) * (score_param.bad_rssi_pcnt : Int) = t at hp0 hp1
  rw [wrapU32_id hp0 (by omega), wrapI32_id (by omega) (by omega)]

/-- The worked configuration at -90 dBm, below its bad threshold of -85 dBm. -/
theorem scm_calculate_rssi_score_at_or_below_bad_witness :
    example_rssi_cfg.byte_fields ∧ (10 : Nat) ≤ 255 ∧
    example_rssi_cfg.best_rssi_threshold ≤ example_rssi_cfg.good_rssi_threshold ∧
    example_rssi_cfg.good_rssi_threshold ≤ example_rssi_cfg.bad_rssi_threshold ∧
    (-90 : Int) ≤ -(example_rssi_cfg.bad_rssi_threshold : Int) ∧
    scm_calculate_rssi_score example_rssi_cfg (-90) 10 =
      some ((100 * ((10 : Nat) : Int) * (example_rssi_cfg.bad_rssi_pcnt : Int)) / 100) :=
  ⟨by decide, by decide, by decide, by decide, by decide,
    scm_calculate_rssi_score_at_or_below_bad example_rssi_cfg (-90) 10
      (by decide) (by decide) (by decide) (by decide) (by decide)⟩

/-- Claim C7: in the worked configuration (thresholds -65, -75 and -85 dBm, good
percentage 20, bad percentage 0, bucket sizes 5, weight 10) the score at -70 dBm
is 460, strictly between 200 and 1000, the score at -90 dBm is 0 and the score
at -60 dBm is 1000. -/
theorem scm_calculate_rssi_score_example :
    (∃ s, scm_calculate_rssi_score example_rssi_cfg (-70) 10 = some s ∧
      200 < s ∧ s < 1000) ∧
    scm_calculate_rssi_score example_rssi_cfg (-90) 10 = some 0 ∧
    scm_calculate_rssi_score example_rssi_cfg (-60) 10 = some 1000 :=
  ⟨⟨460, by decide, by decide, by decide⟩, by decide, by decide⟩

/-! ## RSSI bucket mapper -/

/-- Closed form of the slot mapper on a window whose width and slot count fit
the signed 8-bit locals: with `x = high_pcnt - slot_size * slot_index`, the
result is `low_pcnt` when `0 ≤ x < low_pcnt` and `x` otherwise. -/
theorem slot_eval (high low hp lp b v : Int)
    (hb : 0 < b) (hlp : 0 ≤ lp) (hlh : lp ≤ hp) (hhp : hp ≤ 100)
    (hv1 : low ≤ v) (hv2 : v ≤ high) (hw : high - low ≤ 127)
    (hN : (high - low) / b + 1 ≤ 127) :
    scm_get_rssi_pcnt_for_slot high low hp lp b v =
      some (if 0 ≤ hp - (hp - lp + ((high - low) / b + 1) / 2) / ((high - low) / b + 1)
                  * ((high - v) / b + 1) ∧
              hp - (hp - lp + ((high - low) / b + 1) / 2) / ((high - low) / b + 1)
                  * ((high - v) / b + 1) < lp
            then lp
            else hp - (hp - lp + ((high - low) / b + 1) / 2) / ((high - low) / b + 1)
                  * ((high - v) / b + 1)) := by
  have hq0 : 0 ≤ (high - low) / b := Int.ediv_nonneg (by omega) hb.le
  have hqi0 : 0 ≤ (high - v) / b := Int.ediv_nonneg (by omega) hb.le
  have hqi1 : (high - v) / b ≤ (high - low) / b := Int.ediv_le_ediv hb (by omega)
  generalize hq : (high - low) / b = q at *
  generalize hqi : (high - v) / b = qi at *
  have hS0 : 0 ≤ (hp - lp + (q + 1) / 2) / (q + 1) :=
    Int.ediv_nonneg (by omega) (by omega)
  have hSN : (hp - lp + (q + 1) / 2) / (q + 1) * (q + 1) ≤ hp - lp + (q + 1) / 2 :=
    Int.ediv_mul_le _ (by omega)
  have hSD : (hp - lp + (q + 1) / 2) / (q + 1) ≤ hp - lp :=
    slot_size_le_span (hp - lp) (q + 1) (by omega) (by omega)
  generalize hS : (hp - lp + (q + 1) / 2) / (q + 1) = S at *
  have hP0 : 0 ≤ S * (qi + 1) := mul_nonneg hS0 (by omega)
  have hP1 : S * (qi + 1) ≤ S * (q + 1) :=
    mul_le_mul_of_nonneg_left (by omega) hS0
  generalize hP : S * (qi + 1) = P at *
  have e1 : wrapI32 (high - low) = high - low := wrapI32_id (by omega) (by omega)
  have e2 : wrapU32 (high - low) = high - low := wrapU32_id (by omega) (by omega)
  have e3 : wrapU32 (q + 1) = q + 1 := wrapU32_id (by omega) (by omega)
  have e4 : wrapI8 (q + 1) = q + 1 := wrapI8_id (by omega) (by omega)
  have e5 : Int.tdiv (q + 1) 2 = (q + 1) / 2 := Int.tdiv_eq_ediv (by omega) (by omega)
  have e6 : wrapU32 (hp - lp) = hp - lp := wrapU32_id (by omega) (by omega)
  have e7 : wrapU32 ((q + 1) / 2) = (q + 1) / 2 := wrapU32_id (by omega) (by omega)
  have e8 : wrapU32 (hp - lp + (q + 1) / 2) = hp - lp + (q + 1) / 2 :=
    wrapU32_id (by omega) (by omega)
  have e9 : wrapU32 S = S := wrapU32_id (by omega) (by omega)
  have e10 : wrapI8 S = S := wrapI8_id (by omega) (by omega)
  have e11 : wrapI32 (high - v) = high - v := wrapI32_id (by omega) (by omega)
  have e12 : wrapI8 (high - v) = high - v := wrapI8_id (by omega) (by omega)
  have e13 : wrapU32 (high - v) = high - v := wrapU32_id (by omega) (by omega)
  have e14 : wrapU32 (qi + 1) = qi + 1 := wrapU32_id (by omega) (by omega)
  have e15 : wrapI8 (qi + 1) = qi + 1 := wrapI8_id (by omega) (by omega)
  have e16 : wrapU32 P = P := wrapU32_id (by omega) (by omega)
  have e17 : wrapI8 (wrapU32 (hp - P)) = hp - P := wrapI8_wrapU32 (by omega) (by omega)
  have e18 : wrapI8 lp = lp := wrapI8_id (by omega) (by omega)
  unfold scm_get_rssi_pcnt_for_slot
  simp only [e1, e2, hq, e3, e4, e5, e6, e7, e8, hS, e9, e10, e11, e12, e13, hqi, e14,
    e15, hP, e16, e17, e18]
  rw [if_neg (by omega), if_neg (by omega)]
  by_cases hx : 0 ≤ hp - P
  · rw [wrapU32_id hx (by omega)]
    by_cases hl : hp - P < lp
    · rw [if_pos hl, if_pos ⟨hx, hl⟩]
    · rw [if_neg hl, if_neg (fun h => hl h.2)]
  · have hnot : ¬ (wrapU32 (hp - P) < lp) := by
      unfold wrapU32; omega
    rw [if_neg hnot, if_neg (fun h => hx h.1)]

/-- Claim C8, at the input high = -75, low = -85, percentages 22 and 0, bucket
size 3, RSSI -84: the mapper computes 4 slots of size 6 and slot index 4, so
`high_pcnt - slot_size * slot_index` is -2; the unsigned comparison against
`low_pcnt` does not fire and -2 is returned, below the floor `max 0 (-2) = 0`. -/
theorem scm_get_rssi_pcnt_for_slot_below_floor :
    ((0 : Int) < 3 ∧ (-85 : Int) ≤ -84 ∧ (-84 : Int) ≤ -75 ∧ (0 : Int) ≤ 0 ∧
      (0 : Int) ≤ 22 ∧ (22 : Int) ≤ 100) ∧
    ((-75 - -85 : Int) / 3 + 1 = 4 ∧ ((22 - 0 : Int) + 4 / 2) / 4 = 6 ∧
      (-75 - -84 : Int) / 3 + 1 = 4) ∧
    max (0 : Int) (22 - 6 * 4) = 0 ∧
    scm_get_rssi_pcnt_for_slot (-75) (-85) 22 0 3 (-84) = some (-2) :=
  ⟨by decide, by decide, by decide, by decide⟩

/-- Claim C9 fails on a window of 128 dB: with high = 0, low = -128,
percentages 50 and 0 and bucket size 2, the RSSI difference 128 at -128 dBm does
not fit the signed 8-bit local, and the weaker signal -128 dBm maps to 113 while
the stronger -127 dBm maps to -14. -/
theorem scm_get_rssi_pcnt_for_slot_mono_fails :
    ((0 : Int) < 2 ∧ (0 : Int) ≤ 0 ∧ (0 : Int) ≤ 50 ∧ (50 : Int) ≤ 100 ∧
      (-128 : Int) ≤ -128 ∧ (-128 : Int) ≤ -127 ∧ (-127 : Int) ≤ 0) ∧
    scm_get_rssi_pcnt_for_slot 0 (-128) 50 0 2 (-128) = some 113 ∧
    scm_get_rssi_pcnt_for_slot 0 (-128) 50 0 2 (-127) = some (-14) ∧
    ¬ ((113 : Int) ≤ -14) :=
  ⟨by decide, by decide, by decide, by decide⟩

/-- Claim C9, amended: on a valid window (bucket size > 0,
`0 ≤ low_pcnt ≤ high_pcnt ≤ 100`) that is at most 127 dB wide and has at most
127 slots, the mapper returns a percentage for every value in the window, and
for two values `v1 ≤ v2` in the window the percentage of `v1` is at most the
percentage of `v2`. -/
theorem scm_get_rssi_pcnt_for_slot_mono (high low hp lp b v1 v2 : Int)
    (hb : 0 < b) (hlp : 0 ≤ lp) (hlh : lp ≤ hp) (hhp : hp ≤ 100)
    (hlow : low ≤ v1) (h12 : v1 ≤ v2) (hhigh : v2 ≤ high)
    (hw : high - low ≤ 127) (hN : (high - low) / b + 1 ≤ 127) :
    ∃ r1 r2, scm_get_rssi_pcnt_for_slot high low hp lp b v1 = some r1 ∧
      scm_get_rssi_pcnt_for_slot high low hp lp b v2 = some r2 ∧ r1 ≤ r2 := by
  refine ⟨_, _, slot_eval high low hp lp b v1 hb hlp hlh hhp hlow (by omega) hw hN,
    slot_eval high low hp lp b v2 hb hlp hlh hhp (by omega) hhigh hw hN, ?_⟩
  have hS0 : 0 ≤ (hp - lp + ((high - low) / b + 1) / 2) / ((high - low) / b + 1) := by
    have hq0 : 0 ≤ (high - low) / b := Int.ediv_nonneg (by omega) hb.le
    exact Int.ediv_nonneg (by omega) (by omega)
  have hI : (high - v2) / b + 1 ≤ (high - v1) / b + 1 := by
    have := @Int.ediv_le_ediv (high - v2) (high - v1) b hb (by omega)
    omega
  have hP := mul_le_mul_of_nonneg_left hI hS0
  generalize (hp - lp + ((high - low) / b + 1) / 2) / ((high - low) / b + 1)
    * ((high - v1) / b + 1) = P1 at hP ⊢
  generalize (hp - lp + ((high - low) / b + 1) / 2) / ((high - low) / b + 1)
    * ((high - v2) / b + 1) = P2 at hP ⊢
  split_ifs <;> omega

/-- The good-to-bad window of the worked configuration at -84 and -78 dBm. -/
theorem scm_get_rssi_pcnt_for_slot_mono_witness :
    ((0 : Int) < 5 ∧ (0 : Int) ≤ 0 ∧ (0 : Int) ≤ 20 ∧ (20 : Int) ≤ 100 ∧
      (-85 : Int) ≤ -84 ∧ (-84 : Int) ≤ -78 ∧ (-78 : Int) ≤ -75 ∧
      (-75 - -85 : Int) ≤ 127 ∧ (-75 - -85 : Int) / 5 + 1 ≤ 127) ∧
    ∃ r1 r2, scm_get_rssi_pcnt_for_slot (-75) (-85) 20 0 5 (-84) = some r1 ∧
      scm_get_rssi_pcnt_for_slot (-75) (-85) 20 0 5 (-78) = some r2 ∧ r1 ≤ r2 :=
  ⟨by decide,
    scm_get_rssi_pcnt_for_slot_mono (-75) (-85) 20 0 5 (-84) (-78) (by decide)
      (by decide) (by decide) (by decide) (by decide) (by decide) (by decide)
      (by decide) (by decide)⟩

/-! ## RSSI score: inside the windows -/

/-- Claim C6, at the configuration with thresholds -65, -75 and -85 dBm, good
percentage 22, bad percentage 0, good bucket 5, bad bucket 3, weight 10 and
RSSI -84 dBm (between the bad and the good threshold): the percentage applied
is -2, below `bad_pcnt = 0`, and the score is -20, a negative number. -/
theorem scm_calculate_rssi_score_negative :
    (uneven_rssi_cfg.byte_fields ∧
      uneven_rssi_cfg.bad_rssi_pcnt ≤ uneven_rssi_cfg.good_rssi_pcnt ∧
      uneven_rssi_cfg.good_rssi_pcnt ≤ 100 ∧
      uneven_rssi_cfg.best_rssi_threshold ≤ uneven_rssi_cfg.good_rssi_threshold ∧
      uneven_rssi_cfg.good_rssi_threshold ≤ uneven_rssi_cfg.bad_rssi_threshold ∧
      0 < uneven_rssi_cfg.good_rssi_bucket_size ∧
      0 < uneven_rssi_cfg.bad_rssi_bucket_size) ∧
    (-(uneven_rssi_cfg.bad_rssi_threshold : Int) < -84 ∧
      (-84 : Int) ≤ -(uneven_rssi_cfg.good_rssi_threshold : Int)) ∧
    scm_get_rssi_pcnt_for_slot (-75) (-85) 22 0 3 (wrapI8 (-84)) = some (-2) ∧
    scm_calculate_rssi_score uneven_rssi_cfg (-84) 10 = some (-20) :=
  ⟨by decide, by decide, by decide, by decide⟩

/-- Claim C4 fails at an RSSI equal to the best threshold: in the worked
configuration with weight 10 the score at -65 dBm is 730, not `100 * 10`. -/
theorem scm_calculate_rssi_score_at_best_not_full :
    (example_rssi_cfg.byte_fields ∧
      -(example_rssi_cfg.best_rssi_threshold : Int) ≤ -65) ∧
    scm_calculate_rssi_score example_rssi_cfg (-65) 10 = some 730 ∧
    (730 : Int) ≠ 100 * 10 :=
  ⟨by decide, by decide, by decide⟩

/-- Claim C4, amended: for a valid configuration whose best threshold is
strictly stronger than its good threshold, an RSSI strictly above the negated
best threshold scores exactly `100 * weight`, and an RSSI equal to it falls in
the first slot below the top and scores `(100 * weight * (100 - slot_size)) / 100`
with `slot_size = ((100 - good_pcnt) + num_slots / 2) / num_slots` and
`num_slots = (good - best) / good_bucket_size + 1`. -/
theorem scm_calculate_rssi_score_at_or_above_best (score_param : rssi_cfg_score)
    (rssi : Int) (rssi_weightage : Nat)
    (hcfg : score_param.byte_fields) (hw : rssi_weightage ≤ 255)
    (hgp : score_param.good_rssi_pcnt ≤ 100)
    (hgb : 0 < score_param.good_rssi_bucket_size)
    (hbg : score_param.best_rssi_threshold < score_param.good_rssi_threshold)
    (hgbad : score_param.good_rssi_threshold ≤ score_param.bad_rssi_threshold)
    (hbest : score_param.best_rssi_threshold ≤ 128)
    (hwin : (score_param.good_rssi_threshold : Int) - score_param.best_rssi_threshold ≤ 127)
    (hslots : ((score_param.good_rssi_threshold : Int) - score_param.best_rssi_threshold)
      / score_param.good_rssi_bucket_size + 1 ≤ 127)
    (h : -(score_param.best_rssi_threshold : Int) ≤ rssi) :
    scm_calculate_rssi_score score_param rssi rssi_weightage =
      some (if -(score_param.best_rssi_threshold : Int) < rssi then 100 * (rssi_weightage : Int)
        else (100 * (rssi_weightage : Int) *
          (100 - (100 - (score_param.good_rssi_pcnt : Int) +
              (((score_param.good_rssi_threshold : Int) - score_param.best_rssi_threshold)
                / score_param.good_rssi_bucket_size + 1) / 2)
            / (((score_param.good_rssi_threshold : Int) - score_param.best_rssi_threshold)
                / score_param.good_rssi_bucket_size + 1))) / 100) := by
  obtain ⟨hb, hg, hbad, hgp8, -, hgb8, -⟩ := hcfg
  unfold scm_calculate_rssi_score
  simp only [neg_threshold _ hb, neg_threshold _ hg, neg_threshold _ hbad, full_score _ hw]
  by_cases habove : -(score_param.best_rssi_threshold : Int) < rssi
  · rw [if_pos (by omega), if_pos habove]
  · have hr : rssi = -(score_param.best_rssi_threshold : Int) := by omega
    subst hr
    rw [if_neg (by omega), if_neg (by omega), if_pos (by omega), if_neg habove]
    rw [wrapU32_id (x := (score_param.good_rssi_pcnt : Int)) (by omega) (by omega),
      wrapU32_id (x := (score_param.good_rssi_bucket_size : Int)) (by omega) (by omega),
      wrapI8_id (x := -(score_param.best_rssi_threshold : Int)) (by omega) (by omega)]
    have hsub : -(score_param.best_rssi_threshold : Int) - -(score_param.good_rssi_threshold : Int)
        = (score_param.good_rssi_threshold : Int) - score_param.best_rssi_threshold := by
      omega
    rw [slot_eval _ _ _ _ _ _ (by omega) (by omega) (by omega) (by omega) (by omega)
      (by omega) (by omega) (by rw [hsub]; exact hslots)]
    rw [hsub, sub_self, Int.zero_ediv, zero_add, mul_one]
    have hq0 : 0 ≤ ((score_param.good_rssi_threshold : Int) - score_param.best_rssi_threshold)
        / score_param.good_rssi_bucket_size :=
      Int.ediv_nonneg (by omega) (by omega)
    generalize ((score_param.good_rssi_threshold : Int) - score_param.best_rssi_threshold)
        / score_param.good_rssi_bucket_size = q at hq0 hslots ⊢
    have hS0 : 0 ≤ (100 - (score_param.good_rssi_pcnt : Int) + (q + 1) / 2) / (q + 1) :=
      Int.ediv_nonneg (by omega) (by omega)
    have hSD := slot_size_le_span (100 - (score_param.good_rssi_pcnt : Int)) (q + 1)
      (by omega) (by omega)
    generalize (100 - (score_param.good_rssi_pcnt : Int) + (q + 1) / 2) / (q + 1) = S
      at hS0 hSD ⊢
    rw [if_neg (by omega)]
    simp only [Option.map_some']
    have hp0 : 0 ≤ 100 * (rssi_weightage : Int) * (100 - S) :=
      mul_nonneg (by omega) (by omega)
    have hp1 : 100 * (rssi_weightage : Int) * (100 - S) ≤ 2550000 := by
      have h1 : (rssi_weightage : Int) ≤ 255 := by omega
      have h3 : (0 : Int) ≤ rssi_weightage := by omega
      nlinarith
    generalize 100 * (rssi_weightage : Int) * (100 - S) = t at hp0 hp1
    rw [wrapI32_id (by omega) (by omega), Int.tdiv_eq_ediv hp0 (by omega)]

/-- The worked configuration at -65 dBm, exactly its best threshold: three
slots of size 27, hence `(1000 * 73) / 100 = 730`. -/
theorem scm_calculate_rssi_score_at_or_above_best_witness :
    (example_rssi_cfg.byte_fields ∧ (10 : Nat) ≤ 255 ∧
      example_rssi_cfg.good_rssi_pcnt ≤ 100 ∧
      0 < example_rssi_cfg.good_rssi_bucket_size ∧
      example_rssi_cfg.best_rssi_threshold < example_rssi_cfg.good_rssi_threshold ∧
      example_rssi_cfg.good_rssi_threshold ≤ example_rssi_cfg.bad_rssi_threshold ∧
      example_rssi_cfg.best_rssi_threshold ≤ 128 ∧
      -(example_rssi_cfg.best_rssi_threshold : Int) ≤ -65) ∧
    scm_calculate_rssi_score example_rssi_cfg (-65) 10 = some 730 :=
  ⟨by decide,
    scm_calculate_rssi_score_at_or_above_best example_rssi_cfg (-65) 10 (by decide)
      (by decide) (by decide) (by decide) (by decide) (by decide) (by decide)
      (by decide) (by decide) (by decide)⟩

/-! ## Preferred-channel-list score -/

/-- Claim C10: for a channel weight `w` in 0..255 and an 8-bit weightage the PCL
score is 0 when `w = 0` and `max 0 (weightage - (255 - w) / 20) * 100`
otherwise; in particular `w = 255` gives exactly `weightage * 100`. -/
theorem scm_calculate_pcl_score_spec (pcl_chan_weight : Int) (pcl_weightage : Nat)
    (h0 : 0 ≤ pcl_chan_weight) (h1 : pcl_chan_weight ≤ 255)
    (hw : pcl_weightage ≤ 255) :
    scm_calculate_pcl_score pcl_chan_weight pcl_weightage =
        some (if pcl_chan_weight = 0 then 0
          else max 0 ((pcl_weightage : Int) - (255 - pcl_chan_weight) / 20) * 100) ∧
      (pcl_chan_weight = 255 →
        scm_calculate_pcl_score pcl_chan_weight pcl_weightage =
          some ((pcl_weightage : Int) * 100)) := by
  have main : scm_calculate_pcl_score pcl_chan_weight pcl_weightage =
        some (if pcl_chan_weight = 0 then 0
          else max 0 ((pcl_weightage : Int) - (255 - pcl_chan_weight) / 20) * 100) := by
    unfold scm_calculate_pcl_score qdf_do_div
    by_cases hz : pcl_chan_weight = 0
    · simp [hz, wrapI32]
    · simp only [ne_eq, hz, not_false_eq_true, if_true, if_false]
      unfold SCM_MAX_WEIGHT_OF_PCL_CHANNELS SCM_PCL_GROUPS_WEIGHT_DIFFERENCE MAX_PCT_SCORE
      have e1 : wrapU64 20 = 20 := by decide
      rw [wrapI32_id (by omega) (by omega), e1,
        @wrapU64.eq_1 (255 - pcl_chan_weight)]
      rw [Int.emod_eq_of_lt (by omega) (by omega)]
      simp only [show ¬ ((20 : Int) = 0) by decide, if_false, Option.map_some']
      have hq0 : 0 ≤ (255 - pcl_chan_weight) / 20 := by omega
      have hq1 : (255 - pcl_chan_weight) / 20 ≤ 12 := by omega
      generalize (255 - pcl_chan_weight) / 20 = q at hq0 hq1
      have eq1 : wrapI32 q = q := wrapI32_id (by omega) (by omega)
      have eq2 : wrapU8 (pcl_weightage : Int) = pcl_weightage :=
        wrapU8_id (by omega) (by omega)
      have eq3 : wrapI32 ((pcl_weightage : Int) - q) = (pcl_weightage : Int) - q :=
        wrapI32_id (by omega) (by omega)
      rw [eq1, eq2, eq3]
      congr 1
      rcases le_total 0 ((pcl_weightage : Int) - q) with hc | hc
      · rw [max_eq_right hc, if_neg (by omega)]
        exact wrapI32_id (by omega) (by omega)
      · rw [max_eq_left hc]
        split_ifs with hlt
        · rfl
        · have : (pcl_weightage : Int) - q = 0 := by omega
          rw [this]; rfl
  refine ⟨main, ?_⟩
  intro h255
  rw [main, h255]
  simp

/-- Channel weight 235 with weightage 10: one group below the top, score 900. -/
theorem scm_calculate_pcl_score_spec_witness :
    ((0 : Int) ≤ 235 ∧ (235 : Int) ≤ 255 ∧ (10 : Nat) ≤ 255) ∧
    scm_calculate_pcl_score 235 10 = some 900 :=
  ⟨by decide,
    (scm_calculate_pcl_score_spec 235 10 (by decide) (by decide) (by decide)).1⟩

/-! ## Prorated capability percentage -/

/-- Negating a threshold magnitude of at most 128 into an `int8_t` local. -/
theorem neg_threshold_i8 (n : Nat) (h : n ≤ 128) :
    wrapI8 ((n : Int) * (-1)) = -(n : Int) := by
  rw [wrapI8_id (by omega) (by omega)]; omega

/-- Claim C11: for a configuration whose good and 5 GHz preference thresholds
fit a signed byte and whose bad bucket size is in 1..127, and an 8-bit signed
RSSI, the prorated percentage is 100 above the good threshold; otherwise 0 when
the RSSI shares a bucket with the 5 GHz preference threshold (buckets counted
from the good threshold with the bad bucket size), or lies below that threshold,
or is at or below the bad threshold; and otherwise the slot-mapped percentage of
the good-to-bad window with the bad bucket size. -/
theorem scm_roam_calculate_prorated_pcnt_by_rssi_spec (score_param : rssi_cfg_score)
    (rssi : Int) (rssi_weightage : Nat)
    (hcfg : score_param.byte_fields)
    (hgood : score_param.good_rssi_threshold ≤ 127)
    (hpref : score_param.rssi_pref_5g_rssi_thresh ≤ 127)
    (hb0 : 0 < score_param.bad_rssi_bucket_size)
    (hb1 : score_param.bad_rssi_bucket_size ≤ 127)
    (hr : -128 ≤ rssi) :
    scm_roam_calculate_prorated_pcnt_by_rssi score_param rssi rssi_weightage =
      if -(score_param.good_rssi_threshold : Int) < rssi then some 100
      else if
        Int.tdiv (-(score_param.good_rssi_threshold : Int) - rssi)
            score_param.bad_rssi_bucket_size =
          Int.tdiv (-(score_param.good_rssi_threshold : Int) -
            -(score_param.rssi_pref_5g_rssi_thresh : Int))
            score_param.bad_rssi_bucket_size ∨
        rssi < -(score_param.rssi_pref_5g_rssi_thresh : Int) ∨
        rssi ≤ -(score_param.bad_rssi_threshold : Int)
      then some 0
      else
        scm_get_rssi_pcnt_for_slot (-(score_param.good_rssi_threshold : Int))
          (-(score_param.bad_rssi_threshold : Int)) score_param.good_rssi_pcnt
          score_param.bad_rssi_pcnt score_param.bad_rssi_bucket_size rssi := by
  obtain ⟨-, hg, hbad, hgp, hbp, -, hbb, -⟩ := hcfg
  unfold scm_roam_calculate_prorated_pcnt_by_rssi
  simp only [neg_threshold _ hg, neg_threshold _ hbad,
    neg_threshold_i8 _ (show score_param.rssi_pref_5g_rssi_thresh ≤ 128 by omega)]
  by_cases h1 : -(score_param.good_rssi_threshold : Int) < rssi
  · rw [if_pos h1, if_pos h1]
    rfl
  · rw [if_neg (by omega), if_neg h1]
    have eg : wrapI8 (-(score_param.good_rssi_threshold : Int)) =
        -(score_param.good_rssi_threshold : Int) := wrapI8_id (by omega) (by omega)
    have er : wrapI8 rssi = rssi := wrapI8_id hr (by omega)
    have eb : wrapI8 (score_param.bad_rssi_bucket_size : Int) =
        score_param.bad_rssi_bucket_size := wrapI8_id (by omega) (by omega)
    have e1 : wrapU32 (score_param.good_rssi_pcnt : Int) = score_param.good_rssi_pcnt :=
      wrapU32_id (by omega) (by omega)
    have e2 : wrapU32 (score_param.bad_rssi_pcnt : Int) = score_param.bad_rssi_pcnt :=
      wrapU32_id (by omega) (by omega)
    have e3 : wrapU32 (score_param.bad_rssi_bucket_size : Int) =
        score_param.bad_rssi_bucket_size := wrapU32_id (by omega) (by omega)
    have e4 : wrapI8 (-(score_param.good_rssi_threshold : Int) -
        -(score_param.rssi_pref_5g_rssi_thresh : Int)) =
        -(score_param.good_rssi_threshold : Int) -
          -(score_param.rssi_pref_5g_rssi_thresh : Int) :=
      wrapI8_id (by omega) (by omega)
    unfold scm_rssi_is_same_bucket
    simp only [eg, er, eb, e1, e2, e3, e4]
    rw [if_neg (by omega)]
    simp only [Option.some_bind, decide_eq_true_eq]
    by_cases h2 : rssi < -(score_param.rssi_pref_5g_rssi_thresh : Int)
    · rw [if_pos (Or.inr h2), if_pos (Or.inr (Or.inl h2))]
    · have e5 : wrapI8 (-(score_param.good_rssi_threshold : Int) - rssi) =
          -(score_param.good_rssi_threshold : Int) - rssi :=
        wrapI8_id (by omega) (by omega)
      rw [e5]
      by_cases h3 : Int.tdiv (-(score_param.good_rssi_threshold : Int) - rssi)
            score_param.bad_rssi_bucket_size =
          Int.tdiv (-(score_param.good_rssi_threshold : Int) -
            -(score_param.rssi_pref_5g_rssi_thresh : Int))
            score_param.bad_rssi_bucket_size
      · rw [if_pos (Or.inl h3), if_pos (Or.inl h3)]
      · rw [if_neg (by tauto)]
        by_cases h4 : rssi ≤ -(score_param.bad_rssi_threshold : Int)
        · rw [if_pos h4, if_pos (Or.inr (Or.inr h4))]
        · rw [if_neg h4, if_neg (by tauto)]

/-- The thresholds -75 and -85 dBm with preference threshold -84 dBm at -78 dBm:
bucket 0 against bucket 1, so the slot-mapped percentage `20 - 7 * 1` applies. -/
theorem scm_roam_calculate_prorated_pcnt_by_rssi_spec_witness :
    (pref_rssi_cfg.byte_fields ∧ pref_rssi_cfg.good_rssi_threshold ≤ 127 ∧
      pref_rssi_cfg.rssi_pref_5g_rssi_thresh ≤ 127 ∧
      0 < pref_rssi_cfg.bad_rssi_bucket_size ∧
      pref_rssi_cfg.bad_rssi_bucket_size ≤ 127 ∧ (-128 : Int) ≤ -78) ∧
    scm_roam_calculate_prorated_pcnt_by_rssi pref_rssi_cfg (-78) 10 = some 13 :=
  ⟨by decide,
    scm_roam_calculate_prorated_pcnt_by_rssi_spec pref_rssi_cfg (-78) 10 (by decide)
      (by decide) (by decide) (by decide) (by decide) (by decide)⟩

/-- Claim C12, at the configuration with thresholds -60, -70 and -85 dBm, good
percentage 20, bad percentage 0, bad bucket 2, preference threshold -84 dBm and
RSSI -82 dBm: the slot mapper computes 8 slots of size 3 and slot index 7, so
the prorated percentage is `20 - 21 = -1`, which the 8-bit unsigned
`prorated_pcnt` holds as 255, above 100. -/
theorem scm_roam_calculate_prorated_pcnt_out_of_range :
    (narrow_bucket_rssi_cfg.byte_fields ∧
      narrow_bucket_rssi_cfg.bad_rssi_pcnt ≤ narrow_bucket_rssi_cfg.good_rssi_pcnt ∧
      narrow_bucket_rssi_cfg.good_rssi_pcnt ≤ 100 ∧
      narrow_bucket_rssi_cfg.best_rssi_threshold ≤
        narrow_bucket_rssi_cfg.good_rssi_threshold ∧
      narrow_bucket_rssi_cfg.good_rssi_threshold ≤
        narrow_bucket_rssi_cfg.bad_rssi_threshold ∧
      0 < narrow_bucket_rssi_cfg.good_rssi_bucket_size ∧
      0 < narrow_bucket_rssi_cfg.bad_rssi_bucket_size) ∧
    scm_roam_calculate_prorated_pcnt_by_rssi narrow_bucket_rssi_cfg (-82) 10 =
      some (-1) ∧
    wrapU8 (-1) = 255 ∧ ¬ ((255 : Int) ≤ 100) :=
  ⟨by decide, by decide, by decide, by decide⟩

/-! ## Bandwidth score -/

/-- Claim C13, at a 40 MHz candidate on 5180 MHz for a station with HT, without
VHT and with channel bonding enabled on 5 GHz (table 20, 60, 80, 100, weightage
10, prorated percentage 100): the claimed index is 1 and the claimed score
`(100 * 60 * 10) / 100 = 600`, while the code, which reads `cb_mode_5G` only
when `vht_cap` is set, uses index 0 and returns `(100 * 20 * 10) / 100 = 200`. -/
theorem scm_calculate_bandwidth_score_5g_ht40 :
    (sample_reg.WLAN_REG_IS_24GHZ_CH_FREQ sample_bss_5g_40.chan_freq = false ∧
      IS_WLAN_PHYMODE_40MHZ sample_bss_5g_40.phy_mode = true ∧
      ht_only_config.ht_cap = true ∧ ht_only_config.vht_cap = false ∧
      ht_only_config.cb_mode_5G ≠ 0) ∧
    ((ht_only_config.bandwidth_weight_per_index / 256 ^ 0) % 256 = 20 ∧
      (ht_only_config.bandwidth_weight_per_index / 256 ^ 1) % 256 = 60) ∧
    scm_calculate_bandwidth_score sample_reg sample_bss_5g_40 ht_only_config 100 =
      some 200 ∧
    (100 * 60 * 10) / 100 ≠ (200 : Int) :=
  ⟨by decide, by decide, by decide, by decide⟩

/-- Claim C14, at an 80 MHz candidate on 5180 MHz for a station with HT, without
VHT and with `cb_mode_5G` non-zero: the score is the one of the 20 MHz entry
(200), not of the 40 MHz entry (600); the same station and PHY width on
2437 MHz with `cb_mode_24G` non-zero do get the 40 MHz entry. -/
theorem scm_calculate_bandwidth_score_5g_no_vht :
    (sample_reg.WLAN_REG_IS_24GHZ_CH_FREQ sample_bss_5g_80.chan_freq = false ∧
      sample_reg.WLAN_REG_IS_5GHZ_CH_FREQ sample_bss_5g_80.chan_freq = true ∧
      IS_WLAN_PHYMODE_80MHZ sample_bss_5g_80.phy_mode = true ∧
      ht_only_config.ht_cap = true ∧ ht_only_config.vht_cap = false ∧
      ht_only_config.cb_mode_5G ≠ 0 ∧ ht_only_config.cb_mode_24G ≠ 0) ∧
    scm_calculate_bandwidth_score sample_reg sample_bss_5g_80 ht_only_config 100 =
      some ((100 * 20 * 10) / 100) ∧
    scm_calculate_bandwidth_score sample_reg sample_bss_2g_40 ht_only_config 100 =
      some ((100 * 60 * 10) / 100) :=
  ⟨by decide, by decide, by decide⟩

/-! ## Congestion percentage -/

/-- Unsigned 64-bit division of two values that are in range. -/
theorem qdf_do_div_nonneg (a b : Int) (ha0 : 0 ≤ a) (ha1 : a < 18446744073709551616)
    (hb0 : 0 < b) (hb1 : b < 18446744073709551616) :
    qdf_do_div a b = some (a / b) := by
  unfold qdf_do_div wrapU64
  rw [Int.emod_eq_of_lt ha0 ha1, Int.emod_eq_of_lt hb0.le hb1, if_neg (by omega)]

/-- The congestion percentage is computed on every candidate. -/
theorem scm_get_congestion_pct_total (entry : scan_cache_entry) :
    ∃ c, scm_get_congestion_pct entry = some c := by
  unfold scm_get_congestion_pct qdf_do_div
  have e1 : wrapU64 SCM_MAX_ESTIMATED_AIR_TIME_FRACTION ≠ 0 := by decide
  have e2 : wrapU64 MAX_AP_LOAD ≠ 0 := by decide
  simp only [if_neg e1, if_neg e2, Option.map_some']
  split_ifs <;> exact ⟨_, rfl⟩

/-- Closed form of the congestion percentage for 8-bit metrics. -/
theorem congestion_pct_closed_form (entry : scan_cache_entry)
    (hf : entry.air_time_fraction ≤ 255) (hl : entry.qbss_chan_load ≤ 255) :
    scm_get_congestion_pct entry =
      some (if entry.air_time_fraction ≠ 0 then
          100 - ((entry.air_time_fraction : Int) * 100) / 255
        else if entry.qbss_chan_load ≠ 0 then
          ((entry.qbss_chan_load : Int) * 100) / 255
        else 0) := by
  unfold scm_get_congestion_pct
  simp only [SCM_MAX_CHANNEL_WEIGHT, SCM_MAX_ESTIMATED_AIR_TIME_FRACTION,
    SCM_MAX_CHANNEL_UTILIZATION, MAX_PCT_SCORE, MAX_AP_LOAD]
  by_cases h1 : entry.air_time_fraction ≠ 0
  · rw [if_pos h1, if_pos h1]
    rw [wrapU32_id (x := (entry.air_time_fraction : Int) * 100) (by omega) (by omega),
      qdf_do_div_nonneg _ _ (by omega) (by omega) (by omega) (by omega)]
    simp only [Option.map_some']
    rw [wrapU32_id (x := (entry.air_time_fraction : Int) * 100 / 255) (by omega) (by omega),
      wrapU32_id (by omega) (by omega), wrapI32_id (by omega) (by omega)]
  · rw [if_neg h1, if_neg h1]
    by_cases h2 : entry.qbss_chan_load ≠ 0
    · rw [if_pos h2, if_pos h2]
      rw [wrapU32_id (x := (entry.qbss_chan_load : Int) * 100) (by omega) (by omega),
        qdf_do_div_nonneg _ _ (by omega) (by omega) (by omega) (by omega)]
      simp only [Option.map_some']
      rw [wrapU32_id (by omega) (by omega), wrapI32_id (by omega) (by omega)]
    · rw [if_neg h2, if_neg h2]
      rfl

/-- The congestion percentage of 8-bit metrics lies within 0..100. -/
theorem congestion_pct_bounds (entry : scan_cache_entry)
    (hf : entry.air_time_fraction ≤ 255) (hl : entry.qbss_chan_load ≤ 255) :
    ∃ c, scm_get_congestion_pct entry = some c ∧ 0 ≤ c ∧ c ≤ 100 := by
  refine ⟨_, congestion_pct_closed_form entry hf hl, ?_, ?_⟩ <;> split_ifs <;> omega

/-- Claim C15: for 8-bit metrics the congestion percentage is
`100 - (f * 100) / 255` when the air-time fraction `f` is non-zero, else
`(l * 100) / 255` when the QBSS load `l` is non-zero, else 0; the air-time
fraction takes priority and the result lies within 0..100. -/
theorem scm_get_congestion_pct_spec (entry : scan_cache_entry)
    (hf : entry.air_time_fraction ≤ 255) (hl : entry.qbss_chan_load ≤ 255) :
    scm_get_congestion_pct entry =
        some (if entry.air_time_fraction ≠ 0 then
            100 - ((entry.air_time_fraction : Int) * 100) / 255
          else if entry.qbss_chan_load ≠ 0 then
            ((entry.qbss_chan_load : Int) * 100) / 255
          else 0) ∧
      ∃ c, scm_get_congestion_pct entry = some c ∧ 0 ≤ c ∧ c ≤ 100 :=
  ⟨congestion_pct_closed_form entry hf hl, congestion_pct_bounds entry hf hl⟩

/-- QBSS load 64 without air-time fraction: 25 percent. -/
theorem scm_get_congestion_pct_spec_witness :
    (sample_bss_loaded.air_time_fraction ≤ 255 ∧ sample_bss_loaded.qbss_chan_load ≤ 255) ∧
    scm_get_congestion_pct sample_bss_loaded = some 25 :=
  ⟨by decide, (scm_get_congestion_pct_spec sample_bss_loaded (by decide) (by decide)).1⟩

/-! ## Slot tables -/

/-- The product of an 8-bit weightage and a percentage byte survives the
conversions to `uint32_t` and `int32_t`. -/
theorem wrap_weight_byte (w b : Int) (hw0 : 0 ≤ w) (hw1 : w ≤ 255) (hb0 : 0 ≤ b)
    (hb1 : b ≤ 255) : wrapI32 (wrapU32 (w * b)) = w * b := by
  have h0 : 0 ≤ w * b := mul_nonneg hw0 hb0
  have h1 : w * b ≤ 255 * 255 := mul_le_mul hw1 hb1 hb0 (by omega)
  rw [wrapU32_id h0 (by omega), wrapI32_id (by omega) (by omega)]

/-- The packed lookup agrees with the flat table on every slot index. -/
theorem score_for_index_table (i w : Int) (s : per_slot_scoring)
    (hi0 : 0 ≤ i) (hi1 : i ≤ 15) (hw0 : 0 ≤ w) (hw1 : w ≤ 255) :
    scm_get_score_for_index i w s = some (w * s.table i) := by
  unfold scm_get_score_for_index WLAN_GET_SCORE_PERCENTAGE per_slot_scoring.table
  simp only [SCM_SCORE_INDEX_3, SCM_SCORE_INDEX_7, SCM_SCORE_INDEX_11,
    SCM_SCORE_OFFSET_INDEX_7_4, SCM_SCORE_OFFSET_INDEX_11_8, SCM_SCORE_OFFSET_INDEX_15_12]
  interval_cases i <;>
    norm_num <;>
    apply wrap_weight_byte _ _ hw0 hw1 <;>
    omega

/-- The packed lookup returns a score on every slot index up to 15. -/
theorem score_for_index_total (i w : Int) (s : per_slot_scoring)
    (hi0 : 0 ≤ i) (hi1 : i ≤ 15) :
    ∃ v, scm_get_score_for_index i w s = some v := by
  unfold scm_get_score_for_index WLAN_GET_SCORE_PERCENTAGE
  simp only [SCM_SCORE_INDEX_3, SCM_SCORE_INDEX_7, SCM_SCORE_INDEX_11,
    SCM_SCORE_OFFSET_INDEX_7_4, SCM_SCORE_OFFSET_INDEX_11_8, SCM_SCORE_OFFSET_INDEX_15_12]
  split_ifs <;> first | exact ⟨_, rfl⟩ | omega

/-! ## Congestion score -/

/-- A congestion slot count above 15 scores like the slot count 15. -/
theorem congestion_clamp (entry : scan_cache_entry) (score_params : scoring_config)
    (h : 15 < score_params.esp_qbss_scoring.num_slot) :
    scm_calculate_congestion_score entry score_params =
      scm_calculate_congestion_score entry
        { score_params with
          esp_qbss_scoring := { score_params.esp_qbss_scoring with num_slot := 15 } } := by
  have h0 : score_params.esp_qbss_scoring.num_slot ≠ 0 := by omega
  have hgt : (15 : Int) < score_params.esp_qbss_scoring.num_slot := by omega
  unfold scm_calculate_congestion_score
  simp only [SCM_SCORE_MAX_INDEX, gt_iff_lt, h0, hgt, if_true, if_false]
  rfl

/-- The congestion scorer returns a score for every slot count up to 15. -/
theorem congestion_total_small (entry : scan_cache_entry) (score_params : scoring_config)
    (hn15 : score_params.esp_qbss_scoring.num_slot ≤ 15) :
    ∃ r, scm_calculate_congestion_score entry score_params = some r := by
  obtain ⟨c, hc⟩ := scm_get_congestion_pct_total entry
  unfold scm_calculate_congestion_score
  simp only [hc, Option.some_bind, SCM_SCORE_MAX_INDEX, SCM_SCORE_INDEX_0, MAX_PCT_SCORE]
  by_cases hz : score_params.esp_qbss_scoring.num_slot = 0
  · rw [if_pos hz]
    exact ⟨_, rfl⟩
  · rw [if_neg hz, if_neg (by omega)]
    have hn8 : wrapU8 (score_params.esp_qbss_scoring.num_slot : Int) =
        score_params.esp_qbss_scoring.num_slot := wrapU8_id (by omega) (by omega)
    simp only [hn8]
    split_ifs with h1 h2
    · obtain ⟨v, hv⟩ := score_for_index_total (score_params.esp_qbss_scoring.num_slot : Int)
        (wrapU8 score_params.weight_cfg.channel_congestion_weightage)
        score_params.esp_qbss_scoring (by omega) (by omega)
      rw [hv]
      exact ⟨_, rfl⟩
    · exact ⟨_, rfl⟩
    · have hwin0 : 6 ≤ 100 / (score_params.esp_qbss_scoring.num_slot : Int) := by
        apply Int.le_ediv_of_mul_le (by omega)
        omega
      have hwin1 : 100 / (score_params.esp_qbss_scoring.num_slot : Int) ≤ 100 :=
        Int.ediv_le_self _ (by omega)
      rw [Int.tdiv_eq_ediv (by omega) (by omega)]
      generalize 100 / (score_params.esp_qbss_scoring.num_slot : Int) = win
        at hwin0 hwin1 ⊢
      rw [wrapU32_id (x := win) (by omega) (by omega)]
      unfold qdf_do_div
      have hwin64 : wrapU64 win = win := by unfold wrapU64; omega
      rw [hwin64, if_neg (by omega)]
      simp only [Option.some_bind]
      have hidx : 0 ≤ wrapU8 (wrapU64 (wrapU32 c) / win + 1) := by
        unfold wrapU8; omega
      generalize wrapU8 (wrapU64 (wrapU32 c) / win + 1) = idx at hidx ⊢
      by_cases h3 : idx > (score_params.esp_qbss_scoring.num_slot : Int)
      · rw [if_pos h3]
        obtain ⟨v, hv⟩ := score_for_index_total (score_params.esp_qbss_scoring.num_slot : Int)
          (wrapU8 score_params.weight_cfg.channel_congestion_weightage)
          score_params.esp_qbss_scoring (by omega) (by omega)
        rw [hv]
        exact ⟨_, rfl⟩
      · rw [if_neg h3]
        obtain ⟨v, hv⟩ := score_for_index_total idx
          (wrapU8 score_params.weight_cfg.channel_congestion_weightage)
          score_params.esp_qbss_scoring (by omega) (by omega)
        rw [hv]
        exact ⟨_, rfl⟩

/-- The congestion scorer returns a score on every input. -/
theorem congestion_total (entry : scan_cache_entry) (score_params : scoring_config) :
    ∃ r, scm_calculate_congestion_score entry score_params = some r := by
  by_cases h : score_params.esp_qbss_scoring.num_slot ≤ 15
  · exact congestion_total_small entry score_params h
  · rw [congestion_clamp entry score_params (by omega)]
    exact congestion_total_small entry _ (le_refl 15)

/-- Claim C16: with a congestion slot count of 0 the congestion scorer returns 0
whatever the RSSI, the congestion metrics, the weightage and the tables. -/
theorem scm_calculate_congestion_score_no_slot (entry : scan_cache_entry)
    (score_params : scoring_config)
    (h : score_params.esp_qbss_scoring.num_slot = 0) :
    ∃ r, scm_calculate_congestion_score entry score_params = some r ∧ r.score = 0 := by
  obtain ⟨c, hc⟩ := scm_get_congestion_pct_total entry
  unfold scm_calculate_congestion_score
  simp only [hc, Option.some_bind, if_pos h]
  exact ⟨_, rfl, rfl⟩

/-- A loaded candidate against the configuration without slots. -/
theorem scm_calculate_congestion_score_no_slot_witness :
    no_slot_config.esp_qbss_scoring.num_slot = 0 ∧
    ∃ r, scm_calculate_congestion_score sample_bss_loaded no_slot_config = some r ∧
      r.score = 0 :=
  ⟨by decide,
    scm_calculate_congestion_score_no_slot sample_bss_loaded no_slot_config (by decide)⟩

/-- Claim C17: for a congestion slot count `n` in 1..15 the congestion scorer
returns `weightage * table[index]`, where `index = n` when the RSSI is at or
below the good threshold, else 0 when the congestion percentage is 0, else
`min (congestion / (100 / n) + 1) n`; the index lies within 0..n and the
configuration is left as it was. -/
theorem scm_calculate_congestion_score_spec (entry : scan_cache_entry)
    (score_params : scoring_config)
    (hn1 : 1 ≤ score_params.esp_qbss_scoring.num_slot)
    (hn15 : score_params.esp_qbss_scoring.num_slot ≤ 15)
    (hw : score_params.weight_cfg.channel_congestion_weightage ≤ 255)
    (hgood : score_params.rssi_score.good_rssi_threshold ≤ 255)
    (hf : entry.air_time_fraction ≤ 255) (hl : entry.qbss_chan_load ≤ 255) :
    ∃ c r index, scm_get_congestion_pct entry = some c ∧
      scm_calculate_congestion_score entry score_params = some r ∧
      index =
        (if entry.rssi_raw ≤ -(score_params.rssi_score.good_rssi_threshold : Int) then
          (score_params.esp_qbss_scoring.num_slot : Int)
        else if c = 0 then 0
        else min (c / (100 / (score_params.esp_qbss_scoring.num_slot : Int)) + 1)
          (score_params.esp_qbss_scoring.num_slot : Int)) ∧
      r.score = (score_params.weight_cfg.channel_congestion_weightage : Int) *
        score_params.esp_qbss_scoring.table index ∧
      0 ≤ index ∧ index ≤ (score_params.esp_qbss_scoring.num_slot : Int) ∧
      r.score_params = score_params := by
  obtain ⟨c, hc, hc0, hc100⟩ := congestion_pct_bounds entry hf hl
  have hw8 : wrapU8 (score_params.weight_cfg.channel_congestion_weightage : Int) =
      score_params.weight_cfg.channel_congestion_weightage := wrapU8_id (by omega) (by omega)
  have hn8 : wrapU8 (score_params.esp_qbss_scoring.num_slot : Int) =
      score_params.esp_qbss_scoring.num_slot := wrapU8_id (by omega) (by omega)
  have hcU : wrapU32 c = c := wrapU32_id hc0 (by omega)
  have key : scm_calculate_congestion_score entry score_params =
      some ⟨(score_params.weight_cfg.channel_congestion_weightage : Int) *
          score_params.esp_qbss_scoring.table
            (if entry.rssi_raw ≤ -(score_params.rssi_score.good_rssi_threshold : Int) then
              (score_params.esp_qbss_scoring.num_slot : Int)
            else if c = 0 then 0
            else min (c / (100 / (score_params.esp_qbss_scoring.num_slot : Int)) + 1)
              (score_params.esp_qbss_scoring.num_slot : Int)),
        score_params, c⟩ := by
    unfold scm_calculate_congestion_score
    simp only [hc, Option.some_bind, hcU, SCM_SCORE_MAX_INDEX, SCM_SCORE_INDEX_0,
      MAX_PCT_SCORE]
    rw [if_neg (by omega), if_neg (by omega)]
    simp only [neg_threshold _ hgood, hw8, hn8]
    by_cases h1 : entry.rssi_raw ≤ -(score_params.rssi_score.good_rssi_threshold : Int)
    · simp only [if_pos h1]
      rw [score_for_index_table _ _ _ (by omega) (by omega) (by omega) (by omega)]
      rfl
    · simp only [if_neg h1]
      by_cases h2 : c = 0
      · simp only [if_pos h2]
        have h0 := score_for_index_table 0
          (score_params.weight_cfg.channel_congestion_weightage : Int)
          score_params.esp_qbss_scoring (by omega) (by omega) (by omega) (by omega)
        unfold scm_get_score_for_index at h0
        simp only [SCM_SCORE_INDEX_3] at h0
        rw [if_pos (by omega)] at h0
        rw [h0]
        rfl
      · simp only [if_neg h2]
        have hwin0 : 6 ≤ 100 / (score_params.esp_qbss_scoring.num_slot : Int) := by
          apply Int.le_ediv_of_mul_le (by omega)
          omega
        have hwin1 : 100 / (score_params.esp_qbss_scoring.num_slot : Int) ≤ 100 :=
          Int.ediv_le_self _ (by omega)
        rw [Int.tdiv_eq_ediv (by omega) (by omega)]
        generalize 100 / (score_params.esp_qbss_scoring.num_slot : Int) = win
          at hwin0 hwin1 ⊢
        rw [wrapU32_id (x := win) (by omega) (by omega),
          qdf_do_div_nonneg _ _ hc0 (by omega) (by omega) (by omega)]
        simp only [Option.some_bind]
        have hq0 : 0 ≤ c / win := Int.ediv_nonneg hc0 (by omega)
        have hq1 : c / win ≤ 100 := le_trans (Int.ediv_le_self _ hc0) hc100
        generalize c / win = q at hq0 hq1 ⊢
        rw [wrapU8_id (x := q + 1) (by omega) (by omega)]
        by_cases h3 : q + 1 > (score_params.esp_qbss_scoring.num_slot : Int)
        · simp only [if_pos h3]
          rw [score_for_index_table _ _ _ (by omega) (by omega) (by omega) (by omega),
            min_eq_right (by omega)]
          rfl
        · simp only [if_neg h3]
          rw [score_for_index_table _ _ _ (by omega) (by omega) (by omega) (by omega),
            min_eq_left (by omega)]
          rfl
  refine ⟨c, _, _, hc, key, rfl, rfl, ?_, ?_, rfl⟩
  · have hq0 : 0 ≤ c / (100 / (score_params.esp_qbss_scoring.num_slot : Int)) :=
      Int.ediv_nonneg hc0 (Int.ediv_nonneg (by omega) (by omega))
    split_ifs
    · omega
    · omega
    · exact le_min (by omega) (by omega)
  · split_ifs
    · omega
    · omega
    · exact min_le_right _ _

/-- Four slots, 25 percent congestion at -50 dBm: slot 2, score `5 * 2`. -/
theorem scm_calculate_congestion_score_spec_witness :
    (1 ≤ slot_config.esp_qbss_scoring.num_slot ∧
      slot_config.esp_qbss_scoring.num_slot ≤ 15 ∧
      slot_config.weight_cfg.channel_congestion_weightage ≤ 255 ∧
      slot_config.rssi_score.good_rssi_threshold ≤ 255 ∧
      sample_bss_loaded.air_time_fraction ≤ 255 ∧
      sample_bss_loaded.qbss_chan_load ≤ 255) ∧
    ∃ c r index, scm_get_congestion_pct sample_bss_loaded = some c ∧
      scm_calculate_congestion_score sample_bss_loaded slot_config = some r ∧
      index =
        (if sample_bss_loaded.rssi_raw ≤
            -(slot_config.rssi_score.good_rssi_threshold : Int) then
          (slot_config.esp_qbss_scoring.num_slot : Int)
        else if c = 0 then 0
        else min (c / (100 / (slot_config.esp_qbss_scoring.num_slot : Int)) + 1)
          (slot_config.esp_qbss_scoring.num_slot : Int)) ∧
      r.score = (slot_config.weight_cfg.channel_congestion_weightage : Int) *
        slot_config.esp_qbss_scoring.table index ∧
      0 ≤ index ∧ index ≤ (slot_config.esp_qbss_scoring.num_slot : Int) ∧
      r.score_params = slot_config :=
  ⟨by decide,
    scm_calculate_congestion_score_spec sample_bss_loaded slot_config (by decide)
      (by decide) (by decide) (by decide) (by decide) (by decide)⟩

/-! ## OCE WAN score -/

/-- An OCE WAN slot count above 15 scores like the slot count 15. -/
theorem oce_wan_clamp (entry : scan_cache_entry) (score_params : scoring_config)
    (h : 15 < score_params.oce_wan_scoring.num_slot) :
    scm_calculate_oce_wan_score entry score_params =
      scm_calculate_oce_wan_score entry
        { score_params with
          oce_wan_scoring := { score_params.oce_wan_scoring with num_slot := 15 } } := by
  have h0 : score_params.oce_wan_scoring.num_slot ≠ 0 := by omega
  have hgt : (15 : Int) < score_params.oce_wan_scoring.num_slot := by omega
  unfold scm_calculate_oce_wan_score
  simp only [SCM_SCORE_MAX_INDEX, gt_iff_lt, h0, hgt, if_true, if_false]
  rfl

/-- Closed form of the OCE WAN scorer for a slot count in 1..15: slot 0 when the
WAN metrics are absent, score 0 when the capacity is 0, and otherwise the slot
`min (c / (15 / n)) n`. -/
theorem oce_wan_small (entry : scan_cache_entry) (score_params : scoring_config)
    (hn1 : 1 ≤ score_params.oce_wan_scoring.num_slot)
    (hn15 : score_params.oce_wan_scoring.num_slot ≤ 15)
    (hw : score_params.weight_cfg.oce_wan_weightage ≤ 255) :
    scm_calculate_oce_wan_score entry score_params =
      match entry.mbo_oce.downlink_av_cap with
      | none =>
        some ⟨(score_params.weight_cfg.oce_wan_weightage : Int) *
          score_params.oce_wan_scoring.table 0, score_params⟩
      | some c =>
        if c = 0 then some ⟨0, score_params⟩
        else if c ≤ 255 then
          some ⟨(score_params.weight_cfg.oce_wan_weightage : Int) *
            score_params.oce_wan_scoring.table
              (min ((c : Int) / (15 / (score_params.oce_wan_scoring.num_slot : Int)))
                (score_params.oce_wan_scoring.num_slot : Int)), score_params⟩
        else scm_calculate_oce_wan_score entry score_params := by
  have hw8 : wrapU8 (score_params.weight_cfg.oce_wan_weightage : Int) =
      score_params.weight_cfg.oce_wan_weightage := wrapU8_id (by omega) (by omega)
  have hn8 : wrapU8 (score_params.oce_wan_scoring.num_slot : Int) =
      score_params.oce_wan_scoring.num_slot := wrapU8_id (by omega) (by omega)
  have hz : ¬ (score_params.oce_wan_scoring.num_slot = 0) := by omega
  have hclamp : ¬ ((score_params.oce_wan_scoring.num_slot : Int) > 15) := by omega
  cases hcap : entry.mbo_oce.downlink_av_cap with
  | none =>
    unfold scm_calculate_oce_wan_score wlan_parse_oce_reduced_wan_metrics_ie
    simp only [hcap, Option.map_none', SCM_SCORE_MAX_INDEX, SCM_SCORE_INDEX_0,
      if_neg hz, if_neg hclamp, hw8, hn8]
    rw [if_neg (by omega),
      score_for_index_table _ _ _ (by omega) (by omega) (by omega) (by omega)]
    rfl
  | some c =>
    simp only []
    by_cases hc0 : c = 0
    · rw [if_pos hc0]
      unfold scm_calculate_oce_wan_score wlan_parse_oce_reduced_wan_metrics_ie
      simp only [hcap, Option.map_some', SCM_SCORE_MAX_INDEX, SCM_SCORE_INDEX_0,
        if_neg hz, if_neg hclamp, if_pos hc0]
    · rw [if_neg hc0]
      by_cases hc255 : c ≤ 255
      · rw [if_pos hc255]
        unfold scm_calculate_oce_wan_score wlan_parse_oce_reduced_wan_metrics_ie
        simp only [hcap, Option.map_some', SCM_SCORE_MAX_INDEX, SCM_SCORE_INDEX_0,
          if_neg hz, if_neg hclamp, if_neg hc0, hw8, hn8]
        have hwin0 : 1 ≤ 15 / (score_params.oce_wan_scoring.num_slot : Int) := by
          apply Int.le_ediv_of_mul_le (by omega)
          omega
        have hwin1 : 15 / (score_params.oce_wan_scoring.num_slot : Int) ≤ 15 :=
          Int.ediv_le_self _ (by omega)
        rw [Int.tdiv_eq_ediv (by omega) (by omega)]
        generalize 15 / (score_params.oce_wan_scoring.num_slot : Int) = win
          at hwin0 hwin1 ⊢
        rw [wrapU32_id (x := win) (by omega) (by omega),
          qdf_do_div_nonneg _ _ (by omega) (by omega) (by omega) (by omega)]
        simp only [Option.some_bind]
        have hq0 : 0 ≤ (c : Int) / win := Int.ediv_nonneg (by omega) (by omega)
        have hq1 : (c : Int) / win ≤ 255 :=
          le_trans (Int.ediv_le_self _ (by omega)) (by omega)
        generalize (c : Int) / win = q at hq0 hq1 ⊢
        rw [wrapU8_id (x := q) hq0 hq1]
        by_cases h3 : q > (score_params.oce_wan_scoring.num_slot : Int)
        · simp only [if_pos h3]
          rw [score_for_index_table _ _ _ (by omega) (by omega) (by omega) (by omega),
            min_eq_right (by omega)]
          rfl
        · simp only [if_neg h3]
          rw [score_for_index_table _ _ _ (by omega) (by omega) (by omega) (by omega),
            min_eq_left (by omega)]
          rfl
      · rw [if_neg hc255]

/-- The OCE WAN scorer returns a score for every slot count up to 15. -/
theorem oce_wan_total_small (entry : scan_cache_entry) (score_params : scoring_config)
    (hn15 : score_params.oce_wan_scoring.num_slot ≤ 15) :
    ∃ r, scm_calculate_oce_wan_score entry score_params = some r := by
  by_cases hz : score_params.oce_wan_scoring.num_slot = 0
  · unfold scm_calculate_oce_wan_score
    rw [if_pos hz]
    exact ⟨_, rfl⟩
  · have hclamp : ¬ ((score_params.oce_wan_scoring.num_slot : Int) > 15) := by omega
    have hn8 : wrapU8 (score_params.oce_wan_scoring.num_slot : Int) =
        score_params.oce_wan_scoring.num_slot := wrapU8_id (by omega) (by omega)
    have hfin : ∀ idx : Int, 0 ≤ idx →
        ∃ v, scm_get_score_for_index
          (if idx > (score_params.oce_wan_scoring.num_slot : Int) then
            (score_params.oce_wan_scoring.num_slot : Int) else idx)
          (wrapU8 score_params.weight_cfg.oce_wan_weightage)
          score_params.oce_wan_scoring = some v := by
      intro idx hidx
      apply score_for_index_total
      · split_ifs <;> omega
      · split_ifs <;> omega
    unfold scm_calculate_oce_wan_score wlan_parse_oce_reduced_wan_metrics_ie
    simp only [SCM_SCORE_MAX_INDEX, SCM_SCORE_INDEX_0, if_neg hz, if_neg hclamp, hn8]
    cases hcap : entry.mbo_oce.downlink_av_cap with
    | none =>
      simp only [Option.map_none']
      obtain ⟨v, hv⟩ := hfin 0 (le_refl 0)
      rw [hv]
      exact ⟨_, rfl⟩
    | some c =>
      simp only [Option.map_some']
      by_cases hc0 : c = 0
      · rw [if_pos hc0]
        exact ⟨_, rfl⟩
      · rw [if_neg hc0]
        have hwin0 : 1 ≤ 15 / (score_params.oce_wan_scoring.num_slot : Int) := by
          apply Int.le_ediv_of_mul_le (by omega)
          omega
        have hwin1 : 15 / (score_params.oce_wan_scoring.num_slot : Int) ≤ 15 :=
          Int.ediv_le_self _ (by omega)
        rw [Int.tdiv_eq_ediv (by omega) (by omega)]
        generalize 15 / (score_params.oce_wan_scoring.num_slot : Int) = win
          at hwin0 hwin1 ⊢
        rw [wrapU32_id (x := win) (by omega) (by omega)]
        unfold qdf_do_div
        have hwin64 : wrapU64 win = win := by unfold wrapU64; omega
        rw [hwin64, if_neg (by omega)]
        simp only [Option.some_bind]
        have hidx : 0 ≤ wrapU8 (wrapU64 (c : Int) / win) := by
          unfold wrapU8; omega
        obtain ⟨v, hv⟩ := hfin _ hidx
        rw [hv]
        exact ⟨_, rfl⟩

/-- The OCE WAN scorer returns a score on every input. -/
theorem oce_wan_total (entry : scan_cache_entry) (score_params : scoring_config) :
    ∃ r, scm_calculate_oce_wan_score entry score_params = some r := by
  by_cases h : score_params.oce_wan_scoring.num_slot ≤ 15
  · exact oce_wan_total_small entry score_params h
  · rw [oce_wan_clamp entry score_params (by omega)]
    exact oce_wan_total_small entry _ (le_refl 15)

/-- Claim C18 fails with 2 slots and downlink capacity 7: the code divides by
the window `15 / 2 = 7`, reaches slot 1 and returns `3 * 50 = 150`, while the
window `16 / 2 = 8` of the claim gives slot 0 and the score `3 * 0 = 0`. -/
theorem scm_calculate_oce_wan_score_window_not_16 :
    (1 ≤ slot_config.oce_wan_scoring.num_slot ∧
      slot_config.oce_wan_scoring.num_slot ≤ 15 ∧
      sample_bss_loaded.mbo_oce.downlink_av_cap = some 7) ∧
    (scm_calculate_oce_wan_score sample_bss_loaded slot_config).map
      (fun r => r.score) = some 150 ∧
    (slot_config.weight_cfg.oce_wan_weightage : Int) *
      slot_config.oce_wan_scoring.table
        (min ((7 : Int) / (16 / (slot_config.oce_wan_scoring.num_slot : Int)))
          (slot_config.oce_wan_scoring.num_slot : Int)) = 0 ∧
    (150 : Int) ≠ 0 :=
  ⟨by decide, by decide, by decide, by decide⟩

/-- Claim C18, amended: for an OCE WAN slot count `n` in 1..15 and a candidate
whose element carries a non-zero 8-bit downlink capacity `c`, the OCE WAN
scorer returns `weightage * table[min (c / (15 / n)) n]`: the window is
`SCM_SCORE_MAX_INDEX / n`, that is `15 / n`. -/
theorem scm_calculate_oce_wan_score_spec (entry : scan_cache_entry)
    (score_params : scoring_config) (c : Nat)
    (hn1 : 1 ≤ score_params.oce_wan_scoring.num_slot)
    (hn15 : score_params.oce_wan_scoring.num_slot ≤ 15)
    (hw : score_params.weight_cfg.oce_wan_weightage ≤ 255)
    (hcap : entry.mbo_oce.downlink_av_cap = some c) (hc0 : c ≠ 0) (hc255 : c ≤ 255) :
    ∃ r, scm_calculate_oce_wan_score entry score_params = some r ∧
      r.score = (score_params.weight_cfg.oce_wan_weightage : Int) *
        score_params.oce_wan_scoring.table
          (min ((c : Int) / (15 / (score_params.oce_wan_scoring.num_slot : Int)))
            (score_params.oce_wan_scoring.num_slot : Int)) ∧
      r.score_params = score_params := by
  have h := oce_wan_small entry score_params hn1 hn15 hw
  rw [hcap] at h
  simp only [if_neg hc0, if_pos hc255] at h
  exact ⟨_, h, rfl, rfl⟩

/-- Two slots and capacity 7: window 7, slot 1, score `3 * 50`. -/
theorem scm_calculate_oce_wan_score_spec_witness :
    (1 ≤ slot_config.oce_wan_scoring.num_slot ∧
      slot_config.oce_wan_scoring.num_slot ≤ 15 ∧
      slot_config.weight_cfg.oce_wan_weightage ≤ 255 ∧
      sample_bss_loaded.mbo_oce.downlink_av_cap = some 7 ∧ 7 ≠ 0 ∧ 7 ≤ 255) ∧
    ∃ r, scm_calculate_oce_wan_score sample_bss_loaded slot_config = some r ∧
      r.score = (slot_config.weight_cfg.oce_wan_weightage : Int) *
        slot_config.oce_wan_scoring.table
          (min (((7 : Nat) : Int) / (15 / (slot_config.oce_wan_scoring.num_slot : Int)))
            (slot_config.oce_wan_scoring.num_slot : Int)) ∧
      r.score_params = slot_config :=
  ⟨by decide,
    scm_calculate_oce_wan_score_spec sample_bss_loaded slot_config 7 (by decide)
      (by decide) (by decide) (by decide) (by decide) (by decide)⟩

/-- Claim C19: the OCE WAN scorer returns 0 when the slot count is 0; for a slot
count of at least 1 it returns 0 when the WAN metrics are present with
downlink capacity 0, and `weightage * table[0]` when they are absent. -/
theorem scm_calculate_oce_wan_score_fallbacks (entry : scan_cache_entry)
    (score_params : scoring_config)
    (hw : score_params.weight_cfg.oce_wan_weightage ≤ 255) :
    (score_params.oce_wan_scoring.num_slot = 0 →
      ∃ r, scm_calculate_oce_wan_score entry score_params = some r ∧ r.score = 0) ∧
    (1 ≤ score_params.oce_wan_scoring.num_slot →
      entry.mbo_oce.downlink_av_cap = some 0 →
      ∃ r, scm_calculate_oce_wan_score entry score_params = some r ∧ r.score = 0) ∧
    (1 ≤ score_params.oce_wan_scoring.num_slot →
      entry.mbo_oce.downlink_av_cap = none →
      ∃ r, scm_calculate_oce_wan_score entry score_params = some r ∧
        r.score = (score_params.weight_cfg.oce_wan_weightage : Int) *
          score_params.oce_wan_scoring.table 0) := by
  refine ⟨?_, ?_, ?_⟩
  · intro hz
    unfold scm_calculate_oce_wan_score
    rw [if_pos hz]
    exact ⟨_, rfl, rfl⟩
  · intro hn1 hcap
    by_cases hn15 : score_params.oce_wan_scoring.num_slot ≤ 15
    · have h := oce_wan_small entry score_params hn1 hn15 hw
      rw [hcap] at h
      simp only [if_true] at h
      exact ⟨_, h, rfl⟩
    · rw [oce_wan_clamp entry score_params (by omega)]
      have h := oce_wan_small entry
        { score_params with
          oce_wan_scoring := { score_params.oce_wan_scoring with num_slot := 15 } }
        (by show (1 : Nat) ≤ 15; omega) (le_refl 15) hw
      rw [hcap] at h
      simp only [if_true] at h
      exact ⟨_, h, rfl⟩
  · intro hn1 hcap
    by_cases hn15 : score_params.oce_wan_scoring.num_slot ≤ 15
    · have h := oce_wan_small entry score_params hn1 hn15 hw
      rw [hcap] at h
      exact ⟨_, h, rfl⟩
    · rw [oce_wan_clamp entry score_params (by omega)]
      have h := oce_wan_small entry
        { score_params with
          oce_wan_scoring := { score_params.oce_wan_scoring with num_slot := 15 } }
        (by show (1 : Nat) ≤ 15; omega) (le_refl 15) hw
      rw [hcap] at h
      exact ⟨_, h, rfl⟩

/-- Two slots: a candidate declaring capacity 0 scores 0 and a candidate
without WAN metrics scores `3 * table[0]`. -/
theorem scm_calculate_oce_wan_score_fallbacks_witness :
    slot_config.weight_cfg.oce_wan_weightage ≤ 255 ∧
    (∃ r, scm_calculate_oce_wan_score sample_bss_no_capacity slot_config = some r ∧
      r.score = 0) ∧
    (∃ r, scm_calculate_oce_wan_score sample_bss_plain slot_config = some r ∧
      r.score = (slot_config.weight_cfg.oce_wan_weightage : Int) *
        slot_config.oce_wan_scoring.table 0) :=
  ⟨by decide,
    (scm_calculate_oce_wan_score_fallbacks sample_bss_no_capacity slot_config
      (by decide)).2.1 (by decide) (by decide),
    (scm_calculate_oce_wan_score_fallbacks sample_bss_plain slot_config
      (by decide)).2.2 (by decide) (by decide)⟩

/-! ## Slot counts above 15 -/

/-- Claim C20: a configuration whose congestion slot count exceeds 15 gets from
the congestion scorer the result of the otherwise identical configuration with
slot count 15, and likewise for the OCE WAN slot count and the OCE WAN scorer;
both scorers return a result on such configurations. -/
theorem num_slot_clamped_to_15 (entry : scan_cache_entry)
    (score_params : scoring_config) :
    (15 < score_params.esp_qbss_scoring.num_slot →
      ∃ r, scm_calculate_congestion_score entry score_params = some r ∧
        scm_calculate_congestion_score entry
          { score_params with
            esp_qbss_scoring := { score_params.esp_qbss_scoring with num_slot := 15 } }
          = some r) ∧
    (15 < score_params.oce_wan_scoring.num_slot →
      ∃ r, scm_calculate_oce_wan_score entry score_params = some r ∧
        scm_calculate_oce_wan_score entry
          { score_params with
            oce_wan_scoring := { score_params.oce_wan_scoring with num_slot := 15 } }
          = some r) := by
  constructor
  · intro h
    obtain ⟨r, hr⟩ := congestion_total entry score_params
    exact ⟨r, hr, by rw [← congestion_clamp entry score_params h]; exact hr⟩
  · intro h
    obtain ⟨r, hr⟩ := oce_wan_total entry score_params
    exact ⟨r, hr, by rw [← oce_wan_clamp entry score_params h]; exact hr⟩

/-- Slot counts of 200 against slot counts of 15 on a loaded candidate. -/
theorem num_slot_clamped_to_15_witness :
    (15 < wide_slot_config.esp_qbss_scoring.num_slot ∧
      15 < wide_slot_config.oce_wan_scoring.num_slot) ∧
    (∃ r, scm_calculate_congestion_score sample_bss_loaded wide_slot_config = some r ∧
      scm_calculate_congestion_score sample_bss_loaded
        { wide_slot_config with
          esp_qbss_scoring := { wide_slot_config.esp_qbss_scoring with num_slot := 15 } }
        = some r) ∧
    (∃ r, scm_calculate_oce_wan_score sample_bss_loaded wide_slot_config = some r ∧
      scm_calculate_oce_wan_score sample_bss_loaded
        { wide_slot_config with
          oce_wan_scoring := { wide_slot_config.oce_wan_scoring with num_slot := 15 } }
        = some r) :=
  ⟨by decide,
    (num_slot_clamped_to_15 sample_bss_loaded wide_slot_config).1 (by decide),
    (num_slot_clamped_to_15 sample_bss_loaded wide_slot_config).2 (by decide)⟩

/-! ## AP transmit power -/

/-- Claim C21: a candidate heard at -15 dBm whose AP advertises 0 dBm has the
normalized value 20 - (0 - (-15)) = 5, which lies above the best threshold of
-65 dBm, yet the transmit-power scorer returns 40, the weightage 4 times the
bad percentage 10, and not 4 * 100; the RSSI scorer gives the same value 5 the
full score 400. -/
theorem scm_calculate_oce_ap_tx_pwr_weightage_nonneg_normalized :
    (wlan_parse_oce_ap_tx_pwr_ie sample_bss_near.mbo_oce = some 0 ∧
      20 - ((0 : Int) - sample_bss_near.rssi_raw) = 5 ∧
      -(tx_pwr_config.rssi_score.best_rssi_threshold : Int) < 5) ∧
    (scm_calculate_oce_ap_tx_pwr_weightage sample_bss_near tx_pwr_config 0).map
        (fun r => r.score) = some 40 ∧
    (40 : Int) = tx_pwr_config.weight_cfg.oce_ap_tx_pwr_weightage *
      tx_pwr_config.rssi_score.bad_rssi_pcnt ∧
    (40 : Int) ≠ tx_pwr_config.weight_cfg.oce_ap_tx_pwr_weightage * 100 ∧
    scm_calculate_rssi_score tx_pwr_config.rssi_score 5
      tx_pwr_config.weight_cfg.oce_ap_tx_pwr_weightage = some 400 :=
  ⟨by decide, by decide, by decide, by decide, by decide⟩

/-! ## OCE subnet ID -/

/-- Claim C22: for every candidate and every 8-bit weightage, the subnet-ID
scorer reports the presence flag of the parser, returns the weightage times 50
when the element declares a subnet ID and 0 otherwise, and so returns no other
value. -/
theorem scm_calculate_oce_subnet_id_weightage_spec (entry : scan_cache_entry)
    (score_params : scoring_config)
    (hw : score_params.weight_cfg.oce_subnet_id_weightage ≤ 255) :
    (scm_calculate_oce_subnet_id_weightage entry score_params).oce_subnet_id_present =
        wlan_parse_oce_subnet_id_ie entry.mbo_oce ∧
      (wlan_parse_oce_subnet_id_ie entry.mbo_oce = true →
        (scm_calculate_oce_subnet_id_weightage entry score_params).score =
          (score_params.weight_cfg.oce_subnet_id_weightage : Int) * 50) ∧
      (wlan_parse_oce_subnet_id_ie entry.mbo_oce = false →
        (scm_calculate_oce_subnet_id_weightage entry score_params).score = 0) ∧
      ((scm_calculate_oce_subnet_id_weightage entry score_params).score =
          (score_params.weight_cfg.oce_subnet_id_weightage : Int) * 50 ∨
        (scm_calculate_oce_subnet_id_weightage entry score_params).score = 0) := by
  have h50 : Int.tdiv MAX_PCT_SCORE 2 = 50 := by decide
  have hs : wrapU32 ((score_params.weight_cfg.oce_subnet_id_weightage : Int) * 50) =
      (score_params.weight_cfg.oce_subnet_id_weightage : Int) * 50 :=
    wrapU32_id (by omega) (by omega)
  have hpos : wlan_parse_oce_subnet_id_ie entry.mbo_oce = true →
      (scm_calculate_oce_subnet_id_weightage entry score_params).score =
        (score_params.weight_cfg.oce_subnet_id_weightage : Int) * 50 := by
    intro h
    unfold scm_calculate_oce_subnet_id_weightage
    simp only [h50, hs, if_pos h]
  have hneg : wlan_parse_oce_subnet_id_ie entry.mbo_oce = false →
      (scm_calculate_oce_subnet_id_weightage entry score_params).score = 0 := by
    intro h
    unfold scm_calculate_oce_subnet_id_weightage
    simp only [h, Bool.false_eq_true, if_false]
  refine ⟨rfl, hpos, hneg, ?_⟩
  cases h : wlan_parse_oce_subnet_id_ie entry.mbo_oce
  · exact Or.inr (hneg h)
  · exact Or.inl (hpos h)

/-- Witness for claim C22: with weightage 10, a candidate declaring a subnet ID
scores 500 and one without OCE/MBO element scores 0. -/
theorem scm_calculate_oce_subnet_id_weightage_spec_witness :
    full_config.weight_cfg.oce_subnet_id_weightage ≤ 255 ∧
    wlan_parse_oce_subnet_id_ie sample_bss_full_2g.mbo_oce = true ∧
    (scm_calculate_oce_subnet_id_weightage sample_bss_full_2g full_config).score =
      ((10 : Nat) : Int) * 50 :=
  ⟨by decide, by decide,
    (scm_calculate_oce_subnet_id_weightage_spec sample_bss_full_2g full_config
      (by decide)).2.1 (by decide)⟩

/-! ## Band score -/

/-- Claim C23: for every frequency and every 8-bit band weightage, the band
scorer returns the weightage times byte 1 of `band_weight_per_index` on a 5 GHz
frequency, times byte 0 on a 2.4 GHz frequency (that is not also classified
5 GHz), times byte 2 on a 6 GHz frequency (classified neither 5 GHz nor
2.4 GHz), and 0 on a frequency classified in none of the three bands. -/
theorem scm_get_band_score_spec (reg : reg_services) (freq : Nat)
    (score_config : scoring_config)
    (hw : score_config.weight_cfg.chan_band_weightage ≤ 255) :
    (reg.WLAN_REG_IS_5GHZ_CH_FREQ freq = true →
      scm_get_band_score reg freq score_config =
        some ((score_config.weight_cfg.chan_band_weightage : Int) *
          (((score_config.band_weight_per_index : Int) / 256 ^ 1) % 256))) ∧
    (reg.WLAN_REG_IS_5GHZ_CH_FREQ freq = false →
      reg.WLAN_REG_IS_24GHZ_CH_FREQ freq = true →
      scm_get_band_score reg freq score_config =
        some ((score_config.weight_cfg.chan_band_weightage : Int) *
          (((score_config.band_weight_per_index : Int) / 256 ^ 0) % 256))) ∧
    (reg.WLAN_REG_IS_5GHZ_CH_FREQ freq = false →
      reg.WLAN_REG_IS_24GHZ_CH_FREQ freq = false →
      reg.WLAN_REG_IS_6GHZ_CHAN_FREQ freq = true →
      scm_get_band_score reg freq score_config =
        some ((score_config.weight_cfg.chan_band_weightage : Int) *
          (((score_config.band_weight_per_index : Int) / 256 ^ 2) % 256))) ∧
    (reg.WLAN_REG_IS_5GHZ_CH_FREQ freq = false →
      reg.WLAN_REG_IS_24GHZ_CH_FREQ freq = false →
      reg.WLAN_REG_IS_6GHZ_CHAN_FREQ freq = false →
      scm_get_band_score reg freq score_config = some 0) := by
  have hw0 : (0 : Int) ≤ score_config.weight_cfg.chan_band_weightage := by omega
  have hw1 : (score_config.weight_cfg.chan_band_weightage : Int) ≤ 255 := by omega
  unfold scm_get_band_score WLAN_GET_SCORE_PERCENTAGE
  simp only [SCM_BAND_5G_INDEX, SCM_BAND_2G_INDEX, SCM_BAND_6G_INDEX]
  refine ⟨?_, ?_, ?_, ?_⟩
  · intro h5
    simp only [h5, if_true]
    norm_num
    apply wrap_weight_byte _ _ hw0 hw1 <;> omega
  · intro h5 h24
    simp only [h5, h24, if_true, if_false, Bool.false_eq_true]
    norm_num
    apply wrap_weight_byte _ _ hw0 hw1 <;> omega
  · intro h5 h24 h6
    simp only [h5, h24, h6, if_true, if_false, Bool.false_eq_true]
    norm_num
    apply wrap_weight_byte _ _ hw0 hw1 <;> omega
  · intro h5 h24 h6
    simp only [h5, h24, h6, if_false, Bool.false_eq_true]

/-- Witness for claim C23: with band weightage 2 and band table 50, 100, 100,
the frequency 5180 MHz scores 2 * 100. -/
theorem scm_get_band_score_spec_witness :
    full_config.weight_cfg.chan_band_weightage ≤ 255 ∧
    sample_reg.WLAN_REG_IS_5GHZ_CH_FREQ 5180 = true ∧
    ((full_config.band_weight_per_index : Int) / 256 ^ 1) % 256 = 100 ∧
    scm_get_band_score sample_reg 5180 full_config =
      some ((full_config.weight_cfg.chan_band_weightage : Int) *
        (((full_config.band_weight_per_index : Int) / 256 ^ 1) % 256)) :=
  ⟨by decide, by decide, by decide,
    (scm_get_band_score_spec sample_reg 5180 full_config (by decide)).1 (by decide)⟩

/-! ## Aggregator: every sub-score is computed -/

/-- A mapped option holds a value when the option does. -/
theorem map_total {α β : Type} (o : Option α) (f : α → β) (h : ∃ p, o = some p) :
    ∃ s, o.map f = some s := by
  obtain ⟨p, hp⟩ := h
  exact ⟨f p, by rw [hp]; rfl⟩

/-- The byte lookup returns a value on the byte indices 0..3. -/
theorem get_score_percentage_total (v i : Int) (h0 : 0 ≤ i) (h3 : i ≤ 3) :
    ∃ p, WLAN_GET_SCORE_PERCENTAGE v i = some p := by
  unfold WLAN_GET_SCORE_PERCENTAGE
  rw [if_pos ⟨h0, h3⟩]
  exact ⟨_, rfl⟩

/-- The slot mapper returns a percentage whenever the bucket size is positive
and the window between its thresholds is at most 254 dB wide. -/
theorem slot_total (high low hp lp b v : Int) (hb0 : 0 < b) (hw0 : 0 ≤ high - low)
    (hw1 : high - low ≤ 254) :
    ∃ r, scm_get_rssi_pcnt_for_slot high low hp lp b v = some r := by
  have hq0 : 0 ≤ (high - low) / b := Int.ediv_nonneg hw0 hb0.le
  have hq1 : (high - low) / b ≤ 254 := le_trans (Int.ediv_le_self _ hw0) hw1
  have e1 : wrapI32 (high - low) = high - low := wrapI32_id (by omega) (by omega)
  have e2 : wrapU32 (high - low) = high - low := wrapU32_id hw0 (by omega)
  have hns : ¬ wrapU32 (wrapI8 (wrapU32 ((high - low) / b + 1))) = 0 := by
    generalize (high - low) / b = q at hq0 hq1
    unfold wrapU32 wrapI8
    omega
  unfold scm_get_rssi_pcnt_for_slot
  simp only [e1, e2, if_neg hb0.ne', if_neg hns]
  split <;> exact ⟨_, rfl⟩

/-- The RSSI scorer returns a score on every RSSI under a well-formed
configuration. -/
theorem rssi_score_total (p : rssi_cfg_score) (rssi : Int) (w : Nat)
    (hwf : p.well_formed) : ∃ s, scm_calculate_rssi_score p rssi w = some s := by
  obtain ⟨hbg, hgb, hb, _, hg0, hg1, hb0, hb1⟩ := hwf
  have eb := neg_threshold p.best_rssi_threshold (by omega)
  have eg := neg_threshold p.good_rssi_threshold (by omega)
  have ebad := neg_threshold p.bad_rssi_threshold (by omega)
  have egb : wrapU32 (p.good_rssi_bucket_size : Int) = p.good_rssi_bucket_size :=
    wrapU32_id (by omega) (by omega)
  have ebb : wrapU32 (p.bad_rssi_bucket_size : Int) = p.bad_rssi_bucket_size :=
    wrapU32_id (by omega) (by omega)
  unfold scm_calculate_rssi_score
  simp only [eb, eg, ebad, egb, ebb]
  split_ifs
  · exact ⟨_, rfl⟩
  · exact ⟨_, rfl⟩
  · exact map_total _ _ (slot_total _ _ _ _ _ _ (by omega) (by omega) (by omega))
  · exact map_total _ _ (slot_total _ _ _ _ _ _ (by omega) (by omega) (by omega))

/-- The PCL scorer returns a score on every weight. -/
theorem pcl_score_total (pcl_chan_weight : Int) (pcl_weightage : Nat) :
    ∃ s, scm_calculate_pcl_score pcl_chan_weight pcl_weightage = some s := by
  have h20 : ¬ wrapU64 20 = 0 := by decide
  unfold scm_calculate_pcl_score qdf_do_div
  simp only [SCM_PCL_GROUPS_WEIGHT_DIFFERENCE, if_neg h20]
  split_ifs
  · exact ⟨_, rfl⟩
  · exact ⟨_, rfl⟩

/-- The same-bucket test compares the two bucket indices whenever the bucket
size is not 0. -/
theorem same_bucket_eval (t r1 r2 b : Int) (hb : b ≠ 0) :
    scm_rssi_is_same_bucket t r1 r2 b =
      some (decide (Int.tdiv (wrapI8 (t - r1)) b = Int.tdiv (wrapI8 (t - r2)) b)) := by
  unfold scm_rssi_is_same_bucket
  simp only [if_neg hb]

/-- The prorated percentage is computed on every RSSI under a well-formed
configuration. -/
theorem prorated_pcnt_total (p : rssi_cfg_score) (rssi : Int) (w : Nat)
    (hwf : p.well_formed) :
    ∃ s, scm_roam_calculate_prorated_pcnt_by_rssi p rssi w = some s := by
  obtain ⟨hbg, hgb, hb, _, hg0, hg1, hb0, hb1⟩ := hwf
  have eg := neg_threshold p.good_rssi_threshold (by omega)
  have ebad := neg_threshold p.bad_rssi_threshold (by omega)
  have ebb : wrapU32 (p.bad_rssi_bucket_size : Int) = p.bad_rssi_bucket_size :=
    wrapU32_id (by omega) (by omega)
  have ebb8 : wrapI8 (p.bad_rssi_bucket_size : Int) = p.bad_rssi_bucket_size :=
    wrapI8_id (by omega) (by omega)
  have hne : (p.bad_rssi_bucket_size : Int) ≠ 0 := by omega
  unfold scm_roam_calculate_prorated_pcnt_by_rssi
  simp only [eg, ebad, ebb, ebb8, same_bucket_eval _ _ _ _ hne, Option.some_bind]
  split_ifs
  · exact ⟨_, rfl⟩
  · exact ⟨_, rfl⟩
  · exact ⟨_, rfl⟩
  · exact slot_total _ _ _ _ _ _ (by omega) (by omega) (by omega)

/-- The byte lookup at a byte index or else at index 0 returns a value. -/
theorem get_score_percentage_ite (c : Prop) [Decidable c] (v i : Int)
    (h : 0 ≤ i ∧ i ≤ 3) :
    ∃ p, (if c then WLAN_GET_SCORE_PERCENTAGE v i else WLAN_GET_SCORE_PERCENTAGE v 0) =
      some p := by
  split
  · exact get_score_percentage_total _ _ h.1 h.2
  · exact get_score_percentage_total _ _ (by omega) (by omega)

/-- The bandwidth scorer returns a score on every input. -/
theorem bandwidth_score_total (reg : reg_services) (entry : scan_cache_entry)
    (score_config : scoring_config) (prorated_pct : Int) :
    ∃ s, scm_calculate_bandwidth_score reg entry score_config prorated_pct = some s := by
  unfold scm_calculate_bandwidth_score
  simp only [SCM_160MHZ_BW_INDEX, SCM_80MHZ_BW_INDEX, SCM_40MHZ_BW_INDEX, SCM_20MHZ_BW_INDEX]
  apply map_total
  apply get_score_percentage_ite
  omega

/-- The band scorer returns a score on every frequency. -/
theorem band_score_total (reg : reg_services) (freq : Nat) (score_config : scoring_config) :
    ∃ s, scm_get_band_score reg freq score_config = some s := by
  unfold scm_get_band_score
  simp only [SCM_BAND_5G_INDEX, SCM_BAND_2G_INDEX, SCM_BAND_6G_INDEX]
  split_ifs
  · exact map_total _ _ (get_score_percentage_total _ _ (by omega) (by omega))
  · exact map_total _ _ (get_score_percentage_total _ _ (by omega) (by omega))
  · exact map_total _ _ (get_score_percentage_total _ _ (by omega) (by omega))
  · exact ⟨_, rfl⟩

/-- The stream-count scorer returns a score on every input. -/
theorem nss_score_total (psoc : wlan_objmgr_psoc) (score_config : scoring_config)
    (ap_nss prorated_pct sta_nss : Int) :
    ∃ s, scm_calculate_nss_score psoc score_config ap_nss prorated_pct sta_nss = some s := by
  unfold scm_calculate_nss_score
  simp only [SCM_NSS_4x4_INDEX, SCM_NSS_3x3_INDEX, SCM_NSS_2x2_INDEX, SCM_NSS_1x1_INDEX]
  apply map_total
  split_ifs <;> exact get_score_percentage_total _ _ (by omega) (by omega)

/-- The AP transmit-power scorer returns a score on every candidate under a
well-formed RSSI configuration. -/
theorem oce_ap_tx_pwr_total (entry : scan_cache_entry) (score_params : scoring_config)
    (dbm : Int) (hwf : score_params.rssi_score.well_formed) :
    ∃ r, scm_calculate_oce_ap_tx_pwr_weightage entry score_params dbm = some r := by
  obtain ⟨hbg, hgb, hb, _, hg0, hg1, hb0, hb1⟩ := hwf
  have eb := neg_threshold score_params.rssi_score.best_rssi_threshold (by omega)
  have eg := neg_threshold score_params.rssi_score.good_rssi_threshold (by omega)
  have ebad := neg_threshold score_params.rssi_score.bad_rssi_threshold (by omega)
  have egb : wrapU32 (score_params.rssi_score.good_rssi_bucket_size : Int) =
      score_params.rssi_score.good_rssi_bucket_size := wrapU32_id (by omega) (by omega)
  have ebb : wrapU32 (score_params.rssi_score.bad_rssi_bucket_size : Int) =
      score_params.rssi_score.bad_rssi_bucket_size := wrapU32_id (by omega) (by omega)
  unfold scm_calculate_oce_ap_tx_pwr_weightage
  simp only [eb, eg, ebad, egb, ebb]
  apply map_total
  split_ifs
  · exact ⟨_, rfl⟩
  · exact ⟨_, rfl⟩
  · exact map_total _ _ (slot_total _ _ _ _ _ _ (by omega) (by omega) (by omega))
  · exact map_total _ _ (slot_total _ _ _ _ _ _ (by omega) (by omega) (by omega))

/-- What the congestion scorer leaves in the configuration: the congestion slot
count is the smaller of its former value and 15, nothing else changes; the
percentage it hands out is the one of `scm_get_congestion_pct`. -/
theorem congestion_config (entry : scan_cache_entry) (score_params : scoring_config)
    (r : congestion_result)
    (h : scm_calculate_congestion_score entry score_params = some r) :
    r.score_params =
        { score_params with
          esp_qbss_scoring :=
            { score_params.esp_qbss_scoring with
              num_slot := min score_params.esp_qbss_scoring.num_slot 15 } } ∧
      ∃ c, scm_get_congestion_pct entry = some c ∧ r.congestion_pct = wrapU32 c := by
  unfold scm_calculate_congestion_score at h
  simp only [Option.bind_eq_some] at h
  obtain ⟨pct, hp, h⟩ := h
  by_cases hz : score_params.esp_qbss_scoring.num_slot = 0
  · simp only [if_pos hz, Option.some.injEq] at h
    subst h
    refine ⟨?_, pct, hp, rfl⟩
    rw [min_eq_left (by omega)]
  · simp only [if_neg hz, Option.map_eq_some'] at h
    obtain ⟨s, _, hr⟩ := h
    subst hr
    refine ⟨?_, pct, hp, rfl⟩
    by_cases hc : (score_params.esp_qbss_scoring.num_slot : Int) > SCM_SCORE_MAX_INDEX
    · have hc15 : 15 < score_params.esp_qbss_scoring.num_slot := by
        unfold SCM_SCORE_MAX_INDEX at hc; omega
      simp only [if_pos hc]
      rw [min_eq_right hc15.le]
      rfl
    · have hc15 : score_params.esp_qbss_scoring.num_slot ≤ 15 := by
        unfold SCM_SCORE_MAX_INDEX at hc; omega
      simp only [if_neg hc]
      rw [min_eq_left hc15]

/-- What the OCE WAN scorer leaves in the configuration: the OCE WAN slot count
is the smaller of its former value and 15, nothing else changes. -/
theorem oce_wan_config (entry : scan_cache_entry) (score_params : scoring_config)
    (r : oce_wan_result)
    (h : scm_calculate_oce_wan_score entry score_params = some r) :
    r.score_params =
      { score_params with
        oce_wan_scoring :=
          { score_params.oce_wan_scoring with
            num_slot := min score_params.oce_wan_scoring.num_slot 15 } } := by
  unfold scm_calculate_oce_wan_score at h
  by_cases hz : score_params.oce_wan_scoring.num_slot = 0
  · simp only [if_pos hz, Option.some.injEq] at h
    subst h
    rw [min_eq_left (by omega)]
  · simp only [if_neg hz] at h
    have key : ∀ cfg : scoring_config,
        cfg = (if (score_params.oce_wan_scoring.num_slot : Int) > SCM_SCORE_MAX_INDEX then
            { score_params with
              oce_wan_scoring :=
                { score_params.oce_wan_scoring with num_slot := SCM_SCORE_MAX_INDEX.toNat } }
          else score_params) →
        cfg = { score_params with
          oce_wan_scoring :=
            { score_params.oce_wan_scoring with
              num_slot := min score_params.oce_wan_scoring.num_slot 15 } } := by
      intro cfg hcfg
      by_cases hc : (score_params.oce_wan_scoring.num_slot : Int) > SCM_SCORE_MAX_INDEX
      · have hc15 : 15 < score_params.oce_wan_scoring.num_slot := by
          unfold SCM_SCORE_MAX_INDEX at hc; omega
        rw [if_pos hc] at hcfg
        rw [hcfg, min_eq_right hc15.le]
        rfl
      · have hc15 : score_params.oce_wan_scoring.num_slot ≤ 15 := by
          unfold SCM_SCORE_MAX_INDEX at hc; omega
        rw [if_neg hc] at hcfg
        rw [hcfg, min_eq_left hc15]
    split at h
    · split at h
      · simp only [Option.some.injEq] at h
        subst h
        exact key _ rfl
      · simp only [Option.bind_eq_some, Option.map_eq_some'] at h
        obtain ⟨_, _, _, _, hr⟩ := h
        subst hr
        exact key _ rfl
    · simp only [Option.map_eq_some'] at h
      obtain ⟨_, _, hr⟩ := h
      subst hr
      exact key _ rfl

/-- A choice between two values that are there is a value that is there. -/
theorem ite_some {α : Type} (c : Prop) [Decidable c] (a b : α) :
    (if c then some a else some b) = some (if c then a else b) := by
  split <;> rfl

/-- The aggregator returns on every candidate and every PCL weight when the
scan object is there and its RSSI configuration is well formed. -/
theorem bss_score_total (reg : reg_services) (psoc : wlan_objmgr_psoc)
    (entry : scan_cache_entry) (pcl_chan_weight : Int) (score_config : scoring_config)
    (hs : psoc.scan_obj = some score_config)
    (hwf : score_config.rssi_score.well_formed) :
    ∃ r, scm_calculate_bss_score reg psoc entry pcl_chan_weight = some r := by
  obtain ⟨rs, h1⟩ := rssi_score_total score_config.rssi_score entry.rssi_raw
    score_config.weight_cfg.rssi_weightage hwf
  obtain ⟨ps, h2⟩ := pcl_score_total pcl_chan_weight score_config.weight_cfg.pcl_weightage
  obtain ⟨pr, h3⟩ := prorated_pcnt_total score_config.rssi_score entry.rssi_raw
    score_config.weight_cfg.rssi_weightage hwf
  obtain ⟨bw, h4⟩ := bandwidth_score_total reg entry score_config (wrapU8 pr)
  have hbb : wrapI8 (score_config.rssi_score.bad_rssi_bucket_size : Int) ≠ 0 := by
    rw [wrapI8_id (by omega) (by omega)]; omega
  obtain ⟨cg, h6⟩ := congestion_total entry score_config
  have hcfg1 := (congestion_config entry score_config cg h6).1
  obtain ⟨bs, h7⟩ := band_score_total reg entry.chan_freq cg.score_params
  obtain ⟨ow, h8⟩ := oce_wan_total entry cg.score_params
  have hcfg2 := oce_wan_config _ _ _ h8
  have hwf1 : cg.score_params.rssi_score.well_formed := by rw [hcfg1]; exact hwf
  have hwf2 : ow.score_params.rssi_score.well_formed := by rw [hcfg2]; exact hwf1
  obtain ⟨tx1, h9⟩ := oce_ap_tx_pwr_total entry cg.score_params 0 hwf1
  obtain ⟨tx2, h10⟩ := oce_ap_tx_pwr_total entry ow.score_params 0 hwf2
  unfold scm_calculate_bss_score
  simp only [wlan_psoc_get_scan_obj, hs, h1, h2, h3, h4, same_bucket_eval _ _ _ _ hbb, h6,
    ite_some, Option.some_bind]
  by_cases hc : wrapI32 cg.congestion_pct < CONGESTION_THRSHOLD_FOR_BAND_OCE_SCORE
  · simp only [if_pos hc, h7, ite_some, h8, Option.some_bind, Option.map_some', h10]
    split
    · exact ⟨_, rfl⟩
    · exact map_total _ _ (nss_score_total _ _ _ _ _)
  · simp only [if_neg hc, Option.some_bind, h9]
    split
    · exact ⟨_, rfl⟩
    · exact map_total _ _ (nss_score_total _ _ _ _ _)

/-- What a returned aggregator run leaves behind, read off the code: the
configuration after the call, the congestion percentage, the same-bucket flag,
the beamforming sub-score, the band and OCE WAN sub-scores on both sides of the
congestion threshold, and the return value and candidate on both sides of the
pdev lookup. -/
theorem bss_score_inv (reg : reg_services) (psoc : wlan_objmgr_psoc)
    (entry : scan_cache_entry) (pcl_chan_weight : Int) (score_config : scoring_config)
    (r : bss_score_result)
    (hs : psoc.scan_obj = some score_config)
    (hr : scm_calculate_bss_score reg psoc entry pcl_chan_weight = some r) :
    ∃ (cg : congestion_result) (cfg2 : scoring_config),
      scm_calculate_congestion_score entry score_config = some cg ∧
      r.score_config = some cfg2 ∧
      r.locals.congestion_pct = wrapI32 cg.congestion_pct ∧
      (if entry.rssi_raw <
            wrapI8 ((score_config.rssi_score.good_rssi_threshold : Int) * (-1)) then
          scm_rssi_is_same_bucket
            (wrapI8 ((score_config.rssi_score.good_rssi_threshold : Int) * (-1)))
            (wrapI8 entry.rssi_raw)
            (wrapI8 ((score_config.rssi_score.rssi_pref_5g_rssi_thresh : Int) * (-1)))
            (wrapI8 score_config.rssi_score.bad_rssi_bucket_size)
        else some false) = some r.locals.same_bucket ∧
      r.locals.is_vht =
        (if reg.WLAN_REG_IS_24GHZ_CH_FREQ entry.chan_freq = true then
          (if score_config.vht_24G_cap = true then true else false)
        else if score_config.vht_cap = true then true
        else false) ∧
      r.locals.ap_su_beam_former =
        (match util_scan_entry_vhtcap entry with
        | some vht_cap => vht_cap.su_beam_former
        | none => false) ∧
      r.locals.beamformee_score =
        (if r.locals.is_vht = true ∧ r.locals.ap_su_beam_former = true ∧
            entry.rssi_raw >
              wrapI8 ((score_config.rssi_score.rssi_pref_5g_rssi_thresh : Int) * (-1)) ∧
            r.locals.same_bucket = false then
          wrapI32 (MAX_PCT_SCORE * score_config.weight_cfg.beamforming_cap_weightage)
        else 0) ∧
      (r.locals.congestion_pct < CONGESTION_THRSHOLD_FOR_BAND_OCE_SCORE →
        (if entry.rssi_raw >
              wrapI8 ((score_config.rssi_score.rssi_pref_5g_rssi_thresh : Int) * (-1)) ∧
            r.locals.same_bucket = false then
          (if reg.WLAN_REG_IS_24GHZ_CH_FREQ entry.chan_freq = false then
            scm_get_band_score reg entry.chan_freq cg.score_params
          else some 0)
        else if reg.WLAN_REG_IS_24GHZ_CH_FREQ entry.chan_freq = true then
          scm_get_band_score reg entry.chan_freq cg.score_params
        else some 0) = some r.locals.band_score ∧
        ∃ ow, scm_calculate_oce_wan_score entry cg.score_params = some ow ∧
          r.locals.oce_wan_score = ow.score ∧ cfg2 = ow.score_params) ∧
      (¬ r.locals.congestion_pct < CONGESTION_THRSHOLD_FOR_BAND_OCE_SCORE →
        r.locals.band_score = 0 ∧ r.locals.oce_wan_score = 0 ∧ cfg2 = cg.score_params) ∧
      (wlan_objmgr_get_pdev_by_id psoc entry.pdev_id = false →
        r.ret = 0 ∧ r.entry = entry) ∧
      (wlan_objmgr_get_pdev_by_id psoc entry.pdev_id = true →
        r.entry = { entry with bss_score := r.ret }) := by
  unfold scm_calculate_bss_score at hr
  simp only [wlan_psoc_get_scan_obj, hs, Option.bind_eq_some] at hr
  obtain ⟨rs, h1, ps, h2, pr, h3, bw, h4, sb, h5, cg, h6, g, h7, tx, h8, h9⟩ := hr
  have hg : (wrapI32 cg.congestion_pct < CONGESTION_THRSHOLD_FOR_BAND_OCE_SCORE →
        (if entry.rssi_raw >
              wrapI8 ((score_config.rssi_score.rssi_pref_5g_rssi_thresh : Int) * (-1)) ∧
            sb = false then
          (if reg.WLAN_REG_IS_24GHZ_CH_FREQ entry.chan_freq = false then
            scm_get_band_score reg entry.chan_freq cg.score_params
          else some 0)
        else if reg.WLAN_REG_IS_24GHZ_CH_FREQ entry.chan_freq = true then
          scm_get_band_score reg entry.chan_freq cg.score_params
        else some 0) = some g.1 ∧
        ∃ ow, scm_calculate_oce_wan_score entry cg.score_params = some ow ∧
          g.2.1 = ow.score ∧ g.2.2.2 = ow.score_params) ∧
      (¬ wrapI32 cg.congestion_pct < CONGESTION_THRSHOLD_FOR_BAND_OCE_SCORE →
        g.1 = 0 ∧ g.2.1 = 0 ∧ g.2.2.2 = cg.score_params) := by
    constructor
    · intro hc
      rw [if_pos hc] at h7
      simp only [Option.bind_eq_some, Option.map_eq_some'] at h7
      obtain ⟨b, hb, ow, how, hgeq⟩ := h7
      subst hgeq
      exact ⟨hb, ow, how, rfl, rfl⟩
    · intro hc
      rw [if_neg hc] at h7
      simp only [Option.some.injEq] at h7
      subst h7
      exact ⟨rfl, rfl, rfl⟩
  refine ⟨cg, g.2.2.2, h6, ?_⟩
  by_cases hp : wlan_objmgr_get_pdev_by_id psoc entry.pdev_id = false
  · rw [if_pos hp] at h9
    simp only [Option.some.injEq] at h9
    subst h9
    refine ⟨rfl, rfl, h5, rfl, rfl, rfl, hg.1, hg.2, fun _ => ⟨rfl, rfl⟩, ?_⟩
    intro hp2
    rw [hp] at hp2
    exact absurd hp2 (by decide)
  · rw [if_neg hp] at h9
    simp only [Option.map_eq_some'] at h9
    obtain ⟨nss, _, h9⟩ := h9
    subst h9
    exact ⟨rfl, rfl, h5, rfl, rfl, rfl, hg.1, hg.2, fun h => absurd h hp, fun _ => rfl⟩

/-! ## Aggregator: return value, gates and frame -/

/-- Storing an `int32_t` value in an `int32_t` object keeps it. -/
theorem wrapI32_idem (x : Int) : wrapI32 (wrapI32 x) = wrapI32 x := by
  unfold wrapI32
  omega

/-- With the pdev at hand, the value the aggregator returns is the running
total of its sub-score locals. -/
theorem bss_score_ret (reg : reg_services) (psoc : wlan_objmgr_psoc)
    (entry : scan_cache_entry) (pcl_chan_weight : Int) (score_config : scoring_config)
    (r : bss_score_result)
    (hs : psoc.scan_obj = some score_config)
    (hr : scm_calculate_bss_score reg psoc entry pcl_chan_weight = some r)
    (hp : wlan_objmgr_get_pdev_by_id psoc entry.pdev_id = true) :
    r.ret = r.locals.running_total := by
  unfold scm_calculate_bss_score at hr
  simp only [wlan_psoc_get_scan_obj, hs, Option.bind_eq_some] at hr
  obtain ⟨rs, h1, ps, h2, pr, h3, bw, h4, sb, h5, cg, h6, g, h7, tx, h8, h9⟩ := hr
  have hpf : ¬ wlan_objmgr_get_pdev_by_id psoc entry.pdev_id = false := by
    rw [hp]; decide
  rw [if_neg hpf] at h9
  simp only [Option.map_eq_some'] at h9
  obtain ⟨nss, _, h9⟩ := h9
  subst h9
  by_cases hc : wrapI32 cg.congestion_pct < CONGESTION_THRSHOLD_FOR_BAND_OCE_SCORE
  · rw [if_pos hc] at h7
    simp only [Option.bind_eq_some, Option.map_eq_some'] at h7
    obtain ⟨b, hb, ow, how, hgeq⟩ := h7
    subst hgeq
    rfl
  · rw [if_neg hc] at h7
    simp only [Option.some.injEq] at h7
    subst h7
    simp only [bss_score_locals.running_total, add_zero, wrapI32_idem]

/-- The same-bucket flag of the aggregator for an 8-bit RSSI under a well-formed
configuration: set exactly when the RSSI is below the good threshold and the
same-bucket test, counting buckets of the bad bucket size from the good
threshold, puts it in the bucket of the 5 GHz preference threshold. -/
theorem same_bucket_flag (p : rssi_cfg_score) (rssi : Int) (sb : Bool)
    (hwf : p.well_formed) (hr0 : -128 ≤ rssi) (hr1 : rssi ≤ 127)
    (h : (if rssi < wrapI8 ((p.good_rssi_threshold : Int) * (-1)) then
          scm_rssi_is_same_bucket (wrapI8 ((p.good_rssi_threshold : Int) * (-1)))
            (wrapI8 rssi) (wrapI8 ((p.rssi_pref_5g_rssi_thresh : Int) * (-1)))
            (wrapI8 p.bad_rssi_bucket_size)
        else some false) = some sb) :
    (sb = true ↔
      (rssi < -(p.good_rssi_threshold : Int) ∧
        scm_rssi_is_same_bucket (-(p.good_rssi_threshold : Int)) rssi
          (-(p.rssi_pref_5g_rssi_thresh : Int)) p.bad_rssi_bucket_size = some true)) := by
  obtain ⟨hbg, hgb, hb, hpref, hg0, hg1, hb0, hb1⟩ := hwf
  have eg := neg_threshold_i8 p.good_rssi_threshold (by omega)
  have ep := neg_threshold_i8 p.rssi_pref_5g_rssi_thresh (by omega)
  have er : wrapI8 rssi = rssi := wrapI8_id hr0 hr1
  have ebb : wrapI8 (p.bad_rssi_bucket_size : Int) = p.bad_rssi_bucket_size :=
    wrapI8_id (by omega) (by omega)
  rw [eg, ep, er, ebb] at h
  by_cases hlt : rssi < -(p.good_rssi_threshold : Int)
  · rw [if_pos hlt] at h
    rw [h]
    simp only [Option.some.injEq, hlt, true_and]
  · rw [if_neg hlt] at h
    simp only [Option.some.injEq] at h
    subst h
    simp only [hlt, false_and, Bool.false_eq_true]

/-- Claim C24, counterexample: a 2.4 GHz candidate heard at -50 dBm on an idle
channel (congestion 0, below 75) gets no band score, although the band scorer
gives its frequency 100: the total 5138 is the sum of the other sub-scores. -/
theorem scm_calculate_bss_score_band_2g_strong :
    sample_reg.WLAN_REG_IS_24GHZ_CH_FREQ sample_bss_full_2g.chan_freq = true ∧
    scm_get_band_score sample_reg sample_bss_full_2g.chan_freq full_config = some 100 ∧
    (scm_calculate_bss_score sample_reg full_psoc sample_bss_full_2g 0).map
        (fun r => (r.locals.congestion_pct, r.locals.band_score)) = some (0, 0) ∧
    (scm_calculate_bss_score sample_reg full_psoc sample_bss_full_2g 0).map
        (fun r => [r.locals.rssi_score, r.locals.pcl_score, r.locals.ht_score,
          r.locals.vht_score, r.locals.he_score, r.locals.bandwidth_score,
          r.locals.beamformee_score, r.locals.congestion_score,
          r.locals.oce_wan_score, r.locals.oce_ap_tx_pwr_score,
          r.locals.oce_subnet_id_score, r.locals.nss_score]) =
      some [2000, 0, 200, 100, 200, 600, 200, 500, 150, 144, 244, 800] ∧
    (scm_calculate_bss_score sample_reg full_psoc sample_bss_full_2g 0).map
        (fun r => r.ret) = some 5138 ∧
    (2000 + 0 + 200 + 100 + 200 + 600 + 200 + 500 + 150 + 144 + 244 + 800 : Int) = 5138 := by
  refine ⟨by decide, by decide, by decide, by decide, by decide, by decide⟩

/-- Claim C24, amended: for a well-formed configuration and an 8-bit RSSI the
aggregator returns, and the band sub-score it adds to the total is the result
of the band scorer exactly when the congestion percentage is below 75 and
either the candidate is not on 2.4 GHz and its RSSI is above the 5 GHz
preference threshold with the same-bucket flag clear, or the candidate is on
2.4 GHz and its RSSI is not so; otherwise it is 0.  The same-bucket flag is set
exactly when the RSSI is below the good threshold and shares a bucket with the
preference threshold. -/
theorem scm_calculate_bss_score_band_gate (reg : reg_services) (psoc : wlan_objmgr_psoc)
    (entry : scan_cache_entry) (pcl_chan_weight : Int) (score_config : scoring_config)
    (hs : psoc.scan_obj = some score_config)
    (hwf : score_config.rssi_score.well_formed)
    (hr0 : -128 ≤ entry.rssi_raw) (hr1 : entry.rssi_raw ≤ 127) :
    ∃ r band c, scm_calculate_bss_score reg psoc entry pcl_chan_weight = some r ∧
      scm_get_band_score reg entry.chan_freq score_config = some band ∧
      scm_get_congestion_pct entry = some c ∧
      r.locals.congestion_pct = wrapI32 (wrapU32 c) ∧
      (r.locals.same_bucket = true ↔
        (entry.rssi_raw < -(score_config.rssi_score.good_rssi_threshold : Int) ∧
          scm_rssi_is_same_bucket (-(score_config.rssi_score.good_rssi_threshold : Int))
            entry.rssi_raw (-(score_config.rssi_score.rssi_pref_5g_rssi_thresh : Int))
            score_config.rssi_score.bad_rssi_bucket_size = some true)) ∧
      r.locals.band_score =
        (if r.locals.congestion_pct < CONGESTION_THRSHOLD_FOR_BAND_OCE_SCORE ∧
            ((entry.rssi_raw > -(score_config.rssi_score.rssi_pref_5g_rssi_thresh : Int) ∧
                r.locals.same_bucket = false ∧
                reg.WLAN_REG_IS_24GHZ_CH_FREQ entry.chan_freq = false) ∨
              (¬ (entry.rssi_raw >
                    -(score_config.rssi_score.rssi_pref_5g_rssi_thresh : Int) ∧
                  r.locals.same_bucket = false) ∧
                reg.WLAN_REG_IS_24GHZ_CH_FREQ entry.chan_freq = true)) then band
          else 0) ∧
      (wlan_objmgr_get_pdev_by_id psoc entry.pdev_id = true →
        r.ret = r.locals.running_total) := by
  obtain ⟨r, hr⟩ := bss_score_total reg psoc entry pcl_chan_weight score_config hs hwf
  obtain ⟨cg, cfg2, h6, _, hpct, hsb, _, _, _, hlt, hge, _, _⟩ :=
    bss_score_inv reg psoc entry pcl_chan_weight score_config r hs hr
  obtain ⟨hcfg1, c, hc, hcpct⟩ := congestion_config _ _ _ h6
  obtain ⟨band, hband⟩ := band_score_total reg entry.chan_freq score_config
  have hband1 : scm_get_band_score reg entry.chan_freq cg.score_params = some band := by
    rw [hcfg1]; exact hband
  have ep := neg_threshold_i8 score_config.rssi_score.rssi_pref_5g_rssi_thresh
    (by have := hwf.2.2.2.1; omega)
  refine ⟨r, band, c, hr, hband, hc, by rw [hpct, hcpct],
    same_bucket_flag _ _ _ hwf hr0 hr1 hsb, ?_,
    fun hp => bss_score_ret reg psoc entry pcl_chan_weight score_config r hs hr hp⟩
  by_cases hcong : r.locals.congestion_pct < CONGESTION_THRSHOLD_FOR_BAND_OCE_SCORE
  · have hb := (hlt hcong).1
    rw [hband1, ep] at hb
    simp only [ite_some, Option.some.injEq] at hb
    rw [← hb]
    by_cases hA : entry.rssi_raw >
        -(score_config.rssi_score.rssi_pref_5g_rssi_thresh : Int) ∧
        r.locals.same_bucket = false
    · cases h24 : reg.WLAN_REG_IS_24GHZ_CH_FREQ entry.chan_freq <;>
        simp [hA, hcong]
    · cases h24 : reg.WLAN_REG_IS_24GHZ_CH_FREQ entry.chan_freq <;>
        simp [hA, hcong]
  · rw [(hge hcong).1, if_neg (fun h => hcong h.1)]

/-- Witness for claim C24: the 5180 MHz candidate heard at -50 dBm under the
full configuration. -/
theorem scm_calculate_bss_score_band_gate_witness :
    (full_psoc.scan_obj = some full_config ∧ full_config.rssi_score.well_formed ∧
      -128 ≤ sample_bss_full_5g.rssi_raw ∧ sample_bss_full_5g.rssi_raw ≤ 127) ∧
    ∃ r band c, scm_calculate_bss_score sample_reg full_psoc sample_bss_full_5g 0 = some r ∧
      scm_get_band_score sample_reg sample_bss_full_5g.chan_freq full_config = some band ∧
      scm_get_congestion_pct sample_bss_full_5g = some c ∧
      r.locals.congestion_pct = wrapI32 (wrapU32 c) ∧
      (r.locals.same_bucket = true ↔
        (sample_bss_full_5g.rssi_raw < -(full_config.rssi_score.good_rssi_threshold : Int) ∧
          scm_rssi_is_same_bucket (-(full_config.rssi_score.good_rssi_threshold : Int))
            sample_bss_full_5g.rssi_raw
            (-(full_config.rssi_score.rssi_pref_5g_rssi_thresh : Int))
            full_config.rssi_score.bad_rssi_bucket_size = some true)) ∧
      r.locals.band_score =
        (if r.locals.congestion_pct < CONGESTION_THRSHOLD_FOR_BAND_OCE_SCORE ∧
            ((sample_bss_full_5g.rssi_raw >
                  -(full_config.rssi_score.rssi_pref_5g_rssi_thresh : Int) ∧
                r.locals.same_bucket = false ∧
                sample_reg.WLAN_REG_IS_24GHZ_CH_FREQ sample_bss_full_5g.chan_freq = false) ∨
              (¬ (sample_bss_full_5g.rssi_raw >
                    -(full_config.rssi_score.rssi_pref_5g_rssi_thresh : Int) ∧
                  r.locals.same_bucket = false) ∧
                sample_reg.WLAN_REG_IS_24GHZ_CH_FREQ sample_bss_full_5g.chan_freq = true))
          then band
          else 0) ∧
      (wlan_objmgr_get_pdev_by_id full_psoc sample_bss_full_5g.pdev_id = true →
        r.ret = r.locals.running_total) :=
  ⟨⟨rfl, by decide, by decide, by decide⟩,
    scm_calculate_bss_score_band_gate sample_reg full_psoc sample_bss_full_5g 0 full_config
      rfl (by decide) (by decide) (by decide)⟩

/-- The congestion scorer does not read the band and OCE WAN settings: with
other ones it returns the same score and percentage, and leaves the
configuration it would have left, with those other settings. -/
theorem congestion_frame (entry : scan_cache_entry) (score_params : scoring_config)
    (band t0 t1 t2 t3 wb ww : Nat) :
    scm_calculate_congestion_score entry
        (score_params.with_band_oce_wan band t0 t1 t2 t3 wb ww) =
      (scm_calculate_congestion_score entry score_params).map
        (fun r =>
          { r with
            score_params := r.score_params.with_band_oce_wan band t0 t1 t2 t3 wb ww }) := by
  unfold scm_calculate_congestion_score
  cases scm_get_congestion_pct entry with
  | none => rfl
  | some pct =>
    simp only [Option.some_bind]
    have hn : (score_params.with_band_oce_wan band t0 t1 t2 t3 wb ww).esp_qbss_scoring.num_slot
        = score_params.esp_qbss_scoring.num_slot := rfl
    rw [hn]
    by_cases hz : score_params.esp_qbss_scoring.num_slot = 0
    · rw [if_pos hz, if_pos hz]
      rfl
    · rw [if_neg hz, if_neg hz, Option.map_map]
      by_cases hc : (score_params.esp_qbss_scoring.num_slot : Int) > SCM_SCORE_MAX_INDEX
      · simp only [if_pos hc]
        rfl
      · simp only [if_neg hc]
        rfl

/-- The RSSI configuration is not among the band and OCE WAN settings. -/
theorem with_band_oce_wan_rssi_score (c : scoring_config) (band t0 t1 t2 t3 wb ww : Nat) :
    (c.with_band_oce_wan band t0 t1 t2 t3 wb ww).rssi_score = c.rssi_score := rfl

/-- The weightages other than the band and OCE WAN ones, and the capability
flags, are not among the band and OCE WAN settings. -/
theorem with_band_oce_wan_fields (c : scoring_config) (band t0 t1 t2 t3 wb ww : Nat) :
    (c.with_band_oce_wan band t0 t1 t2 t3 wb ww).weight_cfg.rssi_weightage =
        c.weight_cfg.rssi_weightage ∧
      (c.with_band_oce_wan band t0 t1 t2 t3 wb ww).weight_cfg.pcl_weightage =
        c.weight_cfg.pcl_weightage ∧
      (c.with_band_oce_wan band t0 t1 t2 t3 wb ww).weight_cfg.ht_caps_weightage =
        c.weight_cfg.ht_caps_weightage ∧
      (c.with_band_oce_wan band t0 t1 t2 t3 wb ww).weight_cfg.vht_caps_weightage =
        c.weight_cfg.vht_caps_weightage ∧
      (c.with_band_oce_wan band t0 t1 t2 t3 wb ww).weight_cfg.he_caps_weightage =
        c.weight_cfg.he_caps_weightage ∧
      (c.with_band_oce_wan band t0 t1 t2 t3 wb ww).weight_cfg.beamforming_cap_weightage =
        c.weight_cfg.beamforming_cap_weightage ∧
      (c.with_band_oce_wan band t0 t1 t2 t3 wb ww).ht_cap = c.ht_cap ∧
      (c.with_band_oce_wan band t0 t1 t2 t3 wb ww).vht_cap = c.vht_cap ∧
      (c.with_band_oce_wan band t0 t1 t2 t3 wb ww).he_cap = c.he_cap ∧
      (c.with_band_oce_wan band t0 t1 t2 t3 wb ww).vht_24G_cap = c.vht_24G_cap ∧
      (c.with_band_oce_wan band t0 t1 t2 t3 wb ww).vdev_nss_24g = c.vdev_nss_24g ∧
      (c.with_band_oce_wan band t0 t1 t2 t3 wb ww).vdev_nss_5g = c.vdev_nss_5g :=
  ⟨rfl, rfl, rfl, rfl, rfl, rfl, rfl, rfl, rfl, rfl, rfl, rfl⟩

/-- The bandwidth scorer does not read the band and OCE WAN settings. -/
theorem bandwidth_frame (reg : reg_services) (entry : scan_cache_entry)
    (c : scoring_config) (p : Int) (band t0 t1 t2 t3 wb ww : Nat) :
    scm_calculate_bandwidth_score reg entry (c.with_band_oce_wan band t0 t1 t2 t3 wb ww) p =
      scm_calculate_bandwidth_score reg entry c p := rfl

/-- The AP transmit-power scorer does not read the band and OCE WAN settings. -/
theorem oce_ap_tx_pwr_frame (entry : scan_cache_entry) (c : scoring_config) (dbm : Int)
    (band t0 t1 t2 t3 wb ww : Nat) :
    scm_calculate_oce_ap_tx_pwr_weightage entry
        (c.with_band_oce_wan band t0 t1 t2 t3 wb ww) dbm =
      scm_calculate_oce_ap_tx_pwr_weightage entry c dbm := rfl

/-- The subnet-ID scorer does not read the band and OCE WAN settings. -/
theorem oce_subnet_id_frame (entry : scan_cache_entry) (c : scoring_config)
    (band t0 t1 t2 t3 wb ww : Nat) :
    scm_calculate_oce_subnet_id_weightage entry
        (c.with_band_oce_wan band t0 t1 t2 t3 wb ww) =
      scm_calculate_oce_subnet_id_weightage entry c := rfl

/-- The stream-count scorer reads neither the psoc nor the band and OCE WAN
settings. -/
theorem nss_frame (psoc : wlan_objmgr_psoc) (o : Option scoring_config)
    (c : scoring_config) (a p s : Int) (band t0 t1 t2 t3 wb ww : Nat) :
    scm_calculate_nss_score { psoc with scan_obj := o }
        (c.with_band_oce_wan band t0 t1 t2 t3 wb ww) a p s =
      scm_calculate_nss_score psoc c a p s := rfl

/-- The station stream count does not depend on the scan object. -/
theorem sta_nss_frame (reg : reg_services) (psoc : wlan_objmgr_psoc)
    (o : Option scoring_config) (freq : Nat) (a b : Int) :
    scm_get_sta_nss reg { psoc with scan_obj := o } freq a b =
      scm_get_sta_nss reg psoc freq a b := rfl

/-- The pdev lookup does not depend on the scan object. -/
theorem pdev_frame (psoc : wlan_objmgr_psoc) (o : Option scoring_config) (id : Nat) :
    wlan_objmgr_get_pdev_by_id { psoc with scan_obj := o } id =
      wlan_objmgr_get_pdev_by_id psoc id := rfl

/-- Claim C25: for a well-formed configuration and a candidate whose congestion
percentage is at least 75, the aggregator returns with the band and OCE WAN
sub-scores left at 0, and returns the same total, and leaves the same
candidate, under the configuration and under any configuration that differs
from it only in the band table, the four words of the OCE WAN table, the band
weightage and the OCE WAN weightage. -/
theorem scm_calculate_bss_score_congested_independent (reg : reg_services)
    (psoc : wlan_objmgr_psoc) (entry : scan_cache_entry) (pcl_chan_weight : Int)
    (score_config : scoring_config) (c : Int) (band t0 t1 t2 t3 wb ww : Nat)
    (hs : psoc.scan_obj = some score_config)
    (hwf : score_config.rssi_score.well_formed)
    (hf : entry.air_time_fraction ≤ 255) (hl : entry.qbss_chan_load ≤ 255)
    (hc : scm_get_congestion_pct entry = some c) (h75 : 75 ≤ c) :
    ∃ r1 r2, scm_calculate_bss_score reg psoc entry pcl_chan_weight = some r1 ∧
      scm_calculate_bss_score reg
          { psoc with
            scan_obj := some (score_config.with_band_oce_wan band t0 t1 t2 t3 wb ww) }
          entry pcl_chan_weight = some r2 ∧
      r1.ret = r2.ret ∧ r1.entry = r2.entry ∧
      r1.locals.band_score = 0 ∧ r1.locals.oce_wan_score = 0 ∧
      r2.locals.band_score = 0 ∧ r2.locals.oce_wan_score = 0 := by
  obtain ⟨r1, hr1⟩ := bss_score_total reg psoc entry pcl_chan_weight score_config hs hwf
  obtain ⟨r2, hr2⟩ := bss_score_total reg
    { psoc with scan_obj := some (score_config.with_band_oce_wan band t0 t1 t2 t3 wb ww) }
    entry pcl_chan_weight (score_config.with_band_oce_wan band t0 t1 t2 t3 wb ww) rfl hwf
  obtain ⟨c0, hc0, hc00, hc01⟩ := congestion_pct_bounds entry hf hl
  rw [hc] at hc0
  simp only [Option.some.injEq] at hc0
  subst hc0
  have hwrap : wrapI32 (wrapU32 c) = c := by
    rw [wrapU32_id hc00 (by omega), wrapI32_id (by omega) (by omega)]
  have hge : ∀ (psoc0 : wlan_objmgr_psoc) (cfg0 : scoring_config) (r : bss_score_result),
      psoc0.scan_obj = some cfg0 →
      scm_calculate_bss_score reg psoc0 entry pcl_chan_weight = some r →
      r.locals.band_score = 0 ∧ r.locals.oce_wan_score = 0 := by
    intro psoc0 cfg0 r hs0 hr0
    obtain ⟨cg, cfg2, h6, _, hpct, _, _, _, _, _, hge, _, _⟩ :=
      bss_score_inv reg psoc0 entry pcl_chan_weight cfg0 r hs0 hr0
    obtain ⟨_, c1, hc1, hcpct⟩ := congestion_config _ _ _ h6
    rw [hc] at hc1
    simp only [Option.some.injEq] at hc1
    subst hc1
    have hn : ¬ r.locals.congestion_pct < CONGESTION_THRSHOLD_FOR_BAND_OCE_SCORE := by
      rw [hpct, hcpct, hwrap]
      unfold CONGESTION_THRSHOLD_FOR_BAND_OCE_SCORE
      omega
    exact ⟨(hge hn).1, (hge hn).2.1⟩
  have key : (scm_calculate_bss_score reg
        { psoc with
          scan_obj := some (score_config.with_band_oce_wan band t0 t1 t2 t3 wb ww) }
        entry pcl_chan_weight).map (fun r => (r.ret, r.entry)) =
      (scm_calculate_bss_score reg psoc entry pcl_chan_weight).map
        (fun r => (r.ret, r.entry)) := by
    obtain ⟨cg, h6⟩ := congestion_total entry score_config
    obtain ⟨hcfg1, c1, hc1, hcpct⟩ := congestion_config _ _ _ h6
    rw [hc] at hc1
    simp only [Option.some.injEq] at hc1
    subst hc1
    have h6f := congestion_frame entry score_config band t0 t1 t2 t3 wb ww
    rw [h6] at h6f
    simp only [Option.map_some'] at h6f
    have hn : ¬ wrapI32 cg.congestion_pct < CONGESTION_THRSHOLD_FOR_BAND_OCE_SCORE := by
      rw [hcpct, hwrap]
      unfold CONGESTION_THRSHOLD_FOR_BAND_OCE_SCORE
      omega
    obtain ⟨rs, h1⟩ := rssi_score_total score_config.rssi_score entry.rssi_raw
      score_config.weight_cfg.rssi_weightage hwf
    obtain ⟨ps, h2⟩ := pcl_score_total pcl_chan_weight score_config.weight_cfg.pcl_weightage
    obtain ⟨pr, h3⟩ := prorated_pcnt_total score_config.rssi_score entry.rssi_raw
      score_config.weight_cfg.rssi_weightage hwf
    obtain ⟨bw, h4⟩ := bandwidth_score_total reg entry score_config (wrapU8 pr)
    have hbb : wrapI8 (score_config.rssi_score.bad_rssi_bucket_size : Int) ≠ 0 := by
      rw [wrapI8_id (by omega) (by omega)]; omega
    have hwf1 : cg.score_params.rssi_score.well_formed := by rw [hcfg1]; exact hwf
    obtain ⟨tx, h9⟩ := oce_ap_tx_pwr_total entry cg.score_params 0 hwf1
    have hfld := with_band_oce_wan_fields
    unfold scm_calculate_bss_score
    simp only [wlan_psoc_get_scan_obj, hs, h6, h6f, Option.some_bind, if_neg hn,
      with_band_oce_wan_rssi_score, (hfld _ _ _ _ _ _ _ _).1, (hfld _ _ _ _ _ _ _ _).2.1,
      (hfld _ _ _ _ _ _ _ _).2.2.1, (hfld _ _ _ _ _ _ _ _).2.2.2.1,
      (hfld _ _ _ _ _ _ _ _).2.2.2.2.1, (hfld _ _ _ _ _ _ _ _).2.2.2.2.2.1,
      (hfld _ _ _ _ _ _ _ _).2.2.2.2.2.2.1, (hfld _ _ _ _ _ _ _ _).2.2.2.2.2.2.2.1,
      (hfld _ _ _ _ _ _ _ _).2.2.2.2.2.2.2.2.1, (hfld _ _ _ _ _ _ _ _).2.2.2.2.2.2.2.2.2.1,
      (hfld _ _ _ _ _ _ _ _).2.2.2.2.2.2.2.2.2.2.1,
      (hfld _ _ _ _ _ _ _ _).2.2.2.2.2.2.2.2.2.2.2,
      bandwidth_frame, oce_ap_tx_pwr_frame, oce_subnet_id_frame, nss_frame,
      sta_nss_frame, pdev_frame,
      h1, h2, h3, h4, same_bucket_eval _ _ _ _ hbb, ite_some, h9]
    by_cases hp : wlan_objmgr_get_pdev_by_id psoc entry.pdev_id = false
    · simp only [if_pos hp, Option.map_some']
    · simp only [if_neg hp, Option.map_map]
      rfl
  rw [hr1, hr2] at key
  simp only [Option.map_some', Option.some.injEq, Prod.mk.injEq] at key
  have z1 := hge psoc score_config r1 hs hr1
  have z2 := hge _ _ r2 rfl hr2
  exact ⟨r1, r2, hr1, hr2, key.1.symm, key.2.symm, z1.1, z1.2, z2.1, z2.2⟩

/-- Witness for claim C25: the 5180 MHz candidate on a channel loaded at 80
percent, under the full configuration and under one with other band and OCE
WAN tables and weightages. -/
theorem scm_calculate_bss_score_congested_independent_witness :
    (full_psoc.scan_obj = some full_config ∧ full_config.rssi_score.well_formed ∧
      sample_bss_congested.air_time_fraction ≤ 255 ∧
      sample_bss_congested.qbss_chan_load ≤ 255 ∧
      scm_get_congestion_pct sample_bss_congested = some 80 ∧ (75 : Int) ≤ 80) ∧
    ∃ r1 r2, scm_calculate_bss_score sample_reg full_psoc sample_bss_congested 0 = some r1 ∧
      scm_calculate_bss_score sample_reg
          { full_psoc with
            scan_obj := some (full_config.with_band_oce_wan 7 1 2 3 4 9 9) }
          sample_bss_congested 0 = some r2 ∧
      r1.ret = r2.ret ∧ r1.entry = r2.entry ∧
      r1.locals.band_score = 0 ∧ r1.locals.oce_wan_score = 0 ∧
      r2.locals.band_score = 0 ∧ r2.locals.oce_wan_score = 0 :=
  ⟨⟨rfl, by decide, by decide, by decide, by decide, by decide⟩,
    scm_calculate_bss_score_congested_independent sample_reg full_psoc
      sample_bss_congested 0 full_config 80 7 1 2 3 4 9 9 rfl (by decide) (by decide)
      (by decide) (by decide) (by decide)⟩

/-! ## Stream-count score -/

/-- The stream-count product of 8-bit operands fits the `int32_t` it is computed
in, and its signed quotient by 100 is the floor quotient. -/
theorem nss_product (w b p : Int) (hw0 : 0 ≤ w) (hw1 : w ≤ 255) (hb0 : 0 ≤ b)
    (hb1 : b ≤ 255) (hp0 : 0 ≤ p) (hp1 : p ≤ 255) :
    Int.tdiv (wrapI32 (wrapI32 (w * wrapU8 b) * p)) 100 = (w * b * p) / 100 := by
  rw [wrapU8_id hb0 hb1]
  have h1 : 0 ≤ w * b := mul_nonneg hw0 hb0
  have h2 : w * b ≤ 255 * 255 := mul_le_mul hw1 hb1 hb0 (by omega)
  rw [wrapI32_id (x := w * b) (by omega) (by omega)]
  have h3 : 0 ≤ w * b * p := mul_nonneg h1 hp0
  have h4 : w * b * p ≤ 255 * 255 * 255 := mul_le_mul h2 hp1 hp0 (by omega)
  rw [wrapI32_id (by omega) (by omega), Int.tdiv_eq_ediv h3 (by omega)]

/-- The stream-count scorer on a smaller stream count in 1..4: the weightage
times the table byte of that count times the prorated percentage, over 100. -/
theorem nss_score_min (psoc : wlan_objmgr_psoc) (score_config : scoring_config)
    (a prorated_pct sta_nss : Int)
    (ha0 : 0 ≤ a) (ha1 : a ≤ 255)
    (hsta0 : 0 ≤ sta_nss)
    (hp0 : 0 ≤ prorated_pct) (hp1 : prorated_pct ≤ 255)
    (hw : score_config.weight_cfg.nss_weightage ≤ 255)
    (hm1 : 1 ≤ min a sta_nss) (hm4 : min a sta_nss ≤ 4) :
    scm_calculate_nss_score psoc score_config a prorated_pct sta_nss =
      some (((score_config.weight_cfg.nss_weightage : Int) *
        (((score_config.nss_weight_per_index : Int) /
          256 ^ (min a sta_nss - 1).toNat) % 256) * prorated_pct) / 100) := by
  have hw0 : (0 : Int) ≤ score_config.weight_cfg.nss_weightage := by omega
  have hw1 : (score_config.weight_cfg.nss_weightage : Int) ≤ 255 := by omega
  have hau : wrapU32 a = a := wrapU32_id ha0 (by omega)
  unfold scm_calculate_nss_score WLAN_GET_SCORE_PERCENTAGE
  simp only [SCM_NSS_4x4_INDEX, SCM_NSS_3x3_INDEX, SCM_NSS_2x2_INDEX, SCM_NSS_1x1_INDEX,
    MAX_PCT_SCORE, hau]
  by_cases hlt : sta_nss < a
  · have hmin : min a sta_nss = sta_nss := min_eq_right hlt.le
    rw [hmin] at hm1 hm4 ⊢
    rw [if_pos hlt, wrapU8_id hsta0 (by omega)]
    have h4 : sta_nss = 1 ∨ sta_nss = 2 ∨ sta_nss = 3 ∨ sta_nss = 4 := by omega
    rcases h4 with h | h | h | h <;> subst h <;> norm_num <;>
      exact nss_product _ _ _ hw0 hw1 (by omega) (by omega) hp0 hp1
  · have hmin : min a sta_nss = a := min_eq_left (by omega)
    rw [hmin] at hm1 hm4 ⊢
    rw [if_neg hlt]
    have h4 : a = 1 ∨ a = 2 ∨ a = 3 ∨ a = 4 := by omega
    rcases h4 with h | h | h | h <;> subst h <;> norm_num <;>
      exact nss_product _ _ _ hw0 hw1 (by omega) (by omega) hp0 hp1

/-- Claim C26: for 8-bit stream counts, prorated percentage and weightage, when
the smaller `m` of the AP stream count and the station stream count is in 1..4
the stream-count scorer returns (nss_weightage * byte (m - 1) of
`nss_weight_per_index` * prorated_pct) / 100; an AP advertising at least the
station's count scores the same as one advertising exactly that count. -/
theorem scm_calculate_nss_score_spec (psoc : wlan_objmgr_psoc) (score_config : scoring_config)
    (ap_nss prorated_pct sta_nss : Int)
    (hap0 : 0 ≤ ap_nss) (hap1 : ap_nss ≤ 255)
    (hsta0 : 0 ≤ sta_nss)
    (hp0 : 0 ≤ prorated_pct) (hp1 : prorated_pct ≤ 255)
    (hw : score_config.weight_cfg.nss_weightage ≤ 255)
    (hm1 : 1 ≤ min ap_nss sta_nss) (hm4 : min ap_nss sta_nss ≤ 4) :
    scm_calculate_nss_score psoc score_config ap_nss prorated_pct sta_nss =
        some (((score_config.weight_cfg.nss_weightage : Int) *
          (((score_config.nss_weight_per_index : Int) /
            256 ^ (min ap_nss sta_nss - 1).toNat) % 256) * prorated_pct) / 100) ∧
      (sta_nss ≤ ap_nss →
        scm_calculate_nss_score psoc score_config ap_nss prorated_pct sta_nss =
          scm_calculate_nss_score psoc score_config sta_nss prorated_pct sta_nss) := by
  have key := nss_score_min psoc score_config ap_nss prorated_pct sta_nss hap0 hap1 hsta0
    hp0 hp1 hw hm1 hm4
  refine ⟨key, ?_⟩
  intro hle
  have hmin : min ap_nss sta_nss = sta_nss := min_eq_right hle
  rw [hmin] at hm1 hm4
  rw [key, nss_score_min psoc score_config sta_nss prorated_pct sta_nss hsta0 (by omega)
    hsta0 hp0 hp1 hw (by rw [min_self]; omega) (by rw [min_self]; omega), hmin, min_self]

/-- Witness for claim C26: with weightage 16 and table 30, 50, 80, 100, a
four-stream AP and a two-stream AP both score 16 * 50 * 100 / 100 = 800 for a
two-stream station. -/
theorem scm_calculate_nss_score_spec_witness :
    ((0 : Int) ≤ 4 ∧ (4 : Int) ≤ 255 ∧ (0 : Int) ≤ 2 ∧ (0 : Int) ≤ 100 ∧
      (100 : Int) ≤ 255 ∧ full_config.weight_cfg.nss_weightage ≤ 255 ∧
      1 ≤ min (4 : Int) 2 ∧ min (4 : Int) 2 ≤ 4) ∧
    scm_calculate_nss_score full_psoc full_config 4 100 2 = some 800 ∧
    scm_calculate_nss_score full_psoc full_config 2 100 2 = some 800 := by
  have h := scm_calculate_nss_score_spec full_psoc full_config 4 100 2 (by decide) (by decide) (by decide)
    (by decide) (by decide) (by decide) (by decide) (by decide)
  refine ⟨by decide, ?_, ?_⟩
  · rw [h.1]; decide
  · rw [← h.2 (by decide)]; rw [h.1]; decide

/-! ## Aggregator: beamforming, total, frame and missing objects -/

/-- Claim C27, counterexample: with the good threshold at -75 dBm, the 5 GHz
preference threshold at -76 dBm and 5 dB buckets, a VHT candidate advertising
single-user beamformer capability heard at -75 dBm is above the preference
threshold and in the same bucket as it (the prorated percentage is 0 for that
reason), yet it gets the beamforming sub-score 100 * 2. -/
theorem scm_calculate_bss_score_beamformee_at_good :
    (near_pref_config.vht_cap = true ∧
      sample_bss_at_good.ie_list.vhtcap.map (fun v => v.su_beam_former) = some true ∧
      sample_bss_at_good.rssi_raw >
        -(near_pref_config.rssi_score.rssi_pref_5g_rssi_thresh : Int)) ∧
    scm_rssi_is_same_bucket (-(near_pref_config.rssi_score.good_rssi_threshold : Int))
        sample_bss_at_good.rssi_raw
        (-(near_pref_config.rssi_score.rssi_pref_5g_rssi_thresh : Int))
        near_pref_config.rssi_score.bad_rssi_bucket_size = some true ∧
    scm_roam_calculate_prorated_pcnt_by_rssi near_pref_config.rssi_score
        sample_bss_at_good.rssi_raw near_pref_config.weight_cfg.rssi_weightage = some 0 ∧
    (scm_calculate_bss_score sample_reg near_pref_psoc sample_bss_at_good 0).map
        (fun r => (r.locals.same_bucket, r.locals.beamformee_score)) = some (false, 200) := by
  refine ⟨by decide, by decide, by decide, by decide⟩

/-- Claim C27, amended: for a well-formed configuration with an 8-bit
beamforming weightage and an 8-bit RSSI the aggregator returns, and the
beamforming sub-score it adds to the total is 100 times the weightage when VHT
is applicable on the candidate's band, the candidate advertises single-user
beamformer capability, its RSSI is above the 5 GHz preference threshold, and it
is not both below the good threshold and in the bucket of the preference
threshold; in every other case it is 0. -/
theorem scm_calculate_bss_score_beamformee (reg : reg_services) (psoc : wlan_objmgr_psoc)
    (entry : scan_cache_entry) (pcl_chan_weight : Int) (score_config : scoring_config)
    (hs : psoc.scan_obj = some score_config)
    (hwf : score_config.rssi_score.well_formed)
    (hr0 : -128 ≤ entry.rssi_raw) (hr1 : entry.rssi_raw ≤ 127)
    (hw : score_config.weight_cfg.beamforming_cap_weightage ≤ 255) :
    ∃ r, scm_calculate_bss_score reg psoc entry pcl_chan_weight = some r ∧
      r.locals.beamformee_score =
        (if (if reg.WLAN_REG_IS_24GHZ_CH_FREQ entry.chan_freq = true then
                score_config.vht_24G_cap
              else score_config.vht_cap) = true ∧
            entry.ie_list.vhtcap.map (fun v => v.su_beam_former) = some true ∧
            entry.rssi_raw > -(score_config.rssi_score.rssi_pref_5g_rssi_thresh : Int) ∧
            ¬ (entry.rssi_raw < -(score_config.rssi_score.good_rssi_threshold : Int) ∧
              scm_rssi_is_same_bucket
                (-(score_config.rssi_score.good_rssi_threshold : Int)) entry.rssi_raw
                (-(score_config.rssi_score.rssi_pref_5g_rssi_thresh : Int))
                score_config.rssi_score.bad_rssi_bucket_size = some true) then
          100 * (score_config.weight_cfg.beamforming_cap_weightage : Int)
        else 0) ∧
      (wlan_objmgr_get_pdev_by_id psoc entry.pdev_id = true →
        r.ret = r.locals.running_total) := by
  obtain ⟨r, hr⟩ := bss_score_total reg psoc entry pcl_chan_weight score_config hs hwf
  obtain ⟨cg, cfg2, _, _, _, hsb, hvht, hbf, hbfs, _, _, _, _⟩ :=
    bss_score_inv reg psoc entry pcl_chan_weight score_config r hs hr
  have ep := neg_threshold_i8 score_config.rssi_score.rssi_pref_5g_rssi_thresh
    (by have := hwf.2.2.2.1; omega)
  have hflag := same_bucket_flag _ _ _ hwf hr0 hr1 hsb
  have hfull : wrapI32 (MAX_PCT_SCORE *
      (score_config.weight_cfg.beamforming_cap_weightage : Int)) =
      100 * (score_config.weight_cfg.beamforming_cap_weightage : Int) := by
    unfold MAX_PCT_SCORE
    exact wrapI32_id (by omega) (by omega)
  refine ⟨r, hr, ?_,
    fun hp => bss_score_ret reg psoc entry pcl_chan_weight score_config r hs hr hp⟩
  rw [hbfs, hfull, ep]
  apply if_congr _ rfl rfl
  refine and_congr ?_ (and_congr ?_ (and_congr Iff.rfl ?_))
  · rw [hvht]
    cases reg.WLAN_REG_IS_24GHZ_CH_FREQ entry.chan_freq <;>
      cases score_config.vht_24G_cap <;> cases score_config.vht_cap <;> simp
  · rw [hbf]
    unfold util_scan_entry_vhtcap
    cases entry.ie_list.vhtcap <;> simp
  · rw [← hflag]
    cases r.locals.same_bucket <;> simp

/-- Witness for claim C27: the 5180 MHz candidate heard at -50 dBm under the
full configuration gets the beamforming sub-score 100 * 2. -/
theorem scm_calculate_bss_score_beamformee_witness :
    (full_psoc.scan_obj = some full_config ∧ full_config.rssi_score.well_formed ∧
      -128 ≤ sample_bss_full_5g.rssi_raw ∧ sample_bss_full_5g.rssi_raw ≤ 127 ∧
      full_config.weight_cfg.beamforming_cap_weightage ≤ 255) ∧
    ∃ r, scm_calculate_bss_score sample_reg full_psoc sample_bss_full_5g 0 = some r ∧
      r.locals.beamformee_score = 200 ∧
      (wlan_objmgr_get_pdev_by_id full_psoc sample_bss_full_5g.pdev_id = true →
        r.ret = r.locals.running_total) := by
  refine ⟨⟨rfl, by decide, by decide, by decide, by decide⟩, ?_⟩
  obtain ⟨r, hr, hb, ht⟩ :=
    scm_calculate_bss_score_beamformee sample_reg full_psoc sample_bss_full_5g 0 full_config
      rfl (by decide) (by decide) (by decide) (by decide)
  refine ⟨r, hr, ?_, ht⟩
  rw [hb]
  decide

/-- Claim C28: with every weightage between 0 and 100, the 2437 MHz candidate
heard at -50 dBm gets 400 from the AP transmit-power scorer and 500 from the
subnet-ID scorer, but the aggregator holds 144 and 244 for them (the values
modulo 256) and returns 5138, which it also writes to `bss_score`, whereas the
sub-scores as their scorers return them add up to 5650. -/
theorem scm_calculate_bss_score_truncates_oce_scores :
    (full_weight_config.rssi_weightage ≤ 100 ∧ full_weight_config.ht_caps_weightage ≤ 100 ∧
      full_weight_config.vht_caps_weightage ≤ 100 ∧
      full_weight_config.he_caps_weightage ≤ 100 ∧
      full_weight_config.chan_width_weightage ≤ 100 ∧
      full_weight_config.chan_band_weightage ≤ 100 ∧
      full_weight_config.nss_weightage ≤ 100 ∧
      full_weight_config.beamforming_cap_weightage ≤ 100 ∧
      full_weight_config.pcl_weightage ≤ 100 ∧
      full_weight_config.channel_congestion_weightage ≤ 100 ∧
      full_weight_config.oce_wan_weightage ≤ 100 ∧
      full_weight_config.oce_ap_tx_pwr_weightage ≤ 100 ∧
      full_weight_config.oce_subnet_id_weightage ≤ 100) ∧
    (scm_calculate_oce_ap_tx_pwr_weightage sample_bss_full_2g full_config 0).map
        (fun r => r.score) = some 400 ∧
    (scm_calculate_oce_subnet_id_weightage sample_bss_full_2g full_config).score = 500 ∧
    (scm_calculate_bss_score sample_reg full_psoc sample_bss_full_2g 0).map
        (fun r => (r.locals.oce_ap_tx_pwr_score, r.locals.oce_subnet_id_score)) =
      some (144, 244) ∧
    (scm_calculate_bss_score sample_reg full_psoc sample_bss_full_2g 0).map
        (fun r => [r.locals.rssi_score, r.locals.pcl_score, r.locals.ht_score,
          r.locals.vht_score, r.locals.he_score, r.locals.bandwidth_score,
          r.locals.beamformee_score, r.locals.congestion_score, r.locals.congestion_pct,
          r.locals.band_score, r.locals.oce_wan_score, r.locals.nss_score]) =
      some [2000, 0, 200, 100, 200, 600, 200, 500, 0, 0, 150, 800] ∧
    (scm_calculate_bss_score sample_reg full_psoc sample_bss_full_2g 0).map
        (fun r => (r.ret, r.entry.bss_score)) = some (5138, 5138) ∧
    (2000 + 0 + 200 + 100 + 200 + 600 + 200 + 500 + (0 + 150) + 400 + 500 + 800 : Int) =
      5650 ∧
    (5650 : Int) ≠ 5138 := by
  refine ⟨by decide, by decide, by decide, by decide, by decide, by decide, by decide,
    by decide⟩

/-- Claim C29, counterexample: a configuration whose two slot counts are 200
holds the slot counts 15 and 15 after one candidate has been scored. -/
theorem scm_calculate_bss_score_rewrites_num_slot :
    wide_slot_psoc.scan_obj = some wide_slot_config ∧
    wide_slot_config.esp_qbss_scoring.num_slot = 200 ∧
    wide_slot_config.oce_wan_scoring.num_slot = 200 ∧
    (scm_calculate_bss_score sample_reg wide_slot_psoc sample_bss_loaded 0).map
        (fun r => r.score_config.map
          (fun c => (c.esp_qbss_scoring.num_slot, c.oce_wan_scoring.num_slot))) =
      some (some (15, 15)) := by
  refine ⟨rfl, by decide, by decide, by decide⟩

/-- Claim C29, amended: for a well-formed configuration the aggregator returns
and leaves the configuration as it was except for the two slot counts: the
congestion slot count becomes the smaller of its value and 15, and so does the
OCE WAN slot count when the congestion percentage is below 75; a configuration
whose slot counts are at most 15 is left unchanged.  The candidate is left as
it was when its pdev is missing, and otherwise only its `bss_score` is
overwritten with the returned value. -/
theorem scm_calculate_bss_score_frame (reg : reg_services) (psoc : wlan_objmgr_psoc)
    (entry : scan_cache_entry) (pcl_chan_weight : Int) (score_config : scoring_config)
    (hs : psoc.scan_obj = some score_config)
    (hwf : score_config.rssi_score.well_formed) :
    ∃ r, scm_calculate_bss_score reg psoc entry pcl_chan_weight = some r ∧
      r.score_config =
        some { score_config with
          esp_qbss_scoring :=
            { score_config.esp_qbss_scoring with
              num_slot := min score_config.esp_qbss_scoring.num_slot 15 },
          oce_wan_scoring :=
            { score_config.oce_wan_scoring with
              num_slot :=
                if r.locals.congestion_pct < CONGESTION_THRSHOLD_FOR_BAND_OCE_SCORE then
                  min score_config.oce_wan_scoring.num_slot 15
                else score_config.oce_wan_scoring.num_slot } } ∧
      (score_config.esp_qbss_scoring.num_slot ≤ 15 →
        score_config.oce_wan_scoring.num_slot ≤ 15 →
        r.score_config = some score_config) ∧
      r.entry =
        (if wlan_objmgr_get_pdev_by_id psoc entry.pdev_id = true then
          { entry with bss_score := r.ret }
        else entry) := by
  obtain ⟨r, hr⟩ := bss_score_total reg psoc entry pcl_chan_weight score_config hs hwf
  obtain ⟨cg, cfg2, h6, hcfg, _, _, _, _, _, hlt, hge, hnp, hp⟩ :=
    bss_score_inv reg psoc entry pcl_chan_weight score_config r hs hr
  have hcfg1 := (congestion_config _ _ _ h6).1
  have key : r.score_config =
      some { score_config with
        esp_qbss_scoring :=
          { score_config.esp_qbss_scoring with
            num_slot := min score_config.esp_qbss_scoring.num_slot 15 },
        oce_wan_scoring :=
          { score_config.oce_wan_scoring with
            num_slot :=
              if r.locals.congestion_pct < CONGESTION_THRSHOLD_FOR_BAND_OCE_SCORE then
                min score_config.oce_wan_scoring.num_slot 15
              else score_config.oce_wan_scoring.num_slot } } := by
    rw [hcfg]
    by_cases hc : r.locals.congestion_pct < CONGESTION_THRSHOLD_FOR_BAND_OCE_SCORE
    · obtain ⟨_, ow, how, _, hcfg2⟩ := hlt hc
      rw [hcfg2, oce_wan_config _ _ _ how, hcfg1, if_pos hc]
    · rw [(hge hc).2.2, hcfg1, if_neg hc]
  refine ⟨r, hr, key, ?_, ?_⟩
  · intro hn hm
    rw [key, min_eq_left hn, min_eq_left hm, ite_self]
  · cases hpd : wlan_objmgr_get_pdev_by_id psoc entry.pdev_id
    · rw [(hnp hpd).2]
      simp
    · rw [hp hpd]
      simp

/-- Witness for claim C29: the configuration with slot counts 200 and a
candidate on a channel loaded at 25 percent. -/
theorem scm_calculate_bss_score_frame_witness :
    (wide_slot_psoc.scan_obj = some wide_slot_config ∧
      wide_slot_config.rssi_score.well_formed) ∧
    ∃ r, scm_calculate_bss_score sample_reg wide_slot_psoc sample_bss_loaded 0 = some r ∧
      r.score_config =
        some { wide_slot_config with
          esp_qbss_scoring :=
            { wide_slot_config.esp_qbss_scoring with
              num_slot := min wide_slot_config.esp_qbss_scoring.num_slot 15 },
          oce_wan_scoring :=
            { wide_slot_config.oce_wan_scoring with
              num_slot :=
                if r.locals.congestion_pct < CONGESTION_THRSHOLD_FOR_BAND_OCE_SCORE then
                  min wide_slot_config.oce_wan_scoring.num_slot 15
                else wide_slot_config.oce_wan_scoring.num_slot } } ∧
      (wide_slot_config.esp_qbss_scoring.num_slot ≤ 15 →
        wide_slot_config.oce_wan_scoring.num_slot ≤ 15 →
        r.score_config = some wide_slot_config) ∧
      r.entry =
        (if wlan_objmgr_get_pdev_by_id wide_slot_psoc sample_bss_loaded.pdev_id = true then
          { sample_bss_loaded with bss_score := r.ret }
        else sample_bss_loaded) :=
  ⟨⟨rfl, by decide⟩,
    scm_calculate_bss_score_frame sample_reg wide_slot_psoc sample_bss_loaded 0
      wide_slot_config rfl (by decide)⟩

/-- Claim C30: when the psoc has no scan object, and when it has one with a
well-formed RSSI configuration but the pdev of the candidate is missing, the
aggregator returns 0 and leaves the candidate, its `bss_score` included, as it
was. -/
theorem scm_calculate_bss_score_missing_object (reg : reg_services)
    (psoc : wlan_objmgr_psoc) (entry : scan_cache_entry) (pcl_chan_weight : Int)
    (h : wlan_psoc_get_scan_obj psoc = none ∨
      (∃ score_config, wlan_psoc_get_scan_obj psoc = some score_config ∧
        score_config.rssi_score.well_formed ∧
        wlan_objmgr_get_pdev_by_id psoc entry.pdev_id = false)) :
    ∃ r, scm_calculate_bss_score reg psoc entry pcl_chan_weight = some r ∧
      r.ret = 0 ∧ r.entry = entry ∧ r.entry.bss_score = entry.bss_score := by
  rcases h with h | ⟨score_config, hs, hwf, hpd⟩
  · refine ⟨{ ret := 0, entry := entry, score_config := none, locals := {} }, ?_,
      rfl, rfl, rfl⟩
    unfold scm_calculate_bss_score
    rw [h]
  · obtain ⟨r, hr⟩ := bss_score_total reg psoc entry pcl_chan_weight score_config hs hwf
    obtain ⟨_, _, _, _, _, _, _, _, _, _, _, hnp, _⟩ :=
      bss_score_inv reg psoc entry pcl_chan_weight score_config r hs hr
    exact ⟨r, hr, (hnp hpd).1, (hnp hpd).2, by rw [(hnp hpd).2]⟩

/-- Witness for claim C30: a candidate whose last score was 900, scored
through a psoc whose scan object holds the full configuration and which has no
pdev. -/
theorem scm_calculate_bss_score_missing_object_witness :
    (wlan_psoc_get_scan_obj no_pdev_psoc = none ∨
      (∃ score_config, wlan_psoc_get_scan_obj no_pdev_psoc = some score_config ∧
        score_config.rssi_score.well_formed ∧
        wlan_objmgr_get_pdev_by_id no_pdev_psoc sample_bss_a.pdev_id = false)) ∧
    ∃ r, scm_calculate_bss_score sample_reg no_pdev_psoc sample_bss_a 0 = some r ∧
      r.ret = 0 ∧ r.entry = sample_bss_a ∧ r.entry.bss_score = 900 :=
  ⟨Or.inr ⟨full_config, rfl, by decide, rfl⟩,
    scm_calculate_bss_score_missing_object sample_reg no_pdev_psoc sample_bss_a 0
      (Or.inr ⟨full_config, rfl, by decide, rfl⟩)⟩

/-! ## Divisors -/

/-- The number of slots of a window at most 127 dB wide, as the slot mapper
divides by it (converted to `uint32_t`), is at least 1. -/
theorem slot_divisor_pos (high low b : Int) (hb0 : 0 < b) (hw0 : 0 ≤ high - low)
    (hw1 : high - low ≤ 254) :
    1 ≤ wrapU32 (wrapI8 (wrapU32 (wrapU32 (wrapI32 (high - low)) / b + 1))) := by
  have hq0 : 0 ≤ (high - low) / b := Int.ediv_nonneg hw0 hb0.le
  have hq1 : (high - low) / b ≤ 254 := le_trans (Int.ediv_le_self _ hw0) hw1
  have e1 : wrapI32 (high - low) = high - low := wrapI32_id (by omega) (by omega)
  have e2 : wrapU32 (high - low) = high - low := wrapU32_id hw0 (by omega)
  rw [e1, e2]
  generalize (high - low) / b = q at hq0 hq1
  unfold wrapU32 wrapI8
  omega

/-- The RSSI scorer returns a score on every RSSI under the divisor
invariant. -/
theorem rssi_score_total_inv (p : rssi_cfg_score) (rssi : Int) (w : Nat)
    (hinv : p.divisor_invariant) : ∃ s, scm_calculate_rssi_score p rssi w = some s := by
  obtain ⟨hbg, hgb, hb, hg0, hg1, hb0, hb1⟩ := hinv
  have eb := neg_threshold p.best_rssi_threshold (by omega)
  have eg := neg_threshold p.good_rssi_threshold (by omega)
  have ebad := neg_threshold p.bad_rssi_threshold (by omega)
  have egb : wrapU32 (p.good_rssi_bucket_size : Int) = p.good_rssi_bucket_size :=
    wrapU32_id (by omega) (by omega)
  have ebb : wrapU32 (p.bad_rssi_bucket_size : Int) = p.bad_rssi_bucket_size :=
    wrapU32_id (by omega) (by omega)
  unfold scm_calculate_rssi_score
  simp only [eb, eg, ebad, egb, ebb]
  split_ifs
  · exact ⟨_, rfl⟩
  · exact ⟨_, rfl⟩
  · exact map_total _ _ (slot_total _ _ _ _ _ _ (by omega) (by omega) (by omega))
  · exact map_total _ _ (slot_total _ _ _ _ _ _ (by omega) (by omega) (by omega))

/-- The prorated percentage is computed on every RSSI under the divisor
invariant. -/
theorem prorated_pcnt_total_inv (p : rssi_cfg_score) (rssi : Int) (w : Nat)
    (hinv : p.divisor_invariant) :
    ∃ s, scm_roam_calculate_prorated_pcnt_by_rssi p rssi w = some s := by
  obtain ⟨hbg, hgb, hb, hg0, hg1, hb0, hb1⟩ := hinv
  have eg := neg_threshold p.good_rssi_threshold (by omega)
  have ebad := neg_threshold p.bad_rssi_threshold (by omega)
  have ebb : wrapU32 (p.bad_rssi_bucket_size : Int) = p.bad_rssi_bucket_size :=
    wrapU32_id (by omega) (by omega)
  have ebb8 : wrapI8 (p.bad_rssi_bucket_size : Int) = p.bad_rssi_bucket_size :=
    wrapI8_id (by omega) (by omega)
  have hne : (p.bad_rssi_bucket_size : Int) ≠ 0 := by omega
  unfold scm_roam_calculate_prorated_pcnt_by_rssi
  simp only [eg, ebad, ebb, ebb8, same_bucket_eval _ _ _ _ hne, Option.some_bind]
  split_ifs
  · exact ⟨_, rfl⟩
  · exact ⟨_, rfl⟩
  · exact ⟨_, rfl⟩
  · exact slot_total _ _ _ _ _ _ (by omega) (by omega) (by omega)

/-- The AP transmit-power scorer returns a score on every candidate under the
divisor invariant. -/
theorem oce_ap_tx_pwr_total_inv (entry : scan_cache_entry) (score_params : scoring_config)
    (dbm : Int) (hinv : score_params.rssi_score.divisor_invariant) :
    ∃ r, scm_calculate_oce_ap_tx_pwr_weightage entry score_params dbm = some r := by
  obtain ⟨hbg, hgb, hb, hg0, hg1, hb0, hb1⟩ := hinv
  have eb := neg_threshold score_params.rssi_score.best_rssi_threshold (by omega)
  have eg := neg_threshold score_params.rssi_score.good_rssi_threshold (by omega)
  have ebad := neg_threshold score_params.rssi_score.bad_rssi_threshold (by omega)
  have egb : wrapU32 (score_params.rssi_score.good_rssi_bucket_size : Int) =
      score_params.rssi_score.good_rssi_bucket_size := wrapU32_id (by omega) (by omega)
  have ebb : wrapU32 (score_params.rssi_score.bad_rssi_bucket_size : Int) =
      score_params.rssi_score.bad_rssi_bucket_size := wrapU32_id (by omega) (by omega)
  unfold scm_calculate_oce_ap_tx_pwr_weightage
  simp only [eb, eg, ebad, egb, ebb]
  apply map_total
  split_ifs
  · exact ⟨_, rfl⟩
  · exact ⟨_, rfl⟩
  · exact map_total _ _ (slot_total _ _ _ _ _ _ (by omega) (by omega) (by omega))
  · exact map_total _ _ (slot_total _ _ _ _ _ _ (by omega) (by omega) (by omega))

/-- The aggregator returns on every candidate when the scan object is there
and its RSSI configuration satisfies the divisor invariant. -/
theorem bss_score_total_inv (reg : reg_services) (psoc : wlan_objmgr_psoc)
    (entry : scan_cache_entry) (pcl_chan_weight : Int) (score_config : scoring_config)
    (hs : psoc.scan_obj = some score_config)
    (hinv : score_config.rssi_score.divisor_invariant) :
    ∃ r, scm_calculate_bss_score reg psoc entry pcl_chan_weight = some r := by
  obtain ⟨rs, h1⟩ := rssi_score_total_inv score_config.rssi_score entry.rssi_raw
    score_config.weight_cfg.rssi_weightage hinv
  obtain ⟨ps, h2⟩ := pcl_score_total pcl_chan_weight score_config.weight_cfg.pcl_weightage
  obtain ⟨pr, h3⟩ := prorated_pcnt_total_inv score_config.rssi_score entry.rssi_raw
    score_config.weight_cfg.rssi_weightage hinv
  obtain ⟨bw, h4⟩ := bandwidth_score_total reg entry score_config (wrapU8 pr)
  have hbb : wrapI8 (score_config.rssi_score.bad_rssi_bucket_size : Int) ≠ 0 := by
    rw [wrapI8_id (by omega) (by omega)]; omega
  obtain ⟨cg, h6⟩ := congestion_total entry score_config
  have hcfg1 := (congestion_config entry score_config cg h6).1
  obtain ⟨bs, h7⟩ := band_score_total reg entry.chan_freq cg.score_params
  obtain ⟨ow, h8⟩ := oce_wan_total entry cg.score_params
  have hcfg2 := oce_wan_config _ _ _ h8
  have hinv1 : cg.score_params.rssi_score.divisor_invariant := by rw [hcfg1]; exact hinv
  have hinv2 : ow.score_params.rssi_score.divisor_invariant := by rw [hcfg2]; exact hinv1
  obtain ⟨tx1, h9⟩ := oce_ap_tx_pwr_total_inv entry cg.score_params 0 hinv1
  obtain ⟨tx2, h10⟩ := oce_ap_tx_pwr_total_inv entry ow.score_params 0 hinv2
  unfold scm_calculate_bss_score
  simp only [wlan_psoc_get_scan_obj, hs, h1, h2, h3, h4, same_bucket_eval _ _ _ _ hbb, h6,
    ite_some, Option.some_bind]
  by_cases hc : wrapI32 cg.congestion_pct < CONGESTION_THRSHOLD_FOR_BAND_OCE_SCORE
  · simp only [if_pos hc, h7, ite_some, h8, Option.some_bind, Option.map_some', h10]
    split
    · exact ⟨_, rfl⟩
    · exact map_total _ _ (nss_score_total _ _ _ _ _)
  · simp only [if_neg hc, Option.some_bind, h9]
    split
    · exact ⟨_, rfl⟩
    · exact map_total _ _ (nss_score_total _ _ _ _ _)

/-- A window `n / m` with `1 ≤ m ≤ n`, stored in a `uint32_t`, is at least 1. -/
theorem window_pos (n : Int) (m : Nat) (hm1 : 1 ≤ m) (hmn : (m : Int) ≤ n)
    (hn : n < 4294967296) : 1 ≤ wrapU32 (Int.tdiv n m) := by
  have hm0 : (0 : Int) < m := by omega
  rw [Int.tdiv_eq_ediv (by omega) (by omega)]
  have h1 : 1 ≤ n / (m : Int) := Int.le_ediv_of_mul_le hm0 (by omega)
  have h2 : n / (m : Int) ≤ n := Int.ediv_le_self _ (by omega)
  rw [wrapU32_id (by omega) (by omega)]
  exact h1

/-- Claim C31: under the divisor invariant (thresholds ordered and within
0..127, bucket sizes in 1..127) and for every slot count, no division by zero
occurs: the aggregator and the slot mapper on both windows return, the number
of slots the slot mapper divides by is at least 1 on both windows, and after a
congestion or OCE WAN scorer has run with a slot count other than 0 the slot
count is in 1..15 and the window 100 / num_slot, respectively 15 / num_slot, is
at least 1. -/
theorem no_division_by_zero (reg : reg_services) (psoc : wlan_objmgr_psoc)
    (entry : scan_cache_entry) (pcl_chan_weight : Int) (score_config : scoring_config)
    (hs : psoc.scan_obj = some score_config)
    (hinv : score_config.rssi_score.divisor_invariant) :
    (∃ r, scm_calculate_bss_score reg psoc entry pcl_chan_weight = some r) ∧
    (1 ≤ wrapU32 (wrapI8 (wrapU32 (wrapU32 (wrapI32
        (-(score_config.rssi_score.best_rssi_threshold : Int) -
          -(score_config.rssi_score.good_rssi_threshold : Int))) /
        (score_config.rssi_score.good_rssi_bucket_size : Int) + 1))) ∧
      ∀ hp lp v, ∃ p,
        scm_get_rssi_pcnt_for_slot (-(score_config.rssi_score.best_rssi_threshold : Int))
          (-(score_config.rssi_score.good_rssi_threshold : Int)) hp lp
          score_config.rssi_score.good_rssi_bucket_size v = some p) ∧
    (1 ≤ wrapU32 (wrapI8 (wrapU32 (wrapU32 (wrapI32
        (-(score_config.rssi_score.good_rssi_threshold : Int) -
          -(score_config.rssi_score.bad_rssi_threshold : Int))) /
        (score_config.rssi_score.bad_rssi_bucket_size : Int) + 1))) ∧
      ∀ hp lp v, ∃ p,
        scm_get_rssi_pcnt_for_slot (-(score_config.rssi_score.good_rssi_threshold : Int))
          (-(score_config.rssi_score.bad_rssi_threshold : Int)) hp lp
          score_config.rssi_score.bad_rssi_bucket_size v = some p) ∧
    (∃ cr, scm_calculate_congestion_score entry score_config = some cr ∧
      (score_config.esp_qbss_scoring.num_slot ≠ 0 →
        1 ≤ cr.score_params.esp_qbss_scoring.num_slot ∧
        cr.score_params.esp_qbss_scoring.num_slot ≤ 15 ∧
        1 ≤ wrapU32 (Int.tdiv MAX_PCT_SCORE cr.score_params.esp_qbss_scoring.num_slot))) ∧
    (∃ ow, scm_calculate_oce_wan_score entry score_config = some ow ∧
      (score_config.oce_wan_scoring.num_slot ≠ 0 →
        1 ≤ ow.score_params.oce_wan_scoring.num_slot ∧
        ow.score_params.oce_wan_scoring.num_slot ≤ 15 ∧
        1 ≤ wrapU32
          (Int.tdiv SCM_SCORE_MAX_INDEX ow.score_params.oce_wan_scoring.num_slot))) := by
  have hinv0 := hinv
  obtain ⟨hbg, hgb, hb, hg0, hg1, hb0, hb1⟩ := hinv
  refine ⟨bss_score_total_inv reg psoc entry pcl_chan_weight score_config hs hinv0,
    ⟨slot_divisor_pos _ _ _ (by omega) (by omega) (by omega),
      fun hp lp v => slot_total _ _ hp lp _ v (by omega) (by omega) (by omega)⟩,
    ⟨slot_divisor_pos _ _ _ (by omega) (by omega) (by omega),
      fun hp lp v => slot_total _ _ hp lp _ v (by omega) (by omega) (by omega)⟩, ?_, ?_⟩
  · obtain ⟨cr, hcr⟩ := congestion_total entry score_config
    have hcfg := (congestion_config _ _ _ hcr).1
    refine ⟨cr, hcr, ?_⟩
    intro hn
    have hnum : cr.score_params.esp_qbss_scoring.num_slot =
        min score_config.esp_qbss_scoring.num_slot 15 := by rw [hcfg]
    have h1 : 1 ≤ cr.score_params.esp_qbss_scoring.num_slot := by rw [hnum]; omega
    have h15 : cr.score_params.esp_qbss_scoring.num_slot ≤ 15 := by rw [hnum]; omega
    exact ⟨h1, h15, window_pos MAX_PCT_SCORE _ h1 (by unfold MAX_PCT_SCORE; omega)
      (by unfold MAX_PCT_SCORE; omega)⟩
  · obtain ⟨ow, how⟩ := oce_wan_total entry score_config
    have hcfg := oce_wan_config _ _ _ how
    refine ⟨ow, how, ?_⟩
    intro hn
    have hnum : ow.score_params.oce_wan_scoring.num_slot =
        min score_config.oce_wan_scoring.num_slot 15 := by rw [hcfg]
    have h1 : 1 ≤ ow.score_params.oce_wan_scoring.num_slot := by rw [hnum]; omega
    have h15 : ow.score_params.oce_wan_scoring.num_slot ≤ 15 := by rw [hnum]; omega
    exact ⟨h1, h15, window_pos SCM_SCORE_MAX_INDEX _ h1
      (by unfold SCM_SCORE_MAX_INDEX; omega) (by unfold SCM_SCORE_MAX_INDEX; omega)⟩

/-- Witness for claim C31: the configuration whose two slot counts are 200,
with a candidate on a channel loaded at 25 percent. -/
theorem no_division_by_zero_witness :
    (wide_slot_psoc.scan_obj = some wide_slot_config ∧
      wide_slot_config.rssi_score.divisor_invariant) ∧
    (∃ r, scm_calculate_bss_score sample_reg wide_slot_psoc sample_bss_loaded 0 = some r) ∧
    (∃ cr, scm_calculate_congestion_score sample_bss_loaded wide_slot_config = some cr ∧
      (wide_slot_config.esp_qbss_scoring.num_slot ≠ 0 →
        1 ≤ cr.score_params.esp_qbss_scoring.num_slot ∧
        cr.score_params.esp_qbss_scoring.num_slot ≤ 15 ∧
        1 ≤ wrapU32
          (Int.tdiv MAX_PCT_SCORE cr.score_params.esp_qbss_scoring.num_slot))) :=
  ⟨⟨rfl, by decide⟩,
    (no_division_by_zero sample_reg wide_slot_psoc sample_bss_loaded 0 wide_slot_config rfl
      (by decide)).1,
    (no_division_by_zero sample_reg wide_slot_psoc sample_bss_loaded 0 wide_slot_config rfl
      (by decide)).2.2.2.1⟩

/-! ## Packed tables and the flat table -/

/-- Claim C32: for every slot index in 0..15 and every 8-bit weightage the
packed lookup returns the weightage times the entry of the flat 16-entry table
at that index, where entry `4 * g + k` of the flat table is byte `k` of group
`g`, the groups being `score_pcnt3_to_0`, `score_pcnt7_to_4`,
`score_pcnt11_to_8` and `score_pcnt15_to_12`. -/
theorem scm_get_score_for_index_flat (i w : Int) (s : per_slot_scoring)
    (hi0 : 0 ≤ i) (hi1 : i ≤ 15) (hw0 : 0 ≤ w) (hw1 : w ≤ 255) :
    scm_get_score_for_index i w s = some (w * s.table i) ∧
    (∀ k : Nat, k ≤ 3 →
      s.table k = ((s.score_pcnt3_to_0 : Int) / 256 ^ k) % 256 ∧
      s.table (4 + k) = ((s.score_pcnt7_to_4 : Int) / 256 ^ k) % 256 ∧
      s.table (8 + k) = ((s.score_pcnt11_to_8 : Int) / 256 ^ k) % 256 ∧
      s.table (12 + k) = ((s.score_pcnt15_to_12 : Int) / 256 ^ k) % 256) := by
  refine ⟨score_for_index_table i w s hi0 hi1 hw0 hw1, ?_⟩
  intro k hk
  unfold per_slot_scoring.table
  interval_cases k <;> simp

/-- Witness for claim C32: at the group boundary between the slots 3 and 4 the
congestion table of `slot_config` (weightage 5) gives 5 * 3 and 5 * 4. -/
theorem scm_get_score_for_index_flat_witness :
    ((0 : Int) ≤ 4 ∧ (4 : Int) ≤ 15 ∧ (0 : Int) ≤ 5 ∧ (5 : Int) ≤ 255) ∧
    slot_config.esp_qbss_scoring.table 3 = 3 ∧ slot_config.esp_qbss_scoring.table 4 = 4 ∧
    scm_get_score_for_index 3 5 slot_config.esp_qbss_scoring = some 15 ∧
    scm_get_score_for_index 4 5 slot_config.esp_qbss_scoring =
      some (5 * slot_config.esp_qbss_scoring.table 4) :=
  ⟨by decide, by decide, by decide, by decide,
    (scm_get_score_for_index_flat 4 5 slot_config.esp_qbss_scoring (by decide) (by decide)
      (by decide) (by decide)).1⟩

/-! ## Aggregator: capability sub-scores -/

/-- What a returned aggregator run holds for the capability sub-scores, read
off the code: the prorated percentage stored in its `uint8_t` local, and the HT,
VHT and HE sub-scores. -/
theorem bss_score_inv_caps (reg : reg_services) (psoc : wlan_objmgr_psoc)
    (entry : scan_cache_entry) (pcl_chan_weight : Int) (score_config : scoring_config)
    (r : bss_score_result)
    (hs : psoc.scan_obj = some score_config)
    (hr : scm_calculate_bss_score reg psoc entry pcl_chan_weight = some r) :
    ∃ pr, scm_roam_calculate_prorated_pcnt_by_rssi score_config.rssi_score entry.rssi_raw
          score_config.weight_cfg.rssi_weightage = some pr ∧
      r.locals.prorated_pcnt = wrapU8 pr ∧
      r.locals.ht_score =
        (if score_config.ht_cap = true ∧ (entry.ie_list.htcap = true ∨
            reg.WLAN_REG_IS_6GHZ_CHAN_FREQ entry.chan_freq = true) then
          wrapI32 (wrapU8 pr * score_config.weight_cfg.ht_caps_weightage)
        else 0) ∧
      r.locals.vht_score =
        (if r.locals.is_vht = true ∧ (entry.ie_list.vhtcap.isSome = true ∨
            reg.WLAN_REG_IS_6GHZ_CHAN_FREQ entry.chan_freq = true) then
          wrapI32 (wrapU8 pr * score_config.weight_cfg.vht_caps_weightage)
        else 0) ∧
      r.locals.he_score =
        (if score_config.he_cap = true ∧ entry.ie_list.hecap = true then
          wrapI32 (wrapU8 pr * score_config.weight_cfg.he_caps_weightage)
        else 0) := by
  unfold scm_calculate_bss_score at hr
  simp only [wlan_psoc_get_scan_obj, hs, Option.bind_eq_some] at hr
  obtain ⟨rs, h1, ps, h2, pr, h3, bw, h4, sb, h5, cg, h6, g, h7, tx, h8, h9⟩ := hr
  refine ⟨pr, h3, ?_⟩
  by_cases hp : wlan_objmgr_get_pdev_by_id psoc entry.pdev_id = false
  · rw [if_pos hp] at h9
    simp only [Option.some.injEq] at h9
    subst h9
    exact ⟨rfl, rfl, rfl, rfl⟩
  · rw [if_neg hp] at h9
    simp only [Option.map_eq_some'] at h9
    obtain ⟨nss, _, h9⟩ := h9
    subst h9
    exact ⟨rfl, rfl, rfl, rfl⟩

/-- The product of the prorated percentage and an 8-bit weightage fits the
`int32_t` sub-score. -/
theorem caps_product (pr : Int) (w : Nat) (hw : w ≤ 255) :
    wrapI32 (wrapU8 pr * (w : Int)) = wrapU8 pr * (w : Int) := by
  have h0 : 0 ≤ wrapU8 pr := by unfold wrapU8; omega
  have h1 : wrapU8 pr ≤ 255 := by unfold wrapU8; omega
  have h2 : 0 ≤ wrapU8 pr * (w : Int) := mul_nonneg h0 (by omega)
  have h3 : wrapU8 pr * (w : Int) ≤ 255 * 255 :=
    mul_le_mul h1 (by omega) (by omega) (by omega)
  exact wrapI32_id (by omega) (by omega)

/-- Claim C33, counterexample: for a station with VHT on 5 and 6 GHz only, a
6 GHz candidate without any capability element gets the VHT sub-score 100 at
-50 dBm, and a 2.4 GHz candidate advertising HT and VHT at the same RSSI gets
the same HT sub-score 200 but the VHT sub-score 0. -/
theorem scm_calculate_bss_score_vht_6g_vs_2g :
    (sample_reg.WLAN_REG_IS_6GHZ_CHAN_FREQ sample_bss_6g.chan_freq = true ∧
      sample_reg.WLAN_REG_IS_24GHZ_CH_FREQ sample_bss_full_2g.chan_freq = true ∧
      sample_bss_full_2g.ie_list.htcap = true ∧
      sample_bss_full_2g.ie_list.vhtcap.isSome = true ∧
      sample_bss_6g.rssi_raw = sample_bss_full_2g.rssi_raw) ∧
    (scm_calculate_bss_score sample_reg vht_5g_only_psoc sample_bss_6g 0).map
        (fun r => (r.locals.prorated_pcnt, r.locals.ht_score, r.locals.vht_score)) =
      some (100, 200, 100) ∧
    (scm_calculate_bss_score sample_reg vht_5g_only_psoc sample_bss_full_2g 0).map
        (fun r => (r.locals.prorated_pcnt, r.locals.ht_score, r.locals.vht_score)) =
      some (100, 200, 0) :=
  ⟨by decide, by decide, by decide⟩

/-- Claim C33, amended: for a well-formed configuration with 8-bit weightages
the aggregator returns, and with `p` the prorated percentage it holds in its
8-bit local, the HT sub-score is `p * ht_caps_weightage` when the station
supports HT and the candidate carries an HT element or is on 6 GHz, the VHT
sub-score is `p * vht_caps_weightage` when VHT is applicable on the candidate's
band and the candidate carries a VHT element or is on 6 GHz, the HE sub-score
is `p * he_caps_weightage` when the station supports HE and the candidate
carries an HE element, and each is 0 otherwise.  A 6 GHz candidate at the same
RSSI has the HT sub-score of a candidate carrying an HT element, and the VHT
sub-score of a candidate carrying a VHT element on a band where VHT is as
applicable as on the 6 GHz candidate's band. -/
theorem scm_calculate_bss_score_capability_scores (reg : reg_services)
    (psoc : wlan_objmgr_psoc) (entry : scan_cache_entry) (pcl_chan_weight : Int)
    (score_config : scoring_config)
    (hs : psoc.scan_obj = some score_config)
    (hwf : score_config.rssi_score.well_formed)
    (hht : score_config.weight_cfg.ht_caps_weightage ≤ 255)
    (hvht : score_config.weight_cfg.vht_caps_weightage ≤ 255)
    (hhe : score_config.weight_cfg.he_caps_weightage ≤ 255) :
    ∃ r pr, scm_calculate_bss_score reg psoc entry pcl_chan_weight = some r ∧
      scm_roam_calculate_prorated_pcnt_by_rssi score_config.rssi_score entry.rssi_raw
          score_config.weight_cfg.rssi_weightage = some pr ∧
      r.locals.prorated_pcnt = wrapU8 pr ∧
      r.locals.ht_score =
        (if score_config.ht_cap = true ∧ (entry.ie_list.htcap = true ∨
            reg.WLAN_REG_IS_6GHZ_CHAN_FREQ entry.chan_freq = true) then
          r.locals.prorated_pcnt * (score_config.weight_cfg.ht_caps_weightage : Int)
        else 0) ∧
      r.locals.vht_score =
        (if (if reg.WLAN_REG_IS_24GHZ_CH_FREQ entry.chan_freq = true then
                score_config.vht_24G_cap
              else score_config.vht_cap) = true ∧
            (entry.ie_list.vhtcap.isSome = true ∨
              reg.WLAN_REG_IS_6GHZ_CHAN_FREQ entry.chan_freq = true) then
          r.locals.prorated_pcnt * (score_config.weight_cfg.vht_caps_weightage : Int)
        else 0) ∧
      r.locals.he_score =
        (if score_config.he_cap = true ∧ entry.ie_list.hecap = true then
          r.locals.prorated_pcnt * (score_config.weight_cfg.he_caps_weightage : Int)
        else 0) ∧
      (wlan_objmgr_get_pdev_by_id psoc entry.pdev_id = true →
        r.ret = r.locals.running_total) ∧
      (∀ (e6 : scan_cache_entry) (pcl6 : Int) (r6 : bss_score_result),
        scm_calculate_bss_score reg psoc e6 pcl6 = some r6 →
        reg.WLAN_REG_IS_6GHZ_CHAN_FREQ e6.chan_freq = true →
        e6.rssi_raw = entry.rssi_raw →
        (entry.ie_list.htcap = true → r6.locals.ht_score = r.locals.ht_score) ∧
        (entry.ie_list.vhtcap.isSome = true →
          (if reg.WLAN_REG_IS_24GHZ_CH_FREQ e6.chan_freq = true then
              score_config.vht_24G_cap
            else score_config.vht_cap) =
            (if reg.WLAN_REG_IS_24GHZ_CH_FREQ entry.chan_freq = true then
              score_config.vht_24G_cap
            else score_config.vht_cap) →
          r6.locals.vht_score = r.locals.vht_score)) := by
  obtain ⟨r, hr⟩ := bss_score_total reg psoc entry pcl_chan_weight score_config hs hwf
  obtain ⟨pr, hpr, hp, hh, hv, he⟩ :=
    bss_score_inv_caps reg psoc entry pcl_chan_weight score_config r hs hr
  obtain ⟨_, _, _, _, _, _, hisvht, _, _, _, _, _, _⟩ :=
    bss_score_inv reg psoc entry pcl_chan_weight score_config r hs hr
  have hiv : ∀ (b24 v24 v : Bool),
      ((if b24 = true then (if v24 = true then true else false)
        else if v = true then true else false) = true) ↔
      ((if b24 = true then v24 else v) = true) := by
    intro b24 v24 v
    cases b24 <;> cases v24 <;> cases v <;> simp
  have hvform : ∀ (e : scan_cache_entry) (q : bss_score_result),
      q.locals.is_vht =
        (if reg.WLAN_REG_IS_24GHZ_CH_FREQ e.chan_freq = true then
          (if score_config.vht_24G_cap = true then true else false)
        else if score_config.vht_cap = true then true
        else false) →
      (q.locals.is_vht = true ↔
        (if reg.WLAN_REG_IS_24GHZ_CH_FREQ e.chan_freq = true then
            score_config.vht_24G_cap
          else score_config.vht_cap) = true) := by
    intro e q hq
    rw [hq]
    exact hiv _ _ _
  have hvr := hvform entry r hisvht
  have hhr : r.locals.ht_score =
      (if score_config.ht_cap = true ∧ (entry.ie_list.htcap = true ∨
          reg.WLAN_REG_IS_6GHZ_CHAN_FREQ entry.chan_freq = true) then
        r.locals.prorated_pcnt * (score_config.weight_cfg.ht_caps_weightage : Int)
      else 0) := by
    rw [hh, hp, caps_product pr _ hht]
  have hvr2 : r.locals.vht_score =
      (if (if reg.WLAN_REG_IS_24GHZ_CH_FREQ entry.chan_freq = true then
              score_config.vht_24G_cap
            else score_config.vht_cap) = true ∧
          (entry.ie_list.vhtcap.isSome = true ∨
            reg.WLAN_REG_IS_6GHZ_CHAN_FREQ entry.chan_freq = true) then
        r.locals.prorated_pcnt * (score_config.weight_cfg.vht_caps_weightage : Int)
      else 0) := by
    rw [hv, hp, caps_product pr _ hvht]
    exact if_congr (and_congr hvr Iff.rfl) rfl rfl
  refine ⟨r, pr, hr, hpr, hp, hhr, hvr2, ?_,
    fun h => bss_score_ret reg psoc entry pcl_chan_weight score_config r hs hr h, ?_⟩
  · rw [he, hp, caps_product pr _ hhe]
  · intro e6 pcl6 r6 hr6 h6 hrssi
    obtain ⟨pr6, hpr6, hp6, hh6, hv6, _⟩ :=
      bss_score_inv_caps reg psoc e6 pcl6 score_config r6 hs hr6
    obtain ⟨_, _, _, _, _, _, hisvht6, _, _, _, _, _, _⟩ :=
      bss_score_inv reg psoc e6 pcl6 score_config r6 hs hr6
    have hv6r := hvform e6 r6 hisvht6
    rw [hrssi, hpr] at hpr6
    simp only [Option.some.injEq] at hpr6
    subst hpr6
    constructor
    · intro hcap
      rw [hh6, hh]
      simp only [h6, hcap, or_true, true_or]
    · intro hcap happ
      rw [hv6, hv]
      apply if_congr _ rfl rfl
      simp only [h6, hcap, or_true, true_or, and_true]
      rw [hv6r, hvr, happ]

/-- Witness for claim C33: under the full configuration the 5180 MHz candidate
advertising HT and VHT gets the HT sub-score 100 * 2, and the 6 GHz candidate
without capability elements at the same RSSI gets the same HT and VHT
sub-scores. -/
theorem scm_calculate_bss_score_capability_scores_witness :
    (full_psoc.scan_obj = some full_config ∧ full_config.rssi_score.well_formed ∧
      full_config.weight_cfg.ht_caps_weightage ≤ 255 ∧
      full_config.weight_cfg.vht_caps_weightage ≤ 255 ∧
      full_config.weight_cfg.he_caps_weightage ≤ 255) ∧
    (scm_calculate_bss_score sample_reg full_psoc sample_bss_full_5g 0).map
        (fun r => (r.locals.prorated_pcnt, r.locals.ht_score, r.locals.vht_score,
          r.locals.he_score)) = some (100, 200, 100, 200) ∧
    ∃ r r6, scm_calculate_bss_score sample_reg full_psoc sample_bss_full_5g 0 = some r ∧
      scm_calculate_bss_score sample_reg full_psoc sample_bss_6g 0 = some r6 ∧
      r6.locals.ht_score = r.locals.ht_score ∧ r6.locals.vht_score = r.locals.vht_score := by
  obtain ⟨r, pr, hr, _, _, _, _, _, _, hrel⟩ :=
    scm_calculate_bss_score_capability_scores sample_reg full_psoc sample_bss_full_5g 0
      full_config rfl (by decide) (by decide) (by decide) (by decide)
  obtain ⟨r6, hr6⟩ := bss_score_total sample_reg full_psoc sample_bss_6g 0 full_config rfl
    (by decide)
  have h := hrel sample_bss_6g 0 r6 hr6 (by decide) (by decide)
  exact ⟨⟨rfl, by decide, by decide, by decide, by decide⟩, by decide, r, r6, hr, hr6,
    h.1 (by decide), h.2 (by decide) (by decide)⟩

/-! ## RSSI score and signal strength -/

/-- Claim C34: under a configuration with percentages 0 and 22, thresholds -65,
-75 and -85 dBm and bucket sizes 5 and 3, the RSSI -85 dBm scores 0 and the
stronger RSSI -84 dBm scores -20: the score drops across the bad threshold. -/
theorem scm_calculate_rssi_score_not_monotone :
    (uneven_rssi_cfg.bad_rssi_pcnt ≤ uneven_rssi_cfg.good_rssi_pcnt ∧
      uneven_rssi_cfg.good_rssi_pcnt ≤ 100 ∧
      uneven_rssi_cfg.best_rssi_threshold < uneven_rssi_cfg.good_rssi_threshold ∧
      uneven_rssi_cfg.good_rssi_threshold < uneven_rssi_cfg.bad_rssi_threshold ∧
      0 < uneven_rssi_cfg.good_rssi_bucket_size ∧
      0 < uneven_rssi_cfg.bad_rssi_bucket_size) ∧
    (-85 : Int) ≤ -84 ∧
    scm_calculate_rssi_score uneven_rssi_cfg (-85) 10 = some 0 ∧
    scm_calculate_rssi_score uneven_rssi_cfg (-84) 10 = some (-20) ∧
    ¬ ((0 : Int) ≤ -20) :=
  ⟨by decide, by decide, by decide, by decide, by decide⟩

/-! ## PCL weight lookup -/

/-- The lookup loop from index `i` on, when the `k` entries it may visit lie
within both arrays: it returns; when it finds the frequency, it is at the first
index from `i` on holding it, and the output is the weight there; when it does
not, no visited entry holds the frequency and the output is untouched. -/
theorem pcl_loop_spec (chan_freq : Nat) (filter : scan_filter) (w0 : Int) (k : Nat) :
    ∀ i : Nat, i + k ≤ filter.pcl_freq_list.length →
      i + k ≤ filter.pcl_weight_list.length →
      ∃ r, scm_get_pcl_weight_of_channel_loop chan_freq filter w0 i k = some r ∧
        (r.found = true →
          ∃ j w, i ≤ j ∧ j < i + k ∧ filter.pcl_freq_list.get? j = some chan_freq ∧
            (∀ j2, i ≤ j2 → j2 < j → filter.pcl_freq_list.get? j2 ≠ some chan_freq) ∧
            filter.pcl_weight_list.get? j = some w ∧ r.pcl_chan_weight = wrapI32 w) ∧
        (r.found = false →
          r.pcl_chan_weight = w0 ∧
          ∀ j, i ≤ j → j < i + k → filter.pcl_freq_list.get? j ≠ some chan_freq) := by
  induction k with
  | zero =>
    intro i _ _
    refine ⟨⟨false, w0⟩, rfl, ?_, ?_⟩
    · intro h
      simp at h
    · intro _
      refine ⟨rfl, ?_⟩
      intro j h1 h2
      omega
  | succ k ih =>
    intro i hf hw
    obtain ⟨f, hfi⟩ : ∃ f, filter.pcl_freq_list.get? i = some f :=
      ⟨_, List.get?_eq_get (by omega)⟩
    obtain ⟨w, hwi⟩ : ∃ w, filter.pcl_weight_list.get? i = some w :=
      ⟨_, List.get?_eq_get (by omega)⟩
    unfold scm_get_pcl_weight_of_channel_loop
    simp only [hfi]
    by_cases heq : f = chan_freq
    · simp only [if_pos heq, hwi, Option.map_some']
      refine ⟨_, rfl, ?_, ?_⟩
      · intro _
        refine ⟨i, w, le_refl i, by omega, by rw [hfi, heq], ?_, hwi, rfl⟩
        intro j2 h1 h2
        omega
      · intro h
        simp at h
    · simp only [if_neg heq]
      obtain ⟨r, hr, ht, hn⟩ := ih (i + 1) (by omega) (by omega)
      refine ⟨r, hr, ?_, ?_⟩
      · intro h
        obtain ⟨j, w2, h1, h2, h3, h4, h5, h6⟩ := ht h
        refine ⟨j, w2, by omega, by omega, h3, ?_, h5, h6⟩
        intro j2 hj1 hj2
        by_cases hji : j2 = i
        · rw [hji, hfi]
          intro hc
          exact heq (Option.some.inj hc)
        · exact h4 j2 (by omega) hj2
      · intro h
        obtain ⟨h1, h2⟩ := hn h
        refine ⟨h1, ?_⟩
        intro j hj1 hj2
        by_cases hji : j = i
        · rw [hji, hfi]
          intro hc
          exact heq (Option.some.inj hc)
        · exact h2 j (by omega) (by omega)

/-- Claim C35: for every frequency and every filter that is null or whose
`num_of_pcl_channels` entries lie within its two arrays, with 8-bit weights,
the lookup returns; it returns true exactly when the filter is not null and the
frequency is among the first `num_of_pcl_channels` entries of `pcl_freq_list`;
when it returns true the output weight is the entry of `pcl_weight_list` at the
smallest such index, and when it returns false the output weight is the one it
held before the call. -/
theorem scm_get_pcl_weight_of_channel_spec (chan_freq : Nat)
    (filter : Option scan_filter) (w0 : Int) (weight_list : List Nat)
    (hb : ∀ flt, filter = some flt →
      flt.num_of_pcl_channels ≤ flt.pcl_freq_list.length ∧
      flt.num_of_pcl_channels ≤ flt.pcl_weight_list.length ∧
      ∀ w ∈ flt.pcl_weight_list, w ≤ 255) :
    ∃ r, scm_get_pcl_weight_of_channel chan_freq filter w0 weight_list = some r ∧
      (r.found = true ↔
        ∃ flt, filter = some flt ∧
          ∃ i, i < flt.num_of_pcl_channels ∧ flt.pcl_freq_list.get? i = some chan_freq) ∧
      (r.found = true →
        ∃ flt i w, filter = some flt ∧ i < flt.num_of_pcl_channels ∧
          flt.pcl_freq_list.get? i = some chan_freq ∧
          (∀ j, j < i → flt.pcl_freq_list.get? j ≠ some chan_freq) ∧
          flt.pcl_weight_list.get? i = some w ∧ r.pcl_chan_weight = (w : Int)) ∧
      (r.found = false → r.pcl_chan_weight = w0) := by
  cases filter with
  | none =>
    refine ⟨⟨false, w0⟩, rfl, ?_, ?_, fun _ => rfl⟩
    · constructor
      · intro h
        simp at h
      · rintro ⟨flt, hflt, _⟩
        simp at hflt
    · intro h
      simp at h
  | some flt =>
    obtain ⟨hf, hw, h255⟩ := hb flt rfl
    obtain ⟨r, hr, ht, hn⟩ :=
      pcl_loop_spec chan_freq flt w0 flt.num_of_pcl_channels 0 (by omega) (by omega)
    refine ⟨r, hr, ?_, ?_, fun h => (hn h).1⟩
    · constructor
      · intro h
        obtain ⟨j, w, _, h2, h3, _⟩ := ht h
        exact ⟨flt, rfl, j, by omega, h3⟩
      · rintro ⟨flt2, hflt, i, hi, hfi⟩
        simp only [Option.some.injEq] at hflt
        subst hflt
        cases hfound : r.found
        · exact absurd hfi ((hn hfound).2 i (by omega) (by omega))
        · rfl
    · intro h
      obtain ⟨j, w, _, h2, h3, h4, h5, h6⟩ := ht h
      refine ⟨flt, j, w, rfl, by omega, h3, fun j2 hj2 => h4 j2 (by omega) hj2, h5, ?_⟩
      have hmem : w ∈ flt.pcl_weight_list := List.get?_mem h5
      have hwle := h255 w hmem
      rw [h6]
      exact wrapI32_id (by omega) (by omega)

/-- Witness for claim C35: in a filter listing 2437, 5180 and 5180 MHz with
weights 255, 235 and 215, the frequency 5180 MHz is found with weight 235, the
weight at the smaller of its two indices. -/
theorem scm_get_pcl_weight_of_channel_spec_witness :
    (∀ flt, some sample_filter = some flt →
      flt.num_of_pcl_channels ≤ flt.pcl_freq_list.length ∧
      flt.num_of_pcl_channels ≤ flt.pcl_weight_list.length ∧
      ∀ w ∈ flt.pcl_weight_list, w ≤ 255) ∧
    (scm_get_pcl_weight_of_channel 5180 (some sample_filter) 0 []).map
        (fun r => (r.found, r.pcl_chan_weight)) = some (true, 235) ∧
    ∃ r, scm_get_pcl_weight_of_channel 5180 (some sample_filter) 0 [] = some r ∧
      (r.found = true ↔
        ∃ flt, some sample_filter = some flt ∧
          ∃ i, i < flt.num_of_pcl_channels ∧ flt.pcl_freq_list.get? i = some 5180) := by
  have hb : ∀ flt, some sample_filter = some flt →
      flt.num_of_pcl_channels ≤ flt.pcl_freq_list.length ∧
      flt.num_of_pcl_channels ≤ flt.pcl_weight_list.length ∧
      ∀ w ∈ flt.pcl_weight_list, w ≤ 255 := by
    intro flt h
    simp only [Option.some.injEq] at h
    subst h
    decide
  obtain ⟨r, hr, hiff, _, _⟩ := scm_get_pcl_weight_of_channel_spec 5180 (some sample_filter)
    0 [] hb
  exact ⟨hb, by decide, r, hr, hiff⟩

end ScanBssScore
